import Mathlib

/-!
# Profile task handlers of the QN9020 BLE application layer

A shallow embedding of the message handlers and helper functions of the
profile tasks (battery service server, heart rate sensor, scan parameters
server, cycling speed and cadence sensor, HID device, glucose sensor, alert
notification and other client roles), of the sleep decision of the main loop
and of the random number generator driver, and their contracts.

Conventions of the embedding.

* A handler is a pure function.  It receives the profile environment (the
  global `xxx_env` of the C file), the state of the task as kept by the kernel
  (`ke_state_get`) and the message parameters, and returns a `Res`: the new
  environment, the new task state, the list of calls made to the closed stack
  (in program order) and the value returned to the kernel.
* The closed stack (kernel, attribute database, GAP) is not part of the
  sources.  Calls that only act on the stack are recorded in the call list;
  calls whose result is used by the handler take that result from a function
  passed to the handler (`gap_get_rec_idx`, `atts_svc_create_db`, ...).
* `uint8_t`, `uint16_t` and `uint32_t` values are natural numbers; a
  truncation is written where the C code converts to a narrower type.  Sums of
  handles that are only compared are computed in `int`, as C does, and are not
  truncated.
* C arrays are functions from the index to the element.
* `ASSERT_ERR` is a debugging aid and is not modelled.
-/

/-! ## Constants of headers that are not among the sources

The headers that define the constants used by the handlers are not among the
sources.  The spec fixes the client configuration values `0x0000` (stop) and
`0x0001` (start).  The other constants are given values that agree with the
way the handlers use them: distinct status codes with success equal to zero,
task states in the order of the state handler tables, attribute indices in the
order of the attribute tables, one bit for each flag.  The theorems use these
values only through comparisons between constants. -/

/-- Modelled from the spec: `prf_types.h` is not among the sources.  The spec
fixes `0x0000` as the client configuration value that stops notifications. -/
def PRF_CLI_STOP_NTFIND : Nat := 0x0000
/-- Modelled from the spec: `prf_types.h` is not among the sources.  The spec
fixes `0x0001` as the client configuration value that starts notifications. -/
def PRF_CLI_START_NTF : Nat := 0x0001
/-- Modelled from the spec: `prf_types.h` is not among the sources; the
enumerator that follows `PRF_CLI_START_NTF`. -/
def PRF_CLI_START_IND : Nat := 0x0002

/-- Modelled from the spec: `prf_types.h` is not among the sources; connection
type of a discovery connection. -/
def PRF_CON_DISCOVERY : Nat := 0x00
/-- Modelled from the spec: `prf_types.h` is not among the sources; connection
type of a normal (bonded) connection. -/
def PRF_CON_NORMAL : Nat := 0x01

/-- Modelled from the spec: `prf_types.h` is not among the sources; the success
status. -/
def PRF_ERR_OK : Nat := 0x00
/-- Modelled from the spec: `prf_types.h` is not among the sources; application
error status. -/
def PRF_APP_ERROR : Nat := 0x80
/-- Modelled from the spec: `prf_types.h` is not among the sources; the
invalid-parameter status. -/
def PRF_ERR_INVALID_PARAM : Nat := 0x81
/-- Modelled from the spec: `prf_types.h` is not among the sources; the
request-disallowed status. -/
def PRF_ERR_REQ_DISALLOWED : Nat := 0x8A
/-- Modelled from the spec: `prf_types.h` is not among the sources; the
notifications-disabled status. -/
def PRF_ERR_NTF_DISABLED : Nat := 0x8B
/-- Modelled from the spec: `prf_types.h` is not among the sources; status of a
write while the client configuration descriptor is improperly configured. -/
def PRF_CCCD_IMPR_CONFIGURED : Nat := 0xFD

/-- Modelled from the spec: `atts.h` is not among the sources; the success
status of the attribute database. -/
def ATT_ERR_NO_ERROR : Nat := 0x00

/-- Modelled from the spec: `gap.h` is not among the sources; the connection
index returned for a connection handle absent from the connection table. -/
def GAP_INVALID_CONIDX : Nat := 0xFF
/-- Modelled from the spec: `gap.h` is not among the sources; the invalid
connection handle. -/
def GAP_INVALID_CONHDL : Nat := 0xFFFF

/-- Modelled from the spec: `ke_task.h` is not among the sources; task
identifiers used by the handlers. -/
def TASK_GATT : Nat := 10
/-- Modelled from the spec: `ke_task.h` is not among the sources. -/
def TASK_BASS : Nat := 30
/-- Modelled from the spec: `ke_task.h` is not among the sources. -/
def TASK_HRPS : Nat := 31
/-- Modelled from the spec: `ke_task.h` is not among the sources. -/
def TASK_SCPPS : Nat := 32
/-- Modelled from the spec: `ke_task.h` is not among the sources. -/
def TASK_CSCPS : Nat := 33
/-- Modelled from the spec: `ke_task.h` is not among the sources. -/
def TASK_HOGPD : Nat := 34

/-- Modelled from the spec: `atts.h` is not among the sources; the value of
`PERM(SVC, DISABLE)`. -/
def PERM_SVC_DISABLE : Nat := 0

/-- Truncation to `uint8_t`. -/
def u8 (x : Nat) : Nat := x % 256
/-- Truncation to `uint16_t`. -/
def u16 (x : Nat) : Nat := x % 65536
/-- Truncation to `uint32_t`. -/
def u32 (x : Nat) : Nat := x % 4294967296
/-- Conversion of a C `int` result to `uint32_t`. -/
def u32i (x : Int) : Nat := (x % 4294967296).toNat

/-- The C expression `(uint8_t)(flag & ~mask)` for a `uint8_t` flag. -/
def clr8 (flag mask : Nat) : Nat := u8 flag &&& (255 ^^^ u8 mask)
/-- The C expression `(uint16_t)(flag & ~mask)` for a `uint16_t` flag. -/
def clr16 (flag mask : Nat) : Nat := u16 flag &&& (65535 ^^^ u16 mask)

/-- Modelled from the spec: `co_utils.h` is not among the sources.  Reads the
little-endian 16-bit word made of the two bytes at the pointer. -/
def co_read16p (b0 b1 : Nat) : Nat := u8 b0 ||| (u8 b1 <<< 8)
/-- Modelled from the spec: `co_utils.h` is not among the sources.  Reads the
little-endian 32-bit word made of the four bytes at the pointer. -/
def co_read32p (b0 b1 b2 b3 : Nat) : Nat :=
  u8 b0 ||| (u8 b1 <<< 8) ||| (u8 b2 <<< 16) ||| (u8 b3 <<< 24)
/-- Modelled from the spec: `co_utils.h` is not among the sources.
`co_write16p(ptr, value)` stores the 16-bit `value` at `ptr`; the result is the
16-bit word found at `ptr` afterwards. -/
def co_write16p (value : Nat) : Nat := u16 value
/-- The two bytes, little-endian, of a 16-bit word in memory. -/
def bytes16 (v : Nat) : List Nat := [u8 v, u8 (v / 256)]
/-- The four bytes, little-endian, of a 32-bit word in memory. -/
def bytes32 (v : Nat) : List Nat := [u8 v, u8 (v / 256), u8 (v / 65536), u8 (v / 16777216)]

/-! ## Kernel messages and calls to the closed stack -/

/-- Value returned by a handler to the kernel (`ke_msg.h`). -/
inductive ke_msg_status
  | KE_MSG_CONSUMED
  | KE_MSG_NO_FREE
  | KE_MSG_SAVED
  deriving DecidableEq, Repr

/-- Message identifiers used by the handlers. -/
inductive ke_msg_id
  | GATT_NOTIFY_REQ
  | GATT_INDICATE_REQ
  | BASS_CREATE_DB_CFM
  | BASS_ENABLE_REQ
  | BASS_ERROR_IND
  | BASS_BATT_LEVEL_NTF_CFG_IND
  | HRPS_CREATE_DB_CFM
  | HRPS_ENABLE_REQ
  | HRPS_ERROR_IND
  | SCPPS_ENABLE_REQ
  | SCPPS_ERROR_IND
  | CSCPS_NTF_IND_CFG_IND
  | CSCPS_SC_CTNL_PT_REQ_IND
  | HOGPD_NTF_CFG_IND
  | HOGPD_DISABLE_IND
  | GLPS_DISABLE_IND
  | CSCPC_CMP_EVT
  | ANPC_CMP_EVT
  | PASPC_CMP_EVT
  | CSCPC_READ_CMD
  | ANPC_READ_CMD
  deriving DecidableEq, Repr

/-- Notification configuration of one HIDS instance reported in
`HOGPD_DISABLE_IND` (`struct hogpd_hids_ntf_cfg`); `report_ntf_en` is the array
of the Report characteristics. -/
structure hogpd_hids_ntf_cfg where
  boot_kb_in_report_ntf_en : Nat
  boot_mouse_in_report_ntf_en : Nat
  report_ntf_en : List Nat
  deriving DecidableEq, Repr

/-- Parameter structures of the messages allocated by the handlers. -/
inductive ke_msg_param
  | gatt_notify_req (conhdl charhdl : Nat)
  | gatt_indicate_req (conhdl charhdl : Nat)
  | bass_create_db_cfm (status : Nat)
  | bass_batt_level_ntf_cfg_ind (conhdl ntf_cfg bas_instance : Nat)
  | hrps_create_db_cfm (status : Nat)
  | cscps_ntf_ind_cfg_ind (conhdl char_code ntf_cfg : Nat)
  | cscps_sc_ctnl_pt_req_ind (conhdl op_code : Nat) (value : Option Nat)
  | hogpd_ntf_cfg_ind (conhdl ntf_en hids_nb report_nb cfg_code : Nat)
  | hogpd_disable_ind (conhdl : Nat) (ntf_cfg : List hogpd_hids_ntf_cfg)
  | glps_disable_ind (conhdl evt_cfg : Nat)
  | cscpc_cmp_evt (conhdl operation status : Nat)
  | anpc_cmp_evt (conhdl operation status : Nat)
  | paspc_cmp_evt (conhdl operation status : Nat)
  | stored_operation (request : Nat)
  deriving DecidableEq, Repr

/-- A kernel message as built by `KE_MSG_ALLOC(id, dest, src, type)` and then
filled in. -/
structure ke_msg where
  id : ke_msg_id
  dest_id : Nat
  src_id : Nat
  param : ke_msg_param
  deriving DecidableEq, Repr

/-- Connection information of a profile (`struct prf_con_info`). -/
structure prf_con_info where
  conhdl : Nat
  appid : Nat
  prf_id : Nat
  deriving DecidableEq, Repr

/-- A call made by a handler to the closed stack or to a helper of the profile
that is not among the sources. -/
inductive Call
  | ke_msg_send (msg : ke_msg)
  | ke_msg_free (msg : ke_msg)
  | atts_svc_create_db (cfg_flag nb_att dest_id : Nat)
  | attsdb_svc_set_permission (handle perm : Nat)
  | attsdb_att_set_permission (handle perm : Nat)
  | attsdb_att_partial_value_update (handle offset size : Nat) (value : List Nat)
  | attsdb_att_set_value (handle length : Nat) (value : List Nat)
  | atts_write_rsp_send (conhdl handle status : Nat)
  | prf_server_error_ind_send (con_info : prf_con_info) (status : Nat)
      (ind_msg_id msg_id : ke_msg_id)
  | cscps_send_cmp_evt (src_id dest_id conhdl operation status : Nat)
  | cscps_send_rsp_ind (handle req_op_code status : Nat)
  | bass_batt_level_upd_cfm_send (status : Nat)
  | scpps_scan_refresh_cfm_send (status : Nat)
  | prf_gatt_write (con_info : prf_con_info) (handle : Nat) (value : List Nat) (length : Nat)
      (req_type : Nat)
  deriving DecidableEq, Repr

/-- Outcome of a handler: environment and task state afterwards, the calls it
made in program order, and the value returned to the kernel. -/
structure Res (Env : Type) where
  env : Env
  state : Nat
  calls : List Call
  ret : ke_msg_status

/-- Holds of the calls that write to the attribute database. -/
def Call.isDbWrite : Call → Bool
  | .atts_svc_create_db _ _ _ => true
  | .attsdb_svc_set_permission _ _ => true
  | .attsdb_att_set_permission _ _ => true
  | .attsdb_att_partial_value_update _ _ _ _ => true
  | .attsdb_att_set_value _ _ _ => true
  | _ => false

/-- Holds of the calls that send a kernel message with the given identifier. -/
def Call.isMsg (id : ke_msg_id) : Call → Bool
  | .ke_msg_send m => decide (m.id = id)
  | _ => false

/-- Results of the calls to the closed stack whose return value a handler
uses.  The attribute database is a state of the stack, so the result of a
database call is a function of the calls the handler has made so far. -/
structure Stack where
  /-- The function `gap_get_rec_idx(conhdl)`: index of the connection record, or
  `GAP_INVALID_CONIDX`. -/
  gap_get_rec_idx : Nat → Nat
  /-- The function `atts_svc_create_db`: returned status, start handle written
  through `shdl`, and handle offsets written through `att_tbl`. -/
  atts_svc_create_db : List Call → Nat × Nat × (Nat → Nat)
  /-- The function `attsdb_svc_set_permission`: returned status. -/
  attsdb_svc_set_permission : List Call → Nat

/-- Parameters of `GATT_WRITE_CMD_IND`: `value` is the flexible array of the
written bytes. -/
structure gatt_write_cmd_ind where
  conhdl : Nat
  handle : Nat
  length : Nat
  offset : Nat
  last : Bool
  value : Nat → Nat

/-- Outcome of a function of a profile that returns nothing: environment and
task state afterwards and the calls it made in program order. -/
structure VRes (Env : Type) where
  env : Env
  state : Nat
  calls : List Call

/-- Outcome of a function of a profile that returns a status: environment
afterwards, the calls it made in program order, and the returned status. -/
structure FRes (Env : Type) where
  env : Env
  calls : List Call
  ret : Nat

/-! ## Battery service server: `bass_task.c` -/

namespace bass_task

/-- Modelled from the spec: `bass.h` is not among the sources; maximal number
of battery service instances. -/
def BASS_NB_BAS_INSTANCES_MAX : Nat := 2
/-- Modelled from the spec: `bass.h` is not among the sources; database
configuration flags. -/
def BAS_CFG_FLAG_MANDATORY_MASK : Nat := 0x07
/-- Modelled from the spec: `bass.h` is not among the sources. -/
def BAS_CFG_FLAG_NTF_SUP_MASK : Nat := 0x08
/-- Modelled from the spec: `bass.h` is not among the sources. -/
def BAS_CFG_FLAG_MTP_BAS_MASK : Nat := 0x10
/-- Modelled from the spec: `bass.h` is not among the sources; bit of
`features[i]` that records that the client enabled notifications. -/
def BASS_FLAG_NTF_CFG_BIT : Nat := 0x02
/-- Modelled from the spec: `bass.h` is not among the sources; value of
`features[i]` of an instance that supports notifications. -/
def BAS_BATT_LVL_NTF_SUP : Nat := 0x01
/-- Modelled from the spec: `bass.h` is not among the sources; offsets of the
attributes of one battery service from its start handle. -/
def BAS_IDX_BATT_LVL_CHAR : Nat := 1
/-- Modelled from the spec: `bass.h` is not among the sources. -/
def BAS_IDX_BATT_LVL_VAL : Nat := 2
/-- Modelled from the spec: `bass.h` is not among the sources. -/
def BAS_IDX_BATT_LVL_NTF_CFG : Nat := 3
/-- Modelled from the spec: `bass.h` is not among the sources. -/
def BAS_IDX_NB : Nat := 5
/-- Modelled from the spec: `bass_task.h` is not among the sources; states of
the task, in the order of `bass_state_handler`. -/
def BASS_DISABLED : Nat := 0
/-- Modelled from the spec: `bass_task.h` is not among the sources. -/
def BASS_IDLE : Nat := 1
/-- Modelled from the spec: `bass_task.h` is not among the sources. -/
def BASS_CONNECTED : Nat := 2
/-- Modelled from the spec: `atts.h` is not among the sources; the value of
`PERM(RD, ENABLE) | PERM(NTF, ENABLE)`. -/
def PERM_RD_NTF_ENABLE : Nat := 0x0101
/-- Modelled from the spec: `atts.h` is not among the sources; the value of
`ATT_CHAR_PROP_RD | ATT_CHAR_PROP_NTF`. -/
def ATT_CHAR_PROP_RD_NTF : Nat := 0x12
/-- Modelled from the spec: `prf_types.h` is not among the sources; size of a
packed characteristic presentation format. -/
def PRF_CHAR_PRES_FMT_SIZE : Nat := 7

/-- The structure `prf_char_pres_fmt`. -/
structure prf_char_pres_fmt where
  unit : Nat
  description : Nat
  format : Nat
  exponent : Nat
  name_space : Nat
  deriving DecidableEq, Repr

/-- Modelled from the spec: `prf_utils.c` is not among the sources (only the
declaration in `prf_utils.h`); packs the descriptor in its wire order. -/
def prf_pack_char_pres_fmt (f : prf_char_pres_fmt) : List Nat :=
  [u8 f.format, u8 f.exponent] ++ bytes16 f.unit ++ [u8 f.name_space] ++ bytes16 f.description

/-- The environment `bass_env` (`struct bass_env_tag`); the two arrays have
`BASS_NB_BAS_INSTANCES_MAX` elements. -/
structure bass_env_tag where
  con_info : prf_con_info
  shdl : Nat → Nat
  features : Nat → Nat
  bas_nb : Nat

/-- Parameters of `BASS_CREATE_DB_REQ`. -/
structure bass_create_db_req where
  bas_nb : Nat
  features : Nat → Nat

/-- Parameters of `BASS_ENABLE_REQ`. -/
structure bass_enable_req where
  conhdl : Nat
  sec_lvl : Nat
  con_type : Nat
  batt_level_ntf_cfg : Nat → Nat
  old_batt_lvl : Nat → Nat
  current_batt_lvl : Nat → Nat
  batt_level_pres_format : Nat → prf_char_pres_fmt

/-- Variables live across the iterations of the loop of
`bass_create_db_req_handler`. -/
structure CreateSt where
  env : bass_env_tag
  status : Nat
  cfg_flag : Nat
  calls : List Call

/-- One iteration of the loop of `bass_create_db_req_handler`, lines 84-121. -/
def create_db_body (S : Stack) (param : bass_create_db_req) (dest_id i : Nat)
    (s : CreateSt) : CreateSt :=
  let env1 := { s.env with features := Function.update s.env.features i (param.features i) }
  let cfg1 := if env1.features i = BAS_BATT_LVL_NTF_SUP
              then s.cfg_flag ||| BAS_CFG_FLAG_NTF_SUP_MASK else s.cfg_flag
  let cfg2 := if env1.bas_nb > 1 then cfg1 ||| BAS_CFG_FLAG_MTP_BAS_MASK else cfg1
  let r := S.atts_svc_create_db s.calls
  let calls1 := s.calls ++ [Call.atts_svc_create_db cfg2 BAS_IDX_NB dest_id]
  let env2 := { env1 with shdl := Function.update env1.shdl i r.2.1 }
  if r.1 = PRF_ERR_OK then
    let status2 := S.attsdb_svc_set_permission calls1
    let calls2 := calls1 ++ [Call.attsdb_svc_set_permission (env2.shdl i) PERM_SVC_DISABLE]
    let calls3 :=
      if env2.features i = BAS_BATT_LVL_NTF_SUP then
        calls2 ++ [Call.attsdb_att_partial_value_update
                     (u16 (env2.shdl i + BAS_IDX_BATT_LVL_CHAR)) 0 1 [ATT_CHAR_PROP_RD_NTF],
                   Call.attsdb_att_set_permission
                     (u16 (env2.shdl i + BAS_IDX_BATT_LVL_VAL)) PERM_RD_NTF_ENABLE]
      else calls2
    { env := env2, status := status2, cfg_flag := BAS_CFG_FLAG_MANDATORY_MASK, calls := calls3 }
  else
    { env := env2, status := r.1, cfg_flag := BAS_CFG_FLAG_MANDATORY_MASK, calls := calls1 }

/-- The loop `for (i = 0; (i < param->bas_nb) && (status == PRF_ERR_OK); i++)`
of `bass_create_db_req_handler`, started at `i` with `n` iterations left at
most. -/
def create_db_loop (S : Stack) (param : bass_create_db_req) (dest_id : Nat) :
    Nat → Nat → CreateSt → CreateSt
  | 0, _, s => s
  | n + 1, i, s =>
    if i < param.bas_nb ∧ s.status = PRF_ERR_OK then
      create_db_loop S param dest_id n (i + 1) (create_db_body S param dest_id i s)
    else s

/-- The handler `bass_create_db_req_handler` of `bass_task.c`, lines 57-142. -/
def bass_create_db_req_handler (S : Stack) (env : bass_env_tag) (state : Nat)
    (param : bass_create_db_req) (dest_id src_id : Nat) : Res bass_env_tag :=
  let env0 := { env with con_info := { env.con_info with prf_id := TASK_BASS } }
  if param.bas_nb ≤ BASS_NB_BAS_INSTANCES_MAX then
    let env1 := { env0 with bas_nb := param.bas_nb }
    let s := create_db_loop S param dest_id param.bas_nb 0
      { env := env1, status := PRF_ERR_OK, cfg_flag := BAS_CFG_FLAG_MANDATORY_MASK, calls := [] }
    { env := s.env,
      state := if s.status = PRF_ERR_OK then BASS_IDLE else state,
      calls := s.calls ++ [Call.ke_msg_send
        ⟨.BASS_CREATE_DB_CFM, src_id, TASK_BASS, .bass_create_db_cfm s.status⟩],
      ret := .KE_MSG_CONSUMED }
  else
    { env := env0,
      state := state,
      calls := [Call.ke_msg_send
        ⟨.BASS_CREATE_DB_CFM, src_id, TASK_BASS, .bass_create_db_cfm PRF_ERR_INVALID_PARAM⟩],
      ret := .KE_MSG_CONSUMED }

/-- Variables live across the iterations of the loop of
`bass_enable_req_handler`. -/
structure EnableSt where
  env : bass_env_tag
  ntf_cfg : Nat
  calls : List Call

/-- One iteration of the loop of `bass_enable_req_handler`, lines 186-248. -/
def enable_body (param : bass_enable_req) (i : Nat) (s : EnableSt) : EnableSt :=
  let calls1 := s.calls ++ [Call.attsdb_att_set_value
    (u16 (s.env.shdl i + BAS_IDX_BATT_LVL_VAL)) 1 [param.current_batt_lvl i]]
  let s1 : EnableSt × Nat :=
    if s.env.features i = BAS_BATT_LVL_NTF_SUP then
      let s2 : EnableSt :=
        if param.con_type = PRF_CON_NORMAL then
          if param.batt_level_ntf_cfg i = PRF_CLI_START_NTF then
            let f1 := Function.update s.env.features i (u8 (s.env.features i ||| BASS_FLAG_NTF_CFG_BIT))
            let env1 := { s.env with features := f1 }
            let calls2 :=
              if param.old_batt_lvl i ≠ param.current_batt_lvl i then
                calls1 ++ [Call.ke_msg_send ⟨.GATT_NOTIFY_REQ, TASK_GATT, TASK_BASS,
                  .gatt_notify_req env1.con_info.conhdl (u16 (env1.shdl i + BAS_IDX_BATT_LVL_VAL))⟩]
              else calls1
            { env := env1, ntf_cfg := param.batt_level_ntf_cfg i, calls := calls2 }
          else { env := s.env, ntf_cfg := param.batt_level_ntf_cfg i, calls := calls1 }
        else { env := s.env, ntf_cfg := s.ntf_cfg, calls := calls1 }
      ({ s2 with calls := s2.calls ++ [Call.attsdb_att_set_value
          (u16 (s2.env.shdl i + BAS_IDX_BATT_LVL_NTF_CFG)) 2 (bytes16 s2.ntf_cfg)] },
        BAS_IDX_BATT_LVL_NTF_CFG + 1)
    else ({ env := s.env, ntf_cfg := s.ntf_cfg, calls := calls1 }, BAS_IDX_BATT_LVL_NTF_CFG)
  let st := s1.1
  let offset := s1.2
  let calls3 :=
    if st.env.bas_nb > 1 then
      st.calls ++ [Call.attsdb_att_set_value (u16 (st.env.shdl i + offset)) PRF_CHAR_PRES_FMT_SIZE
        (prf_pack_char_pres_fmt (param.batt_level_pres_format i))]
    else st.calls
  { st with calls := calls3 ++ [Call.attsdb_svc_set_permission (st.env.shdl i) param.sec_lvl] }

/-- The loop `for (i = 0; i < bass_env.bas_nb; i++)` of
`bass_enable_req_handler`, started at `i` with `n` iterations left at most. -/
def enable_loop (param : bass_enable_req) : Nat → Nat → EnableSt → EnableSt
  | 0, _, s => s
  | n + 1, i, s =>
    if i < s.env.bas_nb then enable_loop param n (i + 1) (enable_body param i s) else s

/-- The handler `bass_enable_req_handler` of `bass_task.c`, lines 155-256. -/
def bass_enable_req_handler (S : Stack) (env : bass_env_tag) (state : Nat)
    (param : bass_enable_req) (_dest_id src_id : Nat) : Res bass_env_tag :=
  let env0 := { env with con_info := { env.con_info with appid := src_id, conhdl := param.conhdl } }
  if S.gap_get_rec_idx param.conhdl = GAP_INVALID_CONIDX then
    { env := env0,
      state := state,
      calls := [Call.prf_server_error_ind_send env0.con_info PRF_ERR_REQ_DISALLOWED
        .BASS_ERROR_IND .BASS_ENABLE_REQ],
      ret := .KE_MSG_CONSUMED }
  else
    let s := enable_loop param env0.bas_nb 0 { env := env0, ntf_cfg := 0, calls := [] }
    { env := s.env,
      state := BASS_CONNECTED,
      calls := s.calls,
      ret := .KE_MSG_CONSUMED }

/-- The search loop of `gatt_write_cmd_ind_handler`, lines 338-345: returns the
counter `i` and the status at the exit of the loop. -/
def find_loop (env : bass_env_tag) (handle : Nat) : Nat → Nat → Nat → Nat × Nat
  | 0, i, status => (i, status)
  | n + 1, i, status =>
    if i < env.bas_nb ∧ status = PRF_APP_ERROR then
      find_loop env handle n (i + 1)
        (if handle = env.shdl i + BAS_IDX_BATT_LVL_NTF_CFG then PRF_ERR_OK else status)
    else (i, status)

/-- The handler `gatt_write_cmd_ind_handler` of `bass_task.c`, lines 325-398. -/
def gatt_write_cmd_ind_handler (env : bass_env_tag) (state : Nat)
    (param : gatt_write_cmd_ind) (_dest_id _src_id : Nat) : Res bass_env_tag :=
  let r := find_loop env param.handle env.bas_nb 0 PRF_APP_ERROR
  -- `i--` on a `uint8_t`
  let i := u8 (r.1 + 255)
  if r.2 = PRF_ERR_OK then
    let ntf_cfg := co_read16p (param.value 0) (param.value 1)
    if ntf_cfg = PRF_CLI_STOP_NTFIND ∨ ntf_cfg = PRF_CLI_START_NTF then
      let calls1 := [Call.attsdb_att_set_value
        (u16 (env.shdl i + BAS_IDX_BATT_LVL_NTF_CFG)) 2 (bytes16 ntf_cfg)]
      let env1 : bass_env_tag :=
        if ntf_cfg = PRF_CLI_START_NTF then
          { env with
            features := Function.update env.features i (u8 (env.features i ||| BASS_FLAG_NTF_CFG_BIT)) }
        else
          { env with
            features := Function.update env.features i (clr8 (env.features i) BASS_FLAG_NTF_CFG_BIT) }
      let calls2 :=
        if param.last then
          calls1 ++ [Call.ke_msg_send ⟨.BASS_BATT_LEVEL_NTF_CFG_IND, env1.con_info.appid, TASK_BASS,
            .bass_batt_level_ntf_cfg_ind (co_write16p env1.con_info.conhdl) (co_write16p ntf_cfg) i⟩]
        else calls1
      { env := env1, state := state,
        calls := calls2 ++ [Call.atts_write_rsp_send env1.con_info.conhdl param.handle PRF_ERR_OK],
        ret := .KE_MSG_CONSUMED }
    else
      { env := env, state := state,
        calls := [Call.atts_write_rsp_send env.con_info.conhdl param.handle PRF_APP_ERROR],
        ret := .KE_MSG_CONSUMED }
  else
    { env := env, state := state, calls := [], ret := .KE_MSG_CONSUMED }

end bass_task

/-! ## Heart rate sensor: `hrps_task.c` -/

namespace hrps_task

/-- Modelled from the spec: `hrps.h` is not among the sources; database
configuration masks. -/
def HRPS_MANDATORY_MASK : Nat := 0x0F
/-- Modelled from the spec: `hrps.h` is not among the sources. -/
def HRPS_BODY_SENSOR_LOC_MASK : Nat := 0x30
/-- Modelled from the spec: `hrps.h` is not among the sources. -/
def HRPS_HR_CTNL_PT_MASK : Nat := 0xC0
/-- Modelled from the spec: `hrps.h` is not among the sources; bits of
`hrps_env.features`. -/
def HRPS_BODY_SENSOR_LOC_CHAR_SUP : Nat := 0x01
/-- Modelled from the spec: `hrps.h` is not among the sources. -/
def HRPS_ENGY_EXP_FEAT_SUP : Nat := 0x02
/-- Modelled from the spec: `hrps.h` is not among the sources. -/
def HRPS_HR_MEAS_NTF_CFG : Nat := 0x04
/-- Modelled from the spec: `hrps.h` is not among the sources; offsets of the
attributes of the heart rate service from its start handle. -/
def HRS_IDX_HR_MEAS_NTF_CFG : Nat := 3
/-- Modelled from the spec: `hrps.h` is not among the sources. -/
def HRS_IDX_BOBY_SENSOR_LOC_VAL : Nat := 5
/-- Modelled from the spec: `hrps.h` is not among the sources. -/
def HRS_IDX_NB : Nat := 8
/-- Modelled from the spec: `hrps_task.h` is not among the sources; states of
the task, in the order of `hrps_state_handler`. -/
def HRPS_DISABLED : Nat := 0
/-- Modelled from the spec: `hrps_task.h` is not among the sources. -/
def HRPS_IDLE : Nat := 1
/-- Modelled from the spec: `hrps_task.h` is not among the sources. -/
def HRPS_CONNECTED : Nat := 2

/-- The environment `hrps_env` (`struct hrps_env_tag`). -/
structure hrps_env_tag where
  con_info : prf_con_info
  shdl : Nat
  features : Nat

/-- Modelled from the spec: `hrps.h` is not among the sources; the macro
`HRPS_IS_SUPPORTED(mask)` tests that every bit of `mask` is set in
`hrps_env.features`. -/
def HRPS_IS_SUPPORTED (env : hrps_env_tag) (mask : Nat) : Bool :=
  decide (env.features &&& mask = mask)

/-- Parameters of `HRPS_CREATE_DB_REQ`. -/
structure hrps_create_db_req where
  features : Nat

/-- Parameters of `HRPS_ENABLE_REQ`. -/
structure hrps_enable_req where
  conhdl : Nat
  sec_lvl : Nat
  con_type : Nat
  hr_meas_ntf_en : Nat
  body_sensor_loc : Nat

/-- The handler `hrps_create_db_req_handler` of `hrps_task.c`, lines 57-105. -/
def hrps_create_db_req_handler (S : Stack) (env : hrps_env_tag) (state : Nat)
    (param : hrps_create_db_req) (dest_id src_id : Nat) : Res hrps_env_tag :=
  let env0 : hrps_env_tag :=
    { env with con_info := { env.con_info with prf_id := TASK_HRPS }, features := param.features }
  let cfg1 := if HRPS_IS_SUPPORTED env0 HRPS_BODY_SENSOR_LOC_CHAR_SUP
              then HRPS_MANDATORY_MASK ||| HRPS_BODY_SENSOR_LOC_MASK else HRPS_MANDATORY_MASK
  let cfg2 := if HRPS_IS_SUPPORTED env0 HRPS_ENGY_EXP_FEAT_SUP
              then cfg1 ||| HRPS_HR_CTNL_PT_MASK else cfg1
  let r := S.atts_svc_create_db []
  let env1 := { env0 with shdl := r.2.1 }
  let calls1 := [Call.atts_svc_create_db cfg2 HRS_IDX_NB dest_id,
                 Call.attsdb_svc_set_permission env1.shdl PERM_SVC_DISABLE]
  { env := env1,
    state := if r.1 = ATT_ERR_NO_ERROR then HRPS_IDLE else state,
    calls := calls1 ++ [Call.ke_msg_send
      ⟨.HRPS_CREATE_DB_CFM, src_id, TASK_HRPS, .hrps_create_db_cfm r.1⟩],
    ret := .KE_MSG_CONSUMED }

/-- The handler `hrps_enable_req_handler` of `hrps_task.c`, lines 118-169. -/
def hrps_enable_req_handler (S : Stack) (env : hrps_env_tag) (state : Nat)
    (param : hrps_enable_req) (_dest_id src_id : Nat) : Res hrps_env_tag :=
  let env0 := { env with con_info := { env.con_info with appid := src_id, conhdl := param.conhdl } }
  if S.gap_get_rec_idx param.conhdl = GAP_INVALID_CONIDX then
    { env := env0,
      state := state,
      calls := [Call.prf_server_error_ind_send env0.con_info PRF_ERR_REQ_DISALLOWED
        .HRPS_ERROR_IND .HRPS_ENABLE_REQ],
      ret := .KE_MSG_CONSUMED }
  else
    let value := if param.con_type = PRF_CON_NORMAL then param.hr_meas_ntf_en else 0
    let env1 : hrps_env_tag :=
      if param.con_type = PRF_CON_NORMAL ∧ param.hr_meas_ntf_en = PRF_CLI_START_NTF
      then { env0 with features := u8 (env0.features ||| HRPS_HR_MEAS_NTF_CFG) } else env0
    let calls1 := [Call.attsdb_att_set_value (u16 (env1.shdl + HRS_IDX_HR_MEAS_NTF_CFG)) 2
      (bytes16 value)]
    let calls2 :=
      if HRPS_IS_SUPPORTED env1 HRPS_BODY_SENSOR_LOC_CHAR_SUP then
        calls1 ++ [Call.attsdb_att_set_value (u16 (env1.shdl + HRS_IDX_BOBY_SENSOR_LOC_VAL)) 1
          [param.body_sensor_loc]]
      else calls1
    { env := env1,
      state := HRPS_CONNECTED,
      calls := calls2 ++ [Call.attsdb_svc_set_permission env1.shdl param.sec_lvl],
      ret := .KE_MSG_CONSUMED }

end hrps_task

/-! ## Scan parameters server: `scpps_task.c` -/

namespace scpps_task

/-- Modelled from the spec: `scpps.h` is not among the sources; value of
`scpps_env.features` when the Scan Refresh characteristic is supported. -/
def SCPPS_SCAN_REFRESH_CHAR_SUP : Nat := 0x01
/-- Modelled from the spec: `scpps.h` is not among the sources; offset of the
Scan Refresh client configuration descriptor from the start handle. -/
def SCPS_IDX_SCAN_REFRESH_NTF_CFG : Nat := 5
/-- Modelled from the spec: `scpps_task.h` is not among the sources; states of
the task, in the order of `scpps_state_handler`. -/
def SCPPS_DISABLED : Nat := 0
/-- Modelled from the spec: `scpps_task.h` is not among the sources. -/
def SCPPS_IDLE : Nat := 1
/-- Modelled from the spec: `scpps_task.h` is not among the sources. -/
def SCPPS_CONNECTED : Nat := 2

/-- The environment `scpps_env` (`struct scpps_env_tag`). -/
structure scpps_env_tag where
  con_info : prf_con_info
  shdl : Nat
  features : Nat
  scan_refresh_ntf_cfg : Nat

/-- Parameters of `SCPPS_ENABLE_REQ`. -/
structure scpps_enable_req where
  conhdl : Nat
  sec_lvl : Nat
  con_type : Nat
  scan_refresh_ntf_en : Nat

/-- The handler `scpps_enable_req_handler` of `scpps_task.c`, lines 115-163. -/
def scpps_enable_req_handler (S : Stack) (env : scpps_env_tag) (state : Nat)
    (param : scpps_enable_req) (_dest_id src_id : Nat) : Res scpps_env_tag :=
  let env0 := { env with con_info := { env.con_info with appid := src_id, conhdl := param.conhdl } }
  if S.gap_get_rec_idx param.conhdl = GAP_INVALID_CONIDX then
    { env := env0,
      state := state,
      calls := [Call.prf_server_error_ind_send env0.con_info PRF_ERR_REQ_DISALLOWED
        .SCPPS_ERROR_IND .SCPPS_ENABLE_REQ],
      ret := .KE_MSG_CONSUMED }
  else
    let r : scpps_env_tag × List Call :=
      if env0.features = SCPPS_SCAN_REFRESH_CHAR_SUP then
        let ntf_cfg := if param.con_type = PRF_CON_NORMAL then u16 param.scan_refresh_ntf_en else 0
        let env1 : scpps_env_tag :=
          if param.con_type = PRF_CON_NORMAL
          then { env0 with scan_refresh_ntf_cfg := u8 ntf_cfg } else env0
        (env1, [Call.attsdb_att_set_value (u16 (env1.shdl + SCPS_IDX_SCAN_REFRESH_NTF_CFG)) 2
          (bytes16 ntf_cfg)])
      else (env0, [])
    { env := r.1,
      state := SCPPS_CONNECTED,
      calls := r.2 ++ [Call.attsdb_svc_set_permission r.1.shdl param.sec_lvl],
      ret := .KE_MSG_CONSUMED }

end scpps_task

/-! ## Cycling speed and cadence sensor: `cscps_task.c` -/

namespace cscps_task

/-- Modelled from the spec: `cscps_task.h` is not among the sources; states of
the task, in the order of `cscps_state_handler`. -/
def CSCPS_DISABLED : Nat := 0
/-- Modelled from the spec: `cscps_task.h` is not among the sources. -/
def CSCPS_IDLE : Nat := 1
/-- Modelled from the spec: `cscps_task.h` is not among the sources. -/
def CSCPS_CONNECTED : Nat := 2
/-- Modelled from the spec: `cscps_task.h` is not among the sources. -/
def CSCPS_BUSY : Nat := 3

/-- Modelled from the spec: `cscps_task.h` is not among the sources; operation
codes kept in `cscps_env.operation`, in the order of their enumeration. -/
def CSCPS_RESERVED_OP_CODE : Nat := 0
/-- Modelled from the spec: `cscps_task.h` is not among the sources. -/
def CSCPS_CREATE_DB_OP_CODE : Nat := 1
/-- Modelled from the spec: `cscps_task.h` is not among the sources. -/
def CSCPS_ENABLE_OP_CODE : Nat := 2
/-- Modelled from the spec: `cscps_task.h` is not among the sources. -/
def CSCPS_SEND_CSC_MEAS_OP_CODE : Nat := 3
/-- Modelled from the spec: `cscps_task.h` is not among the sources. -/
def CSCPS_CTNL_PT_CUMUL_VAL_OP_CODE : Nat := 4
/-- Modelled from the spec: `cscps_task.h` is not among the sources. -/
def CSCPS_CTNL_PT_UPD_LOC_OP_CODE : Nat := 5
/-- Modelled from the spec: `cscps_task.h` is not among the sources. -/
def CSCPS_CTNL_PT_SUPP_LOC_OP_CODE : Nat := 6
/-- Modelled from the spec: `cscps_task.h` is not among the sources. -/
def CSCPS_CTNL_ERR_IND_OP_CODE : Nat := 7

/-- Modelled from the spec: `cscps.h` is not among the sources; database
configuration masks. -/
def CSCPS_MANDATORY_MASK : Nat := 0x003F
/-- Modelled from the spec: `cscps.h` is not among the sources. -/
def CSCPS_SENSOR_LOC_MASK : Nat := 0x00C0
/-- Modelled from the spec: `cscps.h` is not among the sources. -/
def CSCPS_SC_CTNL_PT_MASK : Nat := 0x0700
/-- Modelled from the spec: `cscps_task.h` is not among the sources. -/
def CSCPS_SENSOR_LOC_SUPP : Nat := 0x01

/-- Offsets of the attributes from the start handle: the indices of the table
`cscps_att_db` of `cscps_task.c`, lines 65-104. -/
def CSCS_IDX_CSC_MEAS_VAL : Nat := 2
/-- Index of `cscps_att_db`. -/
def CSCS_IDX_CSC_MEAS_NTF_CFG : Nat := 3
/-- Index of `cscps_att_db`. -/
def CSCS_IDX_CSC_FEAT_VAL : Nat := 5
/-- Index of `cscps_att_db`. -/
def CSCS_IDX_SENSOR_LOC_VAL : Nat := 7
/-- Number of entries of `cscps_att_db`. -/
def CSCS_IDX_NB : Nat := 11

/-- Modelled from the spec: `cscp_common.h` is not among the sources;
characteristic codes, indices of `cscps_env.hdl_offset`. -/
def CSCP_CSCS_CSC_MEAS_CHAR : Nat := 0
/-- Modelled from the spec: `cscp_common.h` is not among the sources. -/
def CSCP_CSCS_SENSOR_LOC_CHAR : Nat := 2
/-- Modelled from the spec: `cscp_common.h` is not among the sources. -/
def CSCP_CSCS_SC_CTNL_PT_CHAR : Nat := 3

/-- Modelled from the spec: `cscp_common.h` is not among the sources; bits of
the CSC Feature value. -/
def CSCP_FEAT_WHEEL_REV_DATA_SUPP : Nat := 0x0001
/-- Modelled from the spec: `cscp_common.h` is not among the sources. -/
def CSCP_FEAT_CRANK_REV_DATA_SUPP : Nat := 0x0002
/-- Modelled from the spec: `cscp_common.h` is not among the sources. -/
def CSCP_FEAT_MULT_SENSOR_LOC_SUPP : Nat := 0x0004
/-- Modelled from the spec: `cscp_common.h` is not among the sources. -/
def CSCP_FEAT_ALL_SUPP : Nat := 0x0007
/-- Modelled from the spec: `cscp_common.h` is not among the sources; bits of
`cscps_env.prf_cfg` that record the client configuration. -/
def CSCP_PRF_CFG_FLAG_CSC_MEAS_NTF : Nat := 0x0010
/-- Modelled from the spec: `cscp_common.h` is not among the sources. -/
def CSCP_PRF_CFG_FLAG_SC_CTNL_PT_IND : Nat := 0x0020
/-- Modelled from the spec: `cscp_common.h` is not among the sources; bits of
the flags of a CSC measurement. -/
def CSCP_MEAS_WHEEL_REV_DATA_PRESENT : Nat := 0x01
/-- Modelled from the spec: `cscp_common.h` is not among the sources. -/
def CSCP_MEAS_CRANK_REV_DATA_PRESENT : Nat := 0x02
/-- Modelled from the spec: `cscp_common.h` is not among the sources. -/
def CSCP_MEAS_ALL_PRESENT : Nat := 0x03
/-- Modelled from the spec: `cscp_common.h` is not among the sources; sensor
locations. -/
def CSCP_LOC_OTHER : Nat := 0
/-- Modelled from the spec: `cscp_common.h` is not among the sources. -/
def CSCP_LOC_MAX : Nat := 15
/-- Modelled from the spec: `cscp_common.h` is not among the sources; operation
codes written to the SC Control Point. -/
def CSCP_CTNL_PT_OP_SET_CUMUL_VAL : Nat := 1
/-- Modelled from the spec: `cscp_common.h` is not among the sources. -/
def CSCP_CTNL_PT_OP_UPD_LOC : Nat := 3
/-- Modelled from the spec: `cscp_common.h` is not among the sources. -/
def CSCP_CTNL_PT_OP_REQ_SUPP_LOC : Nat := 4
/-- Modelled from the spec: `cscp_common.h` is not among the sources; response
values of the SC Control Point. -/
def CSCP_CTNL_PT_RESP_NOT_SUPP : Nat := 2
/-- Modelled from the spec: `cscp_common.h` is not among the sources. -/
def CSCP_CTNL_PT_RESP_INV_PARAM : Nat := 3
/-- Modelled from the spec: `cscp_common.h` is not among the sources; the
"procedure already in progress" status of a write response. -/
def CSCP_ERROR_PROC_IN_PROGRESS : Nat := 0x80

/-- The environment `cscps_env` (`struct cscps_env_tag`); `hdl_offset` has one
element for each characteristic code. -/
structure cscps_env_tag where
  con_info : prf_con_info
  wheel_revol : Nat
  shdl : Nat
  prf_cfg : Nat
  hdl_offset : Nat → Nat
  operation : Nat

/-- Modelled from the spec: `cscps.h` is not among the sources; the macros
`CSCPS_IS_FEATURE_SUPPORTED(features, flag)` and `CSCPS_IS_PRESENT(features,
flag)` test that every bit of `flag` is set in `features`. -/
def CSCPS_IS_FEATURE_SUPPORTED (features flag : Nat) : Bool :=
  decide (features &&& flag = flag)
/-- Modelled from the spec: `cscps.h` is not among the sources; see
`CSCPS_IS_FEATURE_SUPPORTED`. -/
def CSCPS_IS_PRESENT (features flag : Nat) : Bool :=
  decide (features &&& flag = flag)
/-- Modelled from the spec: `cscps.h` is not among the sources; the macro
`CSCPS_IS_NTFIND_ENABLED(ccc_flag)` tests the flag in `cscps_env.prf_cfg`. -/
def CSCPS_IS_NTFIND_ENABLED (env : cscps_env_tag) (ccc_flag : Nat) : Bool :=
  decide (env.prf_cfg &&& ccc_flag = ccc_flag)
/-- Modelled from the spec: `cscps.h` is not among the sources; the macro
`CSCPS_ENABLE_NTFIND(ccc_flag)` sets the flag in `cscps_env.prf_cfg`. -/
def CSCPS_ENABLE_NTFIND (env : cscps_env_tag) (ccc_flag : Nat) : cscps_env_tag :=
  { env with prf_cfg := u16 (env.prf_cfg ||| ccc_flag) }
/-- Modelled from the spec: `cscps.h` is not among the sources; the macro
`CSCPS_DISABLE_NTFIND(ccc_flag)` clears the flag in `cscps_env.prf_cfg`. -/
def CSCPS_DISABLE_NTFIND (env : cscps_env_tag) (ccc_flag : Nat) : cscps_env_tag :=
  { env with prf_cfg := clr16 env.prf_cfg ccc_flag }

/-- Modelled from the spec: `cscps.c` is not among the sources.  The function
`cscps_send_cmp_evt(src_id, dest_id, conhdl, operation, status)` ends the
operation in progress: like `cscpc_send_cmp_evt`, `anpc_send_cmp_evt` and
`paspc_send_cmp_evt` it takes the task `src_id` from `CSCPS_BUSY` back to
`CSCPS_CONNECTED`, it sets `cscps_env.operation` back to
`CSCPS_RESERVED_OP_CODE`, and it sends `CSCPS_CMP_EVT` to `dest_id`, which is
recorded as one call.  `cscps_task.c` relies on the first two effects:
`gatt_handle_value_cfm_handler` and `gatt_notify_cmp_evt_handler` (lines
850-904) are entered in `CSCPS_BUSY` with an operation set and do nothing but
call this function, no handler sets `CSCPS_CONNECTED` from `CSCPS_BUSY`, and
line 368 expects the operation to be `CSCPS_RESERVED_OP_CODE` whenever the task
is connected and not busy.  `state` is the state of the task `src_id`; at every
call of `cscps_task.c` this is the CSCPS task (`TASK_CSCPS`, the `dest_id` of
the handler, or the `prf_id` stored from it). -/
def cscps_send_cmp_evt (env : cscps_env_tag) (state : Nat)
    (src_id dest_id conhdl operation status : Nat) : VRes cscps_env_tag :=
  { env := { env with operation := CSCPS_RESERVED_OP_CODE },
    state := if state = CSCPS_BUSY then CSCPS_CONNECTED else state,
    calls := [Call.cscps_send_cmp_evt src_id dest_id conhdl operation status] }

/-- Parameters of `CSCPS_CREATE_DB_REQ`. -/
structure cscps_create_db_req where
  csc_feature : Nat
  sensor_loc_supp : Nat
  sensor_loc : Nat

/-- Parameters of `CSCPS_NTF_CSC_MEAS_CMD`; `wheel_rev` is an `int16_t`. -/
structure cscps_ntf_csc_meas_cmd where
  conhdl : Nat
  flags : Nat
  cumul_crank_rev : Nat
  last_crank_evt_time : Nat
  last_wheel_evt_time : Nat
  wheel_rev : Int

/-- The handler `cscps_create_db_req_handler` of `cscps_task.c`, lines
121-202. -/
def cscps_create_db_req_handler (S : Stack) (env : cscps_env_tag) (state : Nat)
    (param : cscps_create_db_req) (dest_id src_id : Nat) : Res cscps_env_tag :=
  if state = CSCPS_DISABLED then
    let cfg1 :=
      if param.sensor_loc_supp = CSCPS_SENSOR_LOC_SUPP ∨
         CSCPS_IS_FEATURE_SUPPORTED param.csc_feature CSCP_FEAT_MULT_SENSOR_LOC_SUPP = true
      then CSCPS_MANDATORY_MASK ||| CSCPS_SENSOR_LOC_MASK else CSCPS_MANDATORY_MASK
    let cfg2 :=
      if CSCPS_IS_FEATURE_SUPPORTED param.csc_feature CSCP_FEAT_WHEEL_REV_DATA_SUPP = true ∨
         CSCPS_IS_FEATURE_SUPPORTED param.csc_feature CSCP_FEAT_MULT_SENSOR_LOC_SUPP = true
      then cfg1 ||| CSCPS_SC_CTNL_PT_MASK else cfg1
    let r := S.atts_svc_create_db []
    let env1 := { env with shdl := r.2.1, hdl_offset := r.2.2 }
    let calls1 := [Call.atts_svc_create_db cfg2 CSCS_IDX_NB dest_id]
    if r.1 = ATT_ERR_NO_ERROR then
      let csc_feature := param.csc_feature &&& CSCP_FEAT_ALL_SUPP
      let env2 := { env1 with prf_cfg := csc_feature }
      let calls2 := calls1 ++ [Call.attsdb_att_set_value (u16 (env2.shdl + CSCS_IDX_CSC_FEAT_VAL)) 2
        (bytes16 csc_feature)]
      let calls3 :=
        if env2.hdl_offset CSCP_CSCS_SENSOR_LOC_CHAR ≠ 0x00 then
          let sensor_loc := if param.sensor_loc ≥ CSCP_LOC_MAX then CSCP_LOC_OTHER else param.sensor_loc
          calls2 ++ [Call.attsdb_att_set_value (u16 (env2.shdl + CSCS_IDX_SENSOR_LOC_VAL)) 1
            [sensor_loc]]
        else calls2
      -- `ke_state_set(TASK_CSCPS, CSCPS_IDLE)`, then the completion event
      let e := cscps_send_cmp_evt env2 CSCPS_IDLE TASK_CSCPS src_id GAP_INVALID_CONHDL
        CSCPS_CREATE_DB_OP_CODE r.1
      { env := e.env,
        state := e.state,
        calls := calls3 ++ [Call.attsdb_svc_set_permission env2.shdl PERM_SVC_DISABLE] ++ e.calls,
        ret := .KE_MSG_CONSUMED }
    else
      let e := cscps_send_cmp_evt env1 state TASK_CSCPS src_id GAP_INVALID_CONHDL
        CSCPS_CREATE_DB_OP_CODE r.1
      { env := e.env,
        state := e.state,
        calls := calls1 ++ e.calls,
        ret := .KE_MSG_CONSUMED }
  else
    let e := cscps_send_cmp_evt env state TASK_CSCPS src_id GAP_INVALID_CONHDL
      CSCPS_CREATE_DB_OP_CODE PRF_ERR_REQ_DISALLOWED
    { env := e.env,
      state := e.state,
      calls := e.calls,
      ret := .KE_MSG_CONSUMED }

/-- The flags of the measurement after lines 371-386 of
`cscps_ntf_csc_meas_cmd_handler`: unused bits forced to 0, then the data the
sensor does not support forced to absent. -/
def meas_flags (env : cscps_env_tag) (flags : Nat) : Nat :=
  let f0 := flags &&& CSCP_MEAS_ALL_PRESENT
  let f1 :=
    if CSCPS_IS_FEATURE_SUPPORTED env.prf_cfg CSCP_FEAT_WHEEL_REV_DATA_SUPP = false ∧
       CSCPS_IS_PRESENT f0 CSCP_MEAS_WHEEL_REV_DATA_PRESENT = true
    then clr8 f0 CSCP_MEAS_WHEEL_REV_DATA_PRESENT else f0
  if CSCPS_IS_FEATURE_SUPPORTED env.prf_cfg CSCP_FEAT_CRANK_REV_DATA_SUPP = false ∧
     CSCPS_IS_PRESENT f1 CSCP_MEAS_CRANK_REV_DATA_PRESENT = true
  then clr8 f1 CSCP_MEAS_CRANK_REV_DATA_PRESENT else f1

/-- The update of `cscps_env.wheel_revol` by the increment `wheel_rev`, lines
396-411 of `cscps_ntf_csc_meas_cmd_handler`. -/
def wheel_update (wheel_revol : Nat) (wheel_rev : Int) : Nat :=
  if wheel_rev < 0 then
    if (wheel_rev.natAbs : Int) > (wheel_revol : Int) then 0
    else u32i ((wheel_revol : Int) + wheel_rev)
  else u32i ((wheel_revol : Int) + wheel_rev)

/-- The handler `cscps_ntf_csc_meas_cmd_handler` of `cscps_task.c`, lines
323-469.  The assertion of line 368 is not modelled. -/
def cscps_ntf_csc_meas_cmd_handler (env : cscps_env_tag) (state : Nat)
    (param : cscps_ntf_csc_meas_cmd) (dest_id src_id : Nat) : Res cscps_env_tag :=
  if state ≥ CSCPS_CONNECTED then
    if param.conhdl ≠ env.con_info.conhdl then
      let e := cscps_send_cmp_evt env state env.con_info.prf_id env.con_info.appid
        env.con_info.conhdl CSCPS_SEND_CSC_MEAS_OP_CODE PRF_ERR_INVALID_PARAM
      { env := e.env, state := e.state, calls := e.calls, ret := .KE_MSG_CONSUMED }
    else if CSCPS_IS_NTFIND_ENABLED env CSCP_PRF_CFG_FLAG_CSC_MEAS_NTF = false then
      let e := cscps_send_cmp_evt env state env.con_info.prf_id env.con_info.appid
        env.con_info.conhdl CSCPS_SEND_CSC_MEAS_OP_CODE PRF_ERR_NTF_DISABLED
      { env := e.env, state := e.state, calls := e.calls, ret := .KE_MSG_CONSUMED }
    else if state = CSCPS_BUSY then
      { env := env, state := state, calls := [], ret := .KE_MSG_SAVED }
    else
      let flags := meas_flags env param.flags
      let wheel := CSCPS_IS_PRESENT flags CSCP_MEAS_WHEEL_REV_DATA_PRESENT
      let env1 : cscps_env_tag :=
        if wheel = true then { env with wheel_revol := wheel_update env.wheel_revol param.wheel_rev }
        else env
      -- `pckd_meas[0]` is the flags; the optional fields follow from index 1
      let pckd1 : List Nat :=
        if wheel = true then
          [flags] ++ bytes32 env1.wheel_revol ++ bytes16 param.last_wheel_evt_time
        else [flags]
      let pckd2 : List Nat :=
        if CSCPS_IS_PRESENT flags CSCP_MEAS_CRANK_REV_DATA_PRESENT = true then
          pckd1 ++ bytes16 param.cumul_crank_rev ++ bytes16 param.last_crank_evt_time
        else pckd1
      { env := { env1 with operation := CSCPS_SEND_CSC_MEAS_OP_CODE },
        state := CSCPS_BUSY,
        calls := [Call.attsdb_att_set_value (u16 (env1.shdl + CSCS_IDX_CSC_MEAS_VAL)) pckd2.length
            pckd2,
          Call.ke_msg_send ⟨.GATT_NOTIFY_REQ, TASK_GATT, TASK_CSCPS,
            .gatt_notify_req env1.con_info.conhdl (u16 (env1.shdl + CSCS_IDX_CSC_MEAS_VAL))⟩],
        ret := .KE_MSG_CONSUMED }
  else
    let e := cscps_send_cmp_evt env state dest_id src_id param.conhdl
      CSCPS_SEND_CSC_MEAS_OP_CODE PRF_ERR_REQ_DISALLOWED
    { env := e.env, state := e.state, calls := e.calls, ret := .KE_MSG_CONSUMED }

/-- The operation selected by the operation code written to the SC Control
Point: the `switch` of lines 742-802 of `gatt_write_cmd_ind_handler`.  Returns
the indication status, the new `cscps_env.operation` and the value stored in
the request indication (absent when the code does not set it). -/
def ctnl_pt_switch (env : cscps_env_tag) (value : Nat → Nat) : Nat × Nat × Option Nat :=
  if value 0 = CSCP_CTNL_PT_OP_SET_CUMUL_VAL then
    if CSCPS_IS_FEATURE_SUPPORTED env.prf_cfg CSCP_FEAT_WHEEL_REV_DATA_SUPP = true then
      (PRF_ERR_OK, CSCPS_CTNL_PT_CUMUL_VAL_OP_CODE,
        some (co_read32p (value 1) (value 2) (value 3) (value 4)))
    else (CSCP_CTNL_PT_RESP_NOT_SUPP, env.operation, none)
  else if value 0 = CSCP_CTNL_PT_OP_UPD_LOC then
    if CSCPS_IS_FEATURE_SUPPORTED env.prf_cfg CSCP_FEAT_MULT_SENSOR_LOC_SUPP = true then
      if value 1 < CSCP_LOC_MAX then
        (PRF_ERR_OK, CSCPS_CTNL_PT_UPD_LOC_OP_CODE, some (value 1))
      else (CSCP_CTNL_PT_RESP_INV_PARAM, env.operation, none)
    else (CSCP_CTNL_PT_RESP_NOT_SUPP, env.operation, none)
  else if value 0 = CSCP_CTNL_PT_OP_REQ_SUPP_LOC then
    if CSCPS_IS_FEATURE_SUPPORTED env.prf_cfg CSCP_FEAT_MULT_SENSOR_LOC_SUPP = true then
      (PRF_ERR_OK, CSCPS_CTNL_PT_SUPP_LOC_OP_CODE, none)
    else (CSCP_CTNL_PT_RESP_NOT_SUPP, env.operation, none)
  else (CSCP_CTNL_PT_RESP_NOT_SUPP, env.operation, none)

/-- A write to a client characteristic configuration descriptor, lines 607-646
and 655-694 of `gatt_write_cmd_ind_handler`: `ok` tells whether the value is
accepted, `ccc_flag` is the flag of `cscps_env.prf_cfg` and `char_code` the
characteristic reported to the application. -/
def write_ccc (env : cscps_env_tag) (state : Nat) (param : gatt_write_cmd_ind)
    (ntf_cfg : Nat) (ok : Bool) (ccc_flag char_code : Nat) : Res cscps_env_tag :=
  if ok = true then
    let env1 :=
      if ntf_cfg = PRF_CLI_STOP_NTFIND then CSCPS_DISABLE_NTFIND env ccc_flag
      else CSCPS_ENABLE_NTFIND env ccc_flag
    { env := env1, state := state,
      calls := [Call.attsdb_att_set_value param.handle 2 (bytes16 ntf_cfg),
        Call.ke_msg_send ⟨.CSCPS_NTF_IND_CFG_IND, env1.con_info.appid, env1.con_info.prf_id,
          .cscps_ntf_ind_cfg_ind param.conhdl char_code ntf_cfg⟩,
        Call.atts_write_rsp_send param.conhdl param.handle PRF_ERR_OK],
      ret := .KE_MSG_CONSUMED }
  else
    { env := env, state := state,
      calls := [Call.atts_write_rsp_send param.conhdl param.handle PRF_CCCD_IMPR_CONFIGURED],
      ret := .KE_MSG_CONSUMED }

/-- The handler `gatt_write_cmd_ind_handler` of `cscps_task.c`, lines 593-837.
The assertions of lines 650 and 830 are not modelled. -/
def gatt_write_cmd_ind_handler (env : cscps_env_tag) (state : Nat)
    (param : gatt_write_cmd_ind) (_dest_id _src_id : Nat) : Res cscps_env_tag :=
  if state ≥ CSCPS_CONNECTED then
    if param.handle = env.shdl + CSCS_IDX_CSC_MEAS_NTF_CFG then
      -- `co_write16p(&ntf_cfg, param->value[0])`
      let ntf_cfg := co_write16p (param.value 0)
      write_ccc env state param ntf_cfg (decide (ntf_cfg ≤ PRF_CLI_START_NTF))
        CSCP_PRF_CFG_FLAG_CSC_MEAS_NTF CSCP_CSCS_CSC_MEAS_CHAR
    else if param.handle = env.shdl + env.hdl_offset CSCP_CSCS_SC_CTNL_PT_CHAR + 2 then
      let ntf_cfg := co_write16p (param.value 0)
      write_ccc env state param ntf_cfg
        (decide (ntf_cfg = PRF_CLI_STOP_NTFIND ∨ ntf_cfg = PRF_CLI_START_IND))
        CSCP_PRF_CFG_FLAG_SC_CTNL_PT_IND CSCP_CSCS_SC_CTNL_PT_CHAR
    else if param.handle = env.shdl + env.hdl_offset CSCP_CSCS_SC_CTNL_PT_CHAR + 1 then
      if CSCPS_IS_NTFIND_ENABLED env CSCP_PRF_CFG_FLAG_SC_CTNL_PT_IND = false then
        { env := env, state := state,
          calls := [Call.atts_write_rsp_send param.conhdl param.handle PRF_CCCD_IMPR_CONFIGURED],
          ret := .KE_MSG_CONSUMED }
      else if env.operation ≥ CSCPS_CTNL_PT_CUMUL_VAL_OP_CODE then
        { env := env, state := state,
          calls := [Call.atts_write_rsp_send param.conhdl param.handle CSCP_ERROR_PROC_IN_PROGRESS],
          ret := .KE_MSG_CONSUMED }
      else if env.operation = CSCPS_SEND_CSC_MEAS_OP_CODE then
        { env := env, state := state,
          calls := [Call.atts_write_rsp_send param.conhdl param.handle PRF_ERR_OK],
          ret := .KE_MSG_SAVED }
      else
        let sw := ctnl_pt_switch env param.value
        let req_ind : ke_msg := ⟨.CSCPS_SC_CTNL_PT_REQ_IND, env.con_info.appid, env.con_info.prf_id,
          .cscps_sc_ctnl_pt_req_ind param.conhdl (param.value 0) sw.2.2⟩
        let env1 := { env with operation := sw.2.1 }
        if sw.1 = PRF_ERR_OK then
          { env := env1, state := CSCPS_BUSY,
            calls := [Call.ke_msg_send req_ind,
              Call.atts_write_rsp_send param.conhdl param.handle PRF_ERR_OK],
            ret := .KE_MSG_CONSUMED }
        else
          { env := { env1 with operation := CSCPS_CTNL_ERR_IND_OP_CODE }, state := CSCPS_BUSY,
            calls := [Call.ke_msg_free req_ind,
              Call.cscps_send_rsp_ind param.handle (param.value 0) sw.1,
              Call.atts_write_rsp_send param.conhdl param.handle PRF_ERR_OK],
            ret := .KE_MSG_CONSUMED }
    else
      { env := env, state := state, calls := [], ret := .KE_MSG_CONSUMED }
  else
    { env := env, state := state, calls := [], ret := .KE_MSG_CONSUMED }

end cscps_task

/-! ## HID over GATT device: `hogpd.c` -/

namespace hogpd

/-- Modelled from the spec: `hogpd.h` is not among the sources; characteristic
codes, in the order of their enumeration. -/
def HOGPD_BOOT_KB_IN_REPORT_CHAR : Nat := 4
/-- Modelled from the spec: `hogpd.h` is not among the sources. -/
def HOGPD_BOOT_MOUSE_IN_REPORT_CHAR : Nat := 6
/-- Modelled from the spec: `hogpd.h` is not among the sources. -/
def HOGPD_REPORT_CHAR : Nat := 7
/-- Modelled from the spec: `hogpd.h` is not among the sources; mask that turns
a characteristic code into the code of its client configuration descriptor. -/
def HOGPD_DESC_MASK : Nat := 0x10
/-- Modelled from the spec: `hogpd.h` is not among the sources; configuration
codes: the characteristic code with `HOGPD_DESC_MASK`. -/
def HOGPD_BOOT_KB_IN_REPORT_CFG : Nat := HOGPD_BOOT_KB_IN_REPORT_CHAR ||| HOGPD_DESC_MASK
/-- Modelled from the spec: `hogpd.h` is not among the sources. -/
def HOGPD_BOOT_MOUSE_IN_REPORT_CFG : Nat := HOGPD_BOOT_MOUSE_IN_REPORT_CHAR ||| HOGPD_DESC_MASK
/-- Modelled from the spec: `hogpd.h` is not among the sources. -/
def HOGPD_REPORT_CFG : Nat := HOGPD_REPORT_CHAR ||| HOGPD_DESC_MASK
/-- Modelled from the spec: `hogpd.h` is not among the sources; notification
configuration bits kept in the environment. -/
def HOGPD_REPORT_NTF_CFG_MASK : Nat := 0x20
/-- Modelled from the spec: `hogpd.h` is not among the sources. -/
def HOGPD_BOOT_KB_IN_NTF_CFG_MASK : Nat := 0x40
/-- Modelled from the spec: `hogpd.h` is not among the sources. -/
def HOGPD_BOOT_MOUSE_IN_NTF_CFG_MASK : Nat := 0x80

/-- The structure `hogpd_features` of one HIDS instance; `report_char_cfg` has
one element for each Report characteristic. -/
structure hogpd_features where
  svc_features : Nat
  report_nb : Nat
  report_char_cfg : Nat → Nat

/-- The environment `hogpd_env` (`struct hogpd_env_tag`); the arrays have one
element for each HIDS instance. -/
structure hogpd_env_tag where
  con_info : prf_con_info
  shdl : Nat → Nat
  att_tbl : Nat → Nat → Nat
  features : Nat → hogpd_features
  hids_nb : Nat

/-- The flag selected by `hogpd_ntf_cfg_ind_send`, lines 348 and 356-368: the
mask and whether the flag is `report_char_cfg[report_nb]` instead of
`svc_features`. -/
def ntf_cfg_select (cfg_code : Nat) : Nat × Bool :=
  if cfg_code = HOGPD_BOOT_KB_IN_REPORT_CFG then (HOGPD_BOOT_KB_IN_NTF_CFG_MASK, false)
  else if cfg_code = HOGPD_BOOT_MOUSE_IN_REPORT_CFG then (HOGPD_BOOT_MOUSE_IN_NTF_CFG_MASK, false)
  else if cfg_code = HOGPD_REPORT_CFG then (HOGPD_REPORT_NTF_CFG_MASK, true)
  else (0x00, false)

/-- The new value of the selected flag, lines 371-378 of
`hogpd_ntf_cfg_ind_send`. -/
def ntf_cfg_flag (ntf_cfg flag mask : Nat) : Nat :=
  if ntf_cfg = PRF_CLI_START_NTF then u8 (flag ||| mask) else clr8 flag mask

/-- The function `hogpd_ntf_cfg_ind_send` of `hogpd.c`, lines 340-397. -/
def hogpd_ntf_cfg_ind_send (env : hogpd_env_tag) (ntf_cfg handle cfg_code hids_nb report_nb : Nat) :
    FRes hogpd_env_tag :=
  if ntf_cfg = PRF_CLI_STOP_NTFIND ∨ ntf_cfg = PRF_CLI_START_NTF then
    let sel := ntf_cfg_select cfg_code
    let f := env.features hids_nb
    let f1 : hogpd_features :=
      if sel.2 = true then
        let flag := ntf_cfg_flag ntf_cfg (f.report_char_cfg report_nb) sel.1
        { f with report_char_cfg := Function.update f.report_char_cfg report_nb flag }
      else
        { f with svc_features := ntf_cfg_flag ntf_cfg f.svc_features sel.1 }
    let env1 := { env with features := Function.update env.features hids_nb f1 }
    { env := env1,
      calls := [Call.attsdb_att_set_value handle 2 (bytes16 ntf_cfg),
        Call.ke_msg_send ⟨.HOGPD_NTF_CFG_IND, env1.con_info.appid, TASK_HOGPD,
          .hogpd_ntf_cfg_ind (co_write16p env1.con_info.conhdl) (co_write16p ntf_cfg)
            hids_nb report_nb cfg_code⟩],
      ret := PRF_ERR_OK }
  else
    { env := env, calls := [], ret := PRF_APP_ERROR }

end hogpd

/-! ## Concrete inputs used to instantiate the theorems -/

/-- A stack whose connection table holds the single connection handle `1`, and
whose attribute database accepts every request, placing a service at handle
`16`. -/
def exStack : Stack where
  gap_get_rec_idx := fun conhdl => if conhdl = 1 then 0 else GAP_INVALID_CONIDX
  atts_svc_create_db := fun _ => (ATT_ERR_NO_ERROR, 16, fun _ => 0)
  attsdb_svc_set_permission := fun _ => ATT_ERR_NO_ERROR

/-- A battery service environment with one instance that supports
notifications, owned by connection `1` and application task `5`. -/
def exBassEnv : bass_task.bass_env_tag where
  con_info := ⟨1, 5, TASK_BASS⟩
  shdl := fun _ => 16
  features := fun _ => bass_task.BAS_BATT_LVL_NTF_SUP
  bas_nb := 1

/-- An enable request of the battery service: notifications started, battery
level changed from 40 to 50. -/
def exBassEnable (conhdl : Nat) : bass_task.bass_enable_req where
  conhdl := conhdl
  sec_lvl := 1
  con_type := PRF_CON_NORMAL
  batt_level_ntf_cfg := fun _ => PRF_CLI_START_NTF
  old_batt_lvl := fun _ => 40
  current_batt_lvl := fun _ => 50
  batt_level_pres_format := fun _ => ⟨0, 0, 0, 0, 0⟩

/-- A heart rate environment owned by connection `1` and application task `5`. -/
def exHrpsEnv : hrps_task.hrps_env_tag where
  con_info := ⟨1, 5, TASK_HRPS⟩
  shdl := 32
  features := hrps_task.HRPS_BODY_SENSOR_LOC_CHAR_SUP

/-- An enable request of the heart rate sensor. -/
def exHrpsEnable (conhdl : Nat) : hrps_task.hrps_enable_req where
  conhdl := conhdl
  sec_lvl := 1
  con_type := PRF_CON_NORMAL
  hr_meas_ntf_en := PRF_CLI_START_NTF
  body_sensor_loc := 1

/-- A scan parameters environment owned by connection `1` and application task
`5`. -/
def exScppsEnv : scpps_task.scpps_env_tag where
  con_info := ⟨1, 5, TASK_SCPPS⟩
  shdl := 48
  features := scpps_task.SCPPS_SCAN_REFRESH_CHAR_SUP
  scan_refresh_ntf_cfg := 0

/-- An enable request of the scan parameters server. -/
def exScppsEnable (conhdl : Nat) : scpps_task.scpps_enable_req where
  conhdl := conhdl
  sec_lvl := 1
  con_type := PRF_CON_NORMAL
  scan_refresh_ntf_en := PRF_CLI_START_NTF

/-- A create-database request of the battery service for `n` instances that
support notifications. -/
def exBassCreate (n : Nat) : bass_task.bass_create_db_req where
  bas_nb := n
  features := fun _ => bass_task.BAS_BATT_LVL_NTF_SUP

/-- The condition, read on the environment and the request, under which the
loop of `bass_enable_req_handler` reaches the `ke_msg_send` of line 223 for
instance `i` (the tests of lines 194, 200, 208 and 214). -/
def bass_ntf_due (env : bass_task.bass_env_tag) (param : bass_task.bass_enable_req)
    (i : Nat) : Bool :=
  decide (env.features i = bass_task.BAS_BATT_LVL_NTF_SUP ∧
    param.con_type = PRF_CON_NORMAL ∧
    param.batt_level_ntf_cfg i = PRF_CLI_START_NTF ∧
    param.old_batt_lvl i ≠ param.current_batt_lvl i)

/-- The `GATT_NOTIFY_REQ` built at lines 217-221 of `bass_enable_req_handler`
for instance `i`. -/
def bass_ntf_req (env : bass_task.bass_env_tag) (i : Nat) : Call :=
  Call.ke_msg_send ⟨.GATT_NOTIFY_REQ, TASK_GATT, TASK_BASS,
    .gatt_notify_req env.con_info.conhdl (u16 (env.shdl i + bass_task.BAS_IDX_BATT_LVL_VAL))⟩

/-- A battery service environment with two instances that support
notifications, at start handles `16` and `32`. -/
def exBassEnv2 : bass_task.bass_env_tag where
  con_info := ⟨1, 5, TASK_BASS⟩
  shdl := fun i => if i = 0 then 16 else 32
  features := fun _ => bass_task.BAS_BATT_LVL_NTF_SUP
  bas_nb := 2

/-- A GATT write of the two bytes `b0`, `b1` at `handle` on connection `1`. -/
def exWrite (handle b0 b1 : Nat) : gatt_write_cmd_ind where
  conhdl := 1
  handle := handle
  length := 2
  offset := 0
  last := true
  value := fun k => if k = 0 then b0 else if k = 1 then b1 else 0

/-- A cycling speed and cadence environment: service at start handle `64`, SC
Control Point characteristic at offset `8`, Sensor Location characteristic at
offset `6`, every feature supported, the given client configuration flags and
the given operation in progress. -/
def exCscpsEnv (ccc_flags operation : Nat) : cscps_task.cscps_env_tag where
  con_info := ⟨1, 5, TASK_CSCPS⟩
  wheel_revol := 0
  shdl := 64
  prf_cfg := cscps_task.CSCP_FEAT_ALL_SUPP ||| ccc_flags
  hdl_offset := fun k => if k = cscps_task.CSCP_CSCS_SC_CTNL_PT_CHAR then 8
    else if k = cscps_task.CSCP_CSCS_SENSOR_LOC_CHAR then 6 else 0
  operation := operation

/-- Relation between the old and the new value of a `uint8_t` flag when the
bits of `mask` have been set: every bit of the mask is set in the new value
and every other bit is as before. -/
def MaskSet (old new mask : Nat) : Prop :=
  new &&& mask = mask ∧ ∀ k, mask.testBit k = false → new.testBit k = old.testBit k

/-- Relation between the old and the new value of a `uint8_t` flag when the
bits of `mask` have been cleared: every bit of the mask is clear in the new
value and every other bit is as before. -/
def MaskCleared (old new mask : Nat) : Prop :=
  new &&& mask = 0 ∧ ∀ k, mask.testBit k = false → new.testBit k = old.testBit k

/-- A HID device environment with one HIDS instance whose notification flags are
all clear, owned by connection `1` and application task `5`. -/
def exHogpdEnv : hogpd.hogpd_env_tag where
  con_info := ⟨1, 5, TASK_HOGPD⟩
  shdl := fun _ => 80
  att_tbl := fun _ _ => 0
  features := fun _ => ⟨0x01, 1, fun _ => 0x02⟩
  hids_nb := 1

/-- The run of C9, step 1: connected, notifications and indications enabled, no
operation in progress; the client writes the operation code "set cumulative
value" to the SC Control Point value at handle `64 + 8 + 1`. -/
def exCscpsStep1 : Res cscps_task.cscps_env_tag :=
  cscps_task.gatt_write_cmd_ind_handler
    (exCscpsEnv (cscps_task.CSCP_PRF_CFG_FLAG_CSC_MEAS_NTF |||
      cscps_task.CSCP_PRF_CFG_FLAG_SC_CTNL_PT_IND) cscps_task.CSCPS_RESERVED_OP_CODE)
    cscps_task.CSCPS_CONNECTED (exWrite 73 cscps_task.CSCP_CTNL_PT_OP_SET_CUMUL_VAL 0)
    TASK_CSCPS TASK_GATT

/-- The run of C9, step 2: while the procedure is in progress the client writes
`0x0000` to the client characteristic configuration descriptor of the SC
Control Point at handle `64 + 8 + 2`. -/
def exCscpsStep2 : Res cscps_task.cscps_env_tag :=
  cscps_task.gatt_write_cmd_ind_handler exCscpsStep1.env exCscpsStep1.state (exWrite 74 0 0)
    TASK_CSCPS TASK_GATT

/-- A CSC measurement command on connection `1` with wheel and crank data. -/
def exMeasCmd : cscps_task.cscps_ntf_csc_meas_cmd where
  conhdl := 1
  flags := 0x03
  cumul_crank_rev := 7
  last_crank_evt_time := 8
  last_wheel_evt_time := 9
  wheel_rev := 2

/-! ## Battery level update: `bass_task.c` -/

namespace bass_task

/-- Maximal battery level, in percent (`bass.h` is not among the sources; the
value 100 is the one of the Battery Service). -/
def BAS_BATTERY_LVL_MAX : Nat := 100

/-- Parameters of `BASS_BATT_LEVEL_UPD_REQ`. -/
structure bass_batt_level_upd_req where
  conhdl : Nat
  bas_instance : Nat
  batt_level : Nat

/-- The handler `bass_batt_level_upd_req_handler` of `bass_task.c`, lines
268-313.  The helper `bass_batt_level_upd_cfm_send` (`bass.c`, not among the
sources) is recorded as a call. -/
def bass_batt_level_upd_req_handler (env : bass_env_tag) (state : Nat)
    (param : bass_batt_level_upd_req) (_dest_id _src_id : Nat) : Res bass_env_tag :=
  if param.conhdl = env.con_info.conhdl ∨ param.bas_instance < env.bas_nb ∨
      param.batt_level ≤ BAS_BATTERY_LVL_MAX then
    let calls1 := [Call.attsdb_att_set_value
      (u16 (env.shdl param.bas_instance + BAS_IDX_BATT_LVL_VAL)) 1 [param.batt_level]]
    if env.features param.bas_instance &&& BASS_FLAG_NTF_CFG_BIT = BASS_FLAG_NTF_CFG_BIT then
      { env := env, state := state,
        calls := calls1 ++ [Call.ke_msg_send ⟨.GATT_NOTIFY_REQ, TASK_GATT, TASK_BASS,
          .gatt_notify_req env.con_info.conhdl
            (u16 (env.shdl param.bas_instance + BAS_IDX_BATT_LVL_VAL))⟩],
        ret := .KE_MSG_CONSUMED }
    else
      { env := env, state := state,
        calls := calls1 ++ [Call.bass_batt_level_upd_cfm_send PRF_ERR_NTF_DISABLED],
        ret := .KE_MSG_CONSUMED }
  else
    { env := env, state := state,
      calls := [Call.bass_batt_level_upd_cfm_send PRF_ERR_INVALID_PARAM],
      ret := .KE_MSG_CONSUMED }

end bass_task

/-! ## Enabling the cycling speed and cadence sensor: `cscps_task.c` -/

namespace cscps_task

/-- Parameters of `CSCPS_ENABLE_REQ`. -/
structure cscps_enable_req where
  conhdl : Nat
  sec_lvl : Nat
  con_type : Nat
  csc_meas_ntf_cfg : Nat
  sc_ctnl_pt_ntf_cfg : Nat
  wheel_rev : Nat

/-- Variables of `cscps_enable_req_handler` while the client configuration
values are checked: the environment, the request (the handler writes the
forced values into it) and the status. -/
structure EnableChk where
  env : cscps_env_tag
  param : cscps_enable_req
  status : Nat

/-- The check of the CSC Measurement client configuration value, lines 234-252
of `cscps_enable_req_handler`. -/
def enable_chk_meas (c : EnableChk) : EnableChk :=
  if c.param.con_type = PRF_CON_DISCOVERY then
    { c with param := { c.param with csc_meas_ntf_cfg := PRF_CLI_STOP_NTFIND } }
  else if c.param.csc_meas_ntf_cfg = PRF_CLI_START_NTF then
    { c with env := CSCPS_ENABLE_NTFIND c.env CSCP_PRF_CFG_FLAG_CSC_MEAS_NTF }
  else if c.param.csc_meas_ntf_cfg ≠ PRF_CLI_STOP_NTFIND then
    { c with status := PRF_ERR_INVALID_PARAM }
  else c

/-- The check of the SC Control Point client configuration value, lines 254-276
of `cscps_enable_req_handler`. -/
def enable_chk_ctnl_pt (c : EnableChk) : EnableChk :=
  if c.status = PRF_ERR_OK ∧ c.env.hdl_offset CSCP_CSCS_SC_CTNL_PT_CHAR ≠ 0x00 then
    if c.param.con_type = PRF_CON_DISCOVERY then
      { c with param := { c.param with sc_ctnl_pt_ntf_cfg := PRF_CLI_STOP_NTFIND } }
    else if c.param.sc_ctnl_pt_ntf_cfg = PRF_CLI_START_IND then
      { c with env := CSCPS_ENABLE_NTFIND c.env CSCP_PRF_CFG_FLAG_SC_CTNL_PT_IND }
    else if c.param.sc_ctnl_pt_ntf_cfg ≠ PRF_CLI_STOP_NTFIND then
      { c with status := PRF_ERR_INVALID_PARAM }
    else c
  else c

/-- The handler `cscps_enable_req_handler` of `cscps_task.c`, lines 214-311. -/
def cscps_enable_req_handler (S : Stack) (env : cscps_env_tag) (state : Nat)
    (param : cscps_enable_req) (dest_id src_id : Nat) : Res cscps_env_tag :=
  if state = CSCPS_IDLE ∧ S.gap_get_rec_idx param.conhdl ≠ GAP_INVALID_CONIDX then
    let env1 : cscps_env_tag :=
      { env with con_info := ⟨param.conhdl, src_id, dest_id⟩,
                 prf_cfg := env.prf_cfg &&& CSCP_FEAT_ALL_SUPP }
    let c := enable_chk_ctnl_pt (enable_chk_meas ⟨env1, param, PRF_ERR_OK⟩)
    if c.status = PRF_ERR_OK then
      let calls1 := [Call.attsdb_att_set_value (u16 (c.env.shdl + CSCS_IDX_CSC_MEAS_NTF_CFG)) 2
        (bytes16 c.param.csc_meas_ntf_cfg)]
      let calls2 :=
        if c.env.hdl_offset CSCP_CSCS_SC_CTNL_PT_CHAR ≠ 0x00 then
          calls1 ++ [Call.attsdb_att_set_value
            (u16 (c.env.shdl + c.env.hdl_offset CSCP_CSCS_SC_CTNL_PT_CHAR + 2)) 2
            (bytes16 c.param.sc_ctnl_pt_ntf_cfg)]
        else calls1
      -- `ke_state_set(dest_id, CSCPS_CONNECTED)`, then the completion event
      let e := cscps_send_cmp_evt { c.env with wheel_revol := c.param.wheel_rev }
        CSCPS_CONNECTED dest_id src_id c.param.conhdl CSCPS_ENABLE_OP_CODE c.status
      { env := e.env,
        state := e.state,
        calls := calls2 ++ [Call.attsdb_svc_set_permission c.env.shdl c.param.sec_lvl] ++ e.calls,
        ret := .KE_MSG_CONSUMED }
    else
      let e := cscps_send_cmp_evt c.env state dest_id src_id c.param.conhdl
        CSCPS_ENABLE_OP_CODE c.status
      { env := e.env, state := e.state, calls := e.calls, ret := .KE_MSG_CONSUMED }
  else
    let e := cscps_send_cmp_evt env state dest_id src_id param.conhdl CSCPS_ENABLE_OP_CODE
      PRF_ERR_REQ_DISALLOWED
    { env := e.env, state := e.state, calls := e.calls, ret := .KE_MSG_CONSUMED }

end cscps_task

/-! ## Completion events of the client roles: `cscpc.c`, `anpc.c`, `paspc.c` -/

/-- The part of the environment of a client role task (`struct cscpc_env_tag`,
`struct anpc_env_tag`) that `xxx_send_cmp_evt` uses: the connection
information and the pointer to the stored request of the operation in
progress (`none` is `NULL`). -/
structure client_env_tag where
  con_info : prf_con_info
  operation : Option ke_msg

namespace cscpc

/-- Modelled from the spec: `cscpc_task.h` is not among the sources; states of
the task. -/
def CSCPC_CONNECTED : Nat := 2
/-- Modelled from the spec: `cscpc_task.h` is not among the sources. -/
def CSCPC_BUSY : Nat := 3

/-- The function `cscpc_send_cmp_evt` of `cscpc.c`, lines 69-94; `state` is the
state of the task `cscpc_env->con_info.prf_id`. -/
def cscpc_send_cmp_evt (cscpc_env : client_env_tag) (state : Nat) (operation status : Nat) :
    VRes client_env_tag :=
  let calls1 : List Call :=
    match cscpc_env.operation with
    | some msg => [Call.ke_msg_free msg]
    | none => []
  let env1 : client_env_tag := { cscpc_env with operation := none }
  { env := env1,
    state := if state = CSCPC_BUSY then CSCPC_CONNECTED else state,
    calls := calls1 ++ [Call.ke_msg_send ⟨.CSCPC_CMP_EVT, env1.con_info.appid,
      env1.con_info.prf_id, .cscpc_cmp_evt env1.con_info.conhdl operation status⟩] }

end cscpc

namespace anpc

/-- Modelled from the spec: `anpc_task.h` is not among the sources; states of
the task. -/
def ANPC_CONNECTED : Nat := 1
/-- Modelled from the spec: `anpc_task.h` is not among the sources. -/
def ANPC_BUSY : Nat := 2

/-- The function `anpc_send_cmp_evt` of `anpc.c`, lines 116-141; `state` is the
state of the task `anpc_env->con_info.prf_id`. -/
def anpc_send_cmp_evt (anpc_env : client_env_tag) (state : Nat) (operation status : Nat) :
    VRes client_env_tag :=
  let calls1 : List Call :=
    match anpc_env.operation with
    | some msg => [Call.ke_msg_free msg]
    | none => []
  let env1 : client_env_tag := { anpc_env with operation := none }
  { env := env1,
    state := if state = ANPC_BUSY then ANPC_CONNECTED else state,
    calls := calls1 ++ [Call.ke_msg_send ⟨.ANPC_CMP_EVT, env1.con_info.appid,
      env1.con_info.prf_id, .anpc_cmp_evt env1.con_info.conhdl operation status⟩] }

end anpc

namespace paspc

/-- Modelled from the spec: `paspc_task.h` is not among the sources; states of
the task. -/
def PASPC_CONNECTED : Nat := 1
/-- Modelled from the spec: `paspc_task.h` is not among the sources. -/
def PASPC_BUSY : Nat := 2

/-- The function `paspc_send_cmp_evt` of `paspc.c`, lines 52-71; `state` is the
state of the task `src_id`.  The function uses no environment. -/
def paspc_send_cmp_evt (state : Nat) (src_id dest_id conhdl operation status : Nat) :
    VRes Unit :=
  { env := (),
    state := if state = PASPC_BUSY then PASPC_CONNECTED else state,
    calls := [Call.ke_msg_send ⟨.PASPC_CMP_EVT, dest_id, src_id,
      .paspc_cmp_evt conhdl operation status⟩] }

end paspc

/-! ## The main loop: `app_main.c` -/

namespace app_main

/-- Modelled from the spec: `sleep.h` is not among the sources; power modes
returned by `usr_sleep` and `ble_sleep`, in the order of the table of lines
219-226. -/
def PM_ACTIVE : Int := 0
/-- Modelled from the spec: `sleep.h` is not among the sources. -/
def PM_IDLE : Int := 1
/-- Modelled from the spec: `sleep.h` is not among the sources. -/
def PM_SLEEP : Int := 2
/-- Modelled from the spec: `sleep.h` is not among the sources. -/
def PM_DEEP_SLEEP : Int := 3

/-- Sleep modes passed to `enter_sleep` (`sleep.h`). -/
inductive sleep_mode
  | SLEEP_CPU_CLK_OFF
  | SLEEP_NORMAL
  | SLEEP_DEEP
  deriving DecidableEq, Repr

/-- Wake-up sources passed to `enter_sleep` by the main loop (`sleep.h`). -/
inductive wakeup_src
  | WAKEUP_BY_ALL_IRQ_SOURCE
  | WAKEUP_BY_OSC_EN_or_WAKEUP_BY_GPIO
  | WAKEUP_BY_GPIO
  deriving DecidableEq, Repr

/-- The states of a LED (`enum led_st` of `led.h`). -/
inductive led_st
  | LED_ON
  | LED_OFF
  deriving DecidableEq, Repr

/-- Calls made by one iteration of the main loop after `ke_schedule`. -/
inductive MainCall
  | usr_sleep
  | ble_sleep (usr_sleep_st : Int)
  | led_set (idx : Nat) (enable : led_st)
  | enter_sleep (mode : sleep_mode) (wakeup : wakeup_src) (sleep_cb : Bool)
  deriving DecidableEq, Repr

/-- Holds of the calls to `enter_sleep`. -/
def MainCall.isEnterSleep : MainCall → Bool
  | .enter_sleep _ _ _ => true
  | _ => false

/-- The sleep check of one iteration of the main loop, `app_main.c` lines
229-286: `usr_sleep_st` is the value returned by `usr_sleep()` and `ble_sleep`
gives the value returned by `ble_sleep(usr_sleep_st)`. -/
def sleep_check (usr_sleep_st : Int) (ble_sleep : Int → Int) : List MainCall :=
  if usr_sleep_st ≠ PM_ACTIVE then
    let ble_sleep_st := ble_sleep usr_sleep_st
    let calls1 := [MainCall.usr_sleep, MainCall.ble_sleep usr_sleep_st]
    if (ble_sleep_st = PM_IDLE ∨ usr_sleep_st = PM_IDLE) ∧ ble_sleep_st ≠ PM_ACTIVE then
      calls1 ++ [.led_set 5 .LED_OFF, .led_set 4 .LED_ON,
        .enter_sleep .SLEEP_CPU_CLK_OFF wakeup_src.WAKEUP_BY_ALL_IRQ_SOURCE false,
        .led_set 4 .LED_OFF, .led_set 5 .LED_ON]
    else if ble_sleep_st = PM_SLEEP ∧ usr_sleep_st = PM_SLEEP then
      calls1 ++ [.led_set 5 .LED_OFF, .led_set 3 .LED_ON,
        .enter_sleep .SLEEP_NORMAL wakeup_src.WAKEUP_BY_OSC_EN_or_WAKEUP_BY_GPIO true,
        .led_set 3 .LED_OFF, .led_set 5 .LED_ON]
    else if ble_sleep_st = PM_SLEEP ∧ usr_sleep_st = PM_DEEP_SLEEP then
      calls1 ++ [.led_set 5 .LED_OFF, .led_set 2 .LED_ON,
        .enter_sleep .SLEEP_DEEP wakeup_src.WAKEUP_BY_GPIO true,
        .led_set 2 .LED_OFF, .led_set 5 .LED_ON]
    else calls1
  else [MainCall.usr_sleep]

end app_main

/-- A battery service environment with one instance at start handle `16` whose
client has enabled notifications (`features[0] = 0x03`), owned by connection
`1`; the elements of the arrays beyond the instance hold `0`. -/
def exBassEnvNtf : bass_task.bass_env_tag where
  con_info := ⟨1, 5, TASK_BASS⟩
  shdl := fun i => if i = 0 then 16 else 0
  features := fun i => if i = 0 then 0x03 else 0
  bas_nb := 1

/-- A cycling speed and cadence environment without SC Control Point
characteristic: service at start handle `64`, only the crank revolution
feature, no handle offset set. -/
def exCscpsEnvNoCtnlPt : cscps_task.cscps_env_tag where
  con_info := ⟨0, 0, TASK_CSCPS⟩
  wheel_revol := 0
  shdl := 64
  prf_cfg := cscps_task.CSCP_FEAT_CRANK_REV_DATA_SUPP
  hdl_offset := fun _ => 0
  operation := cscps_task.CSCPS_RESERVED_OP_CODE

/-- An enable request of the cycling speed and cadence sensor on connection
`1`, normal connection, with the given client configuration values. -/
def exCscpsEnable (csc_meas_ntf_cfg sc_ctnl_pt_ntf_cfg : Nat) : cscps_task.cscps_enable_req where
  conhdl := 1
  sec_lvl := 1
  con_type := PRF_CON_NORMAL
  csc_meas_ntf_cfg := csc_meas_ntf_cfg
  sc_ctnl_pt_ntf_cfg := sc_ctnl_pt_ntf_cfg
  wheel_rev := 100

/-! ## Glucose sensor: `glps.c` -/

namespace glps

/-- Modelled from the spec: `ke_task.h` is not among the sources. -/
def TASK_GLPS : Nat := 35
/-- Modelled from the spec: `glps_task.h` is not among the sources; states of
the task. -/
def GLPS_DISABLED : Nat := 0
/-- Modelled from the spec: `glps_task.h` is not among the sources. -/
def GLPS_IDLE : Nat := 1
/-- Modelled from the spec: `glps_task.h` is not among the sources. -/
def GLPS_CONNECTED : Nat := 2
/-- Modelled from the spec: `atts.h` is not among the sources; the permission
that disables a service. -/
def PERM_RIGHT_DISABLE : Nat := 0
/-- Modelled from the spec: `glps.h` is not among the sources; the bit of
`glps_env.flags` that the macros `GLPS_SET(ENABLE)` and `GLPS_CLEAR(ENABLE)`
set and clear. -/
def GLPS_ENABLE_FLAG : Nat := 0x01

/-- Modelled from the spec: `glp_common.h` is not among the sources; presence
bits of the flags of a glucose measurement context, one bit for each optional
group. -/
def GLP_CTX_CRBH_ID_AND_CRBH_PRES : Nat := 0x01
/-- Modelled from the spec: `glp_common.h` is not among the sources. -/
def GLP_CTX_MEAL_PRES : Nat := 0x02
/-- Modelled from the spec: `glp_common.h` is not among the sources. -/
def GLP_CTX_TESTER_HEALTH_PRES : Nat := 0x04
/-- Modelled from the spec: `glp_common.h` is not among the sources. -/
def GLP_CTX_EXE_DUR_AND_EXE_INTENS_PRES : Nat := 0x08
/-- Modelled from the spec: `glp_common.h` is not among the sources. -/
def GLP_CTX_MEDIC_ID_AND_MEDIC_PRES : Nat := 0x10
/-- Modelled from the spec: `glp_common.h` is not among the sources. -/
def GLP_CTX_HBA1C_PRES : Nat := 0x40
/-- Modelled from the spec: `glp_common.h` is not among the sources. -/
def GLP_CTX_EXTD_F_PRES : Nat := 0x80

/-- Modelled from the spec: `glp_common.h` is not among the sources; operation
codes of a record access request, in the order of their enumeration. -/
def GLP_REQ_REP_STRD_RECS : Nat := 1
/-- Modelled from the spec: `glp_common.h` is not among the sources. -/
def GLP_REQ_DEL_STRD_RECS : Nat := 2
/-- Modelled from the spec: `glp_common.h` is not among the sources. -/
def GLP_REQ_ABORT_OP : Nat := 3
/-- Modelled from the spec: `glp_common.h` is not among the sources. -/
def GLP_REQ_REP_NUM_OF_STRD_RECS : Nat := 4
/-- Modelled from the spec: `glp_common.h` is not among the sources; operators
of a record access request, in the order of their enumeration. -/
def GLP_OP_ALL_RECS : Nat := 1
/-- Modelled from the spec: `glp_common.h` is not among the sources. -/
def GLP_OP_LT_OR_EQ : Nat := 2
/-- Modelled from the spec: `glp_common.h` is not among the sources. -/
def GLP_OP_GT_OR_EQ : Nat := 3
/-- Modelled from the spec: `glp_common.h` is not among the sources. -/
def GLP_OP_WITHIN_RANGE_OF : Nat := 4
/-- Modelled from the spec: `glp_common.h` is not among the sources. -/
def GLP_OP_FIRST_REC : Nat := 5
/-- Modelled from the spec: `glp_common.h` is not among the sources. -/
def GLP_OP_LAST_REC : Nat := 6
/-- Modelled from the spec: `glp_common.h` is not among the sources; filter
types of a record access request. -/
def GLP_FILTER_SEQ_NUMBER : Nat := 1
/-- Modelled from the spec: `glp_common.h` is not among the sources. -/
def GLP_FILTER_USER_FACING_TIME : Nat := 2
/-- Modelled from the spec: `glp_common.h` is not among the sources; response
codes of the record access control point. -/
def GLP_RSP_OP_CODE_NOT_SUP : Nat := 2
/-- Modelled from the spec: `glp_common.h` is not among the sources. -/
def GLP_RSP_OPERATOR_NOT_SUP : Nat := 4
/-- Modelled from the spec: `glp_common.h` is not among the sources. -/
def GLP_RSP_OPERAND_NOT_SUP : Nat := 9
/-- Size of a user facing time filter, `glps.c` line 47. -/
def GLPS_FILTER_USER_FACING_TIME_SIZE : Nat := 9

/-- The environment `glps_env` (`struct glps_env_tag`). -/
structure glps_env_tag where
  con_info : prf_con_info
  racp_ind_src : Nat
  shdl : Nat
  evt_cfg : Nat
  flags : Nat
  deriving DecidableEq, Repr

/-- The function `glps_disable` of `glps.c`, lines 397-419.  The argument
`status` is not used by the function. -/
def glps_disable (env : glps_env_tag) (_state : Nat) (_status : Nat) : VRes glps_env_tag :=
  { env := { env with evt_cfg := 0, flags := clr8 env.flags GLPS_ENABLE_FLAG },
    state := GLPS_IDLE,
    calls := [Call.attsdb_svc_set_permission env.shdl PERM_RIGHT_DISABLE,
      Call.ke_msg_send ⟨.GLPS_DISABLE_IND, env.con_info.appid, TASK_GLPS,
        .glps_disable_ind env.con_info.conhdl env.evt_cfg⟩] }

/-- The structure `glp_meas_ctx`: the four 16-bit values, then the 8-bit
fields. -/
structure glp_meas_ctx where
  carbo_val : Nat
  exercise_dur : Nat
  med_val : Nat
  hba1c_val : Nat
  carbo_id : Nat
  meal : Nat
  tester : Nat
  health : Nat
  exercise_intens : Nat
  med_id : Nat
  flags : Nat
  ext_flags : Nat
  deriving DecidableEq, Repr

/-- The output buffer of a packing function, up to the cursor, and the
cursor. -/
structure Packed where
  bytes : List Nat
  cursor : Nat
  deriving DecidableEq, Repr

/-- Writes one byte at the cursor: `packed[cursor] = v; cursor += 1`. -/
def Packed.put8 (p : Packed) (v : Nat) : Packed :=
  { bytes := p.bytes ++ [u8 v], cursor := p.cursor + 1 }

/-- Writes a 16-bit word at the cursor:
`co_write16p(packed + cursor, v); cursor += 2`. -/
def Packed.put16 (p : Packed) (v : Nat) : Packed :=
  { bytes := p.bytes ++ bytes16 v, cursor := p.cursor + 2 }

/-- The function `glps_pack_meas_ctx_value` of `glps.c`, lines 111-190. -/
def glps_pack_meas_ctx_value (meas_ctx_val : glp_meas_ctx) (seq_num : Nat) : Packed :=
  let p0 : Packed := Packed.put8 ⟨[], 0⟩ meas_ctx_val.flags
  let p1 := p0.put16 seq_num
  let p2 := if meas_ctx_val.flags &&& GLP_CTX_EXTD_F_PRES ≠ 0
            then p1.put8 meas_ctx_val.ext_flags else p1
  let p3 := if meas_ctx_val.flags &&& GLP_CTX_CRBH_ID_AND_CRBH_PRES ≠ 0
            then (p2.put8 meas_ctx_val.carbo_id).put16 meas_ctx_val.carbo_val else p2
  let p4 := if meas_ctx_val.flags &&& GLP_CTX_MEAL_PRES ≠ 0
            then p3.put8 meas_ctx_val.meal else p3
  let p5 := if meas_ctx_val.flags &&& GLP_CTX_TESTER_HEALTH_PRES ≠ 0
            then p4.put8 ((meas_ctx_val.tester <<< 4) ||| meas_ctx_val.health) else p4
  let p6 := if meas_ctx_val.flags &&& GLP_CTX_EXE_DUR_AND_EXE_INTENS_PRES ≠ 0
            then (p5.put16 meas_ctx_val.exercise_dur).put8 meas_ctx_val.exercise_intens else p5
  let p7 := if meas_ctx_val.flags &&& GLP_CTX_MEDIC_ID_AND_MEDIC_PRES ≠ 0
            then (p6.put8 meas_ctx_val.med_id).put16 meas_ctx_val.med_val else p6
  if meas_ctx_val.flags &&& GLP_CTX_HBA1C_PRES ≠ 0
  then p7.put16 meas_ctx_val.hba1c_val else p7

/-- The structure `prf_date_time`. -/
structure prf_date_time where
  year : Nat
  month : Nat
  day : Nat
  hour : Nat
  min : Nat
  sec : Nat
  deriving DecidableEq, Repr

/-- The filter of a record access request (`struct glp_filter`).  In C the
sequence number bounds and the time bounds are the two members of a union; the
function writes the members of one of them only, after clearing the structure,
and they are kept as separate fields here. -/
structure glp_filter where
  operator : Nat
  filter_type : Nat
  seq_num_min : Nat
  seq_num_max : Nat
  time_base_min : prf_date_time
  time_offset_min : Nat
  time_base_max : prf_date_time
  time_offset_max : Nat
  deriving DecidableEq, Repr

/-- A record access request (`struct glp_racp_req`). -/
structure glp_racp_req where
  op_code : Nat
  filter : glp_filter
  deriving DecidableEq, Repr

/-- The filter after `memset(&(racp_req->filter), 0, sizeof(struct glp_filter))`. -/
def glp_filter_zero : glp_filter :=
  ⟨0, 0, 0, 0, ⟨0, 0, 0, 0, 0, 0⟩, 0, ⟨0, 0, 0, 0, 0, 0⟩, 0⟩

/-- Modelled from the spec: `prf_utils.c` is not among the sources (only the
declaration in `prf_utils.h`).  Unpacks the seven bytes of a date and time at
the cursor: year (little-endian), month, day, hours, minutes, seconds. -/
def prf_unpack_date_time (packed_val : Nat → Nat) (cursor : Nat) : prf_date_time :=
  ⟨co_read16p (packed_val cursor) (packed_val (cursor + 1)), packed_val (cursor + 2),
    packed_val (cursor + 3), packed_val (cursor + 4), packed_val (cursor + 5),
    packed_val (cursor + 6)⟩

/-- The size returned by `prf_unpack_date_time`. -/
def PRF_DATE_TIME_SIZE : Nat := 7

/-- The end of the sequence number branch of `glps_unpack_racp_req`, lines
267-279 and 329: the maximum value. -/
def unpack_seq_num_max (packed_val : Nat → Nat) (length : Nat) (req : glp_racp_req)
    (cursor : Nat) : Nat × glp_racp_req :=
  if req.filter.operator = GLP_OP_LT_OR_EQ ∨ req.filter.operator = GLP_OP_WITHIN_RANGE_OF then
    if (length : Int) - (cursor : Int) < 2 then (PRF_APP_ERROR, req)
    else
      (PRF_ERR_OK, { req with filter := { req.filter with
        seq_num_max := co_read16p (packed_val cursor) (packed_val (cursor + 1)) } })
  else (PRF_ERR_OK, req)

/-- The sequence number branch of `glps_unpack_racp_req`, lines 252-279. -/
def unpack_seq_num (packed_val : Nat → Nat) (length : Nat) (req : glp_racp_req)
    (cursor : Nat) : Nat × glp_racp_req :=
  if req.filter.operator = GLP_OP_GT_OR_EQ ∨ req.filter.operator = GLP_OP_WITHIN_RANGE_OF then
    if (length : Int) - (cursor : Int) < 2 then (PRF_APP_ERROR, req)
    else
      unpack_seq_num_max packed_val length
        { req with filter := { req.filter with
          seq_num_min := co_read16p (packed_val cursor) (packed_val (cursor + 1)) } }
        (cursor + 2)
  else unpack_seq_num_max packed_val length req cursor

/-- The end of the user facing time branch of `glps_unpack_racp_req`, lines
304-321 and 329: the maximum value. -/
def unpack_time_max (packed_val : Nat → Nat) (length : Nat) (req : glp_racp_req)
    (cursor : Nat) : Nat × glp_racp_req :=
  if req.filter.operator = GLP_OP_LT_OR_EQ ∨ req.filter.operator = GLP_OP_WITHIN_RANGE_OF then
    if (length : Int) - (cursor : Int) < (GLPS_FILTER_USER_FACING_TIME_SIZE : Int) then
      (PRF_APP_ERROR, req)
    else
      (PRF_ERR_OK, { req with filter := { req.filter with
        time_base_max := prf_unpack_date_time packed_val cursor,
        time_offset_max := co_read16p (packed_val (cursor + PRF_DATE_TIME_SIZE))
          (packed_val (cursor + PRF_DATE_TIME_SIZE + 1)) } })
  else (PRF_ERR_OK, req)

/-- The user facing time branch of `glps_unpack_racp_req`, lines 284-321. -/
def unpack_time (packed_val : Nat → Nat) (length : Nat) (req : glp_racp_req)
    (cursor : Nat) : Nat × glp_racp_req :=
  if req.filter.operator = GLP_OP_GT_OR_EQ ∨ req.filter.operator = GLP_OP_WITHIN_RANGE_OF then
    if (length : Int) - (cursor : Int) < (GLPS_FILTER_USER_FACING_TIME_SIZE : Int) then
      (PRF_APP_ERROR, req)
    else
      unpack_time_max packed_val length
        { req with filter := { req.filter with
          time_base_min := prf_unpack_date_time packed_val cursor,
          time_offset_min := co_read16p (packed_val (cursor + PRF_DATE_TIME_SIZE))
            (packed_val (cursor + PRF_DATE_TIME_SIZE + 1)) } }
        (cursor + PRF_DATE_TIME_SIZE + 2)
  else unpack_time_max packed_val length req cursor

/-- The function `glps_unpack_racp_req` of `glps.c`, lines 192-330:
`packed_val` is the buffer, `racp_req` the structure the result is written to;
the result is the returned status and the structure afterwards. -/
def glps_unpack_racp_req (packed_val : Nat → Nat) (length : Nat) (racp_req : glp_racp_req) :
    Nat × glp_racp_req :=
  if length < 2 then (PRF_APP_ERROR, racp_req)
  else
    -- cursor is 2 after the operation code and the operator
    let req1 : glp_racp_req :=
      { op_code := packed_val 0, filter := { glp_filter_zero with operator := packed_val 1 } }
    if req1.op_code < GLP_REQ_REP_STRD_RECS ∨ req1.op_code > GLP_REQ_REP_NUM_OF_STRD_RECS then
      (GLP_RSP_OP_CODE_NOT_SUP, req1)
    else if req1.op_code = GLP_REQ_ABORT_OP then (PRF_ERR_OK, req1)
    else if req1.filter.operator < GLP_OP_ALL_RECS ∨ req1.filter.operator > GLP_OP_LAST_REC then
      (GLP_RSP_OPERATOR_NOT_SUP, req1)
    else if req1.filter.operator ≥ GLP_OP_LT_OR_EQ ∧
        req1.filter.operator ≤ GLP_OP_WITHIN_RANGE_OF then
      if length < 2 then (PRF_APP_ERROR, req1)
      else
        let req2 : glp_racp_req :=
          { req1 with filter := { req1.filter with filter_type := packed_val 2 } }
        if req2.filter.filter_type = GLP_FILTER_SEQ_NUMBER then
          unpack_seq_num packed_val length req2 3
        else if req2.filter.filter_type = GLP_FILTER_USER_FACING_TIME then
          unpack_time packed_val length req2 3
        else (GLP_RSP_OPERAND_NOT_SUP, req2)
    else (PRF_ERR_OK, req1)

end glps

/-- A glucose sensor environment owned by connection `1` and application task
`5`, enabled, with the event configuration `0x07`. -/
def exGlpsEnv : glps.glps_env_tag where
  con_info := ⟨1, 5, glps.TASK_GLPS⟩
  racp_ind_src := 0
  shdl := 96
  evt_cfg := 0x07
  flags := 0x03

/-- A buffer holding the bytes of the list, followed by zeros. -/
def exBuf (l : List Nat) : Nat → Nat := fun k => l.getD k 0

/-- A record access request structure before the call, with recognizable
content. -/
def exRacpReq : glps.glp_racp_req :=
  ⟨0xEE, { glps.glp_filter_zero with operator := 0xEE }⟩

/-- The ranges of the C types of the fields of `glp_meas_ctx`: four `uint16_t`
values and eight `uint8_t` values. -/
def glp_meas_ctx_in_range (m : glps.glp_meas_ctx) : Prop :=
  m.carbo_val < 65536 ∧ m.exercise_dur < 65536 ∧ m.med_val < 65536 ∧ m.hba1c_val < 65536 ∧
  m.carbo_id < 256 ∧ m.meal < 256 ∧ m.tester < 256 ∧ m.health < 256 ∧
  m.exercise_intens < 256 ∧ m.med_id < 256 ∧ m.flags < 256 ∧ m.ext_flags < 256

/-- An optional group of bytes of a packed value: the bytes when the group is
present, nothing otherwise. -/
def glp_seg (present : Prop) [Decidable present] (l : List Nat) : List Nat :=
  if present then l else []

/-- The layout of the packed measurement context in the words of the spec:
flags, sequence number, then the groups selected by the flags in fixed order,
multi-byte fields little-endian. -/
def glps_meas_ctx_layout (m : glps.glp_meas_ctx) (seq_num : Nat) : List Nat :=
  [u8 m.flags] ++ bytes16 seq_num ++
  glp_seg (m.flags &&& glps.GLP_CTX_EXTD_F_PRES ≠ 0) [u8 m.ext_flags] ++
  glp_seg (m.flags &&& glps.GLP_CTX_CRBH_ID_AND_CRBH_PRES ≠ 0)
    ([u8 m.carbo_id] ++ bytes16 m.carbo_val) ++
  glp_seg (m.flags &&& glps.GLP_CTX_MEAL_PRES ≠ 0) [u8 m.meal] ++
  glp_seg (m.flags &&& glps.GLP_CTX_TESTER_HEALTH_PRES ≠ 0)
    [u8 ((m.tester <<< 4) ||| m.health)] ++
  glp_seg (m.flags &&& glps.GLP_CTX_EXE_DUR_AND_EXE_INTENS_PRES ≠ 0)
    (bytes16 m.exercise_dur ++ [u8 m.exercise_intens]) ++
  glp_seg (m.flags &&& glps.GLP_CTX_MEDIC_ID_AND_MEDIC_PRES ≠ 0)
    ([u8 m.med_id] ++ bytes16 m.med_val) ++
  glp_seg (m.flags &&& glps.GLP_CTX_HBA1C_PRES ≠ 0) (bytes16 m.hba1c_val)

/-- Reader of packed bytes: the first byte. -/
def glp_rd8 (l : List Nat) : Nat := l.headD 0

/-- Reader of packed bytes: the little-endian 16-bit word made of the first two
bytes. -/
def glp_rd16 (l : List Nat) : Nat := co_read16p (l.headD 0) ((l.drop 1).headD 0)

/-- Reader of packed bytes: skips the `n` bytes of a group when it is
present. -/
def glp_skip (present : Prop) [Decidable present] (n : Nat) (l : List Nat) : List Nat :=
  if present then l.drop n else l

/-- The unpacking asked for by the round-trip property of the measurement
context (it is not part of the sources): reads the flags, the sequence number
and then the groups that the flags select, in the order and with the sizes of
`glps_pack_meas_ctx_value`; the fields of the groups that are absent are `0`.
Returns the measurement context and the sequence number. -/
def glps_unpack_meas_ctx_value (bytes : List Nat) : glps.glp_meas_ctx × Nat :=
  let flags := glp_rd8 bytes
  let seq_num := glp_rd16 (bytes.drop 1)
  let r0 := bytes.drop 3
  let r1 := glp_skip (flags &&& glps.GLP_CTX_EXTD_F_PRES ≠ 0) 1 r0
  let r2 := glp_skip (flags &&& glps.GLP_CTX_CRBH_ID_AND_CRBH_PRES ≠ 0) 3 r1
  let r3 := glp_skip (flags &&& glps.GLP_CTX_MEAL_PRES ≠ 0) 1 r2
  let r4 := glp_skip (flags &&& glps.GLP_CTX_TESTER_HEALTH_PRES ≠ 0) 1 r3
  let r5 := glp_skip (flags &&& glps.GLP_CTX_EXE_DUR_AND_EXE_INTENS_PRES ≠ 0) 3 r4
  let r6 := glp_skip (flags &&& glps.GLP_CTX_MEDIC_ID_AND_MEDIC_PRES ≠ 0) 3 r5
  ({ flags := flags,
     ext_flags := if flags &&& glps.GLP_CTX_EXTD_F_PRES ≠ 0 then glp_rd8 r0 else 0,
     carbo_id := if flags &&& glps.GLP_CTX_CRBH_ID_AND_CRBH_PRES ≠ 0 then glp_rd8 r1 else 0,
     carbo_val :=
       if flags &&& glps.GLP_CTX_CRBH_ID_AND_CRBH_PRES ≠ 0 then glp_rd16 (r1.drop 1) else 0,
     meal := if flags &&& glps.GLP_CTX_MEAL_PRES ≠ 0 then glp_rd8 r2 else 0,
     tester := if flags &&& glps.GLP_CTX_TESTER_HEALTH_PRES ≠ 0 then glp_rd8 r3 >>> 4 else 0,
     health :=
       if flags &&& glps.GLP_CTX_TESTER_HEALTH_PRES ≠ 0 then glp_rd8 r3 &&& 0x0F else 0,
     exercise_dur :=
       if flags &&& glps.GLP_CTX_EXE_DUR_AND_EXE_INTENS_PRES ≠ 0 then glp_rd16 r4 else 0,
     exercise_intens :=
       if flags &&& glps.GLP_CTX_EXE_DUR_AND_EXE_INTENS_PRES ≠ 0 then glp_rd8 (r4.drop 2)
       else 0,
     med_id := if flags &&& glps.GLP_CTX_MEDIC_ID_AND_MEDIC_PRES ≠ 0 then glp_rd8 r5 else 0,
     med_val :=
       if flags &&& glps.GLP_CTX_MEDIC_ID_AND_MEDIC_PRES ≠ 0 then glp_rd16 (r5.drop 1) else 0,
     hba1c_val := if flags &&& glps.GLP_CTX_HBA1C_PRES ≠ 0 then glp_rd16 r6 else 0 },
   seq_num)

/-- A measurement context with the tester-health group alone, with the given
tester and health values. -/
def exMeasCtx (tester health : Nat) : glps.glp_meas_ctx where
  carbo_val := 0
  exercise_dur := 0
  med_val := 0
  hba1c_val := 0
  carbo_id := 0
  meal := 0
  tester := tester
  health := health
  exercise_intens := 0
  med_id := 0
  flags := glps.GLP_CTX_TESTER_HEALTH_PRES
  ext_flags := 0

/-- A measurement context with every group present. -/
def exMeasCtxFull : glps.glp_meas_ctx where
  carbo_val := 0x1234
  exercise_dur := 0x0102
  med_val := 0xBEEF
  hba1c_val := 0x00FF
  carbo_id := 3
  meal := 2
  tester := 1
  health := 5
  exercise_intens := 80
  med_id := 4
  flags := 0xDF
  ext_flags := 0xAA

/-- The measurement context with the fields of the absent groups cleared: what
the packed bytes carry of a measurement context. -/
def glp_meas_ctx_selected (m : glps.glp_meas_ctx) : glps.glp_meas_ctx where
  flags := m.flags
  ext_flags := if m.flags &&& glps.GLP_CTX_EXTD_F_PRES ≠ 0 then m.ext_flags else 0
  carbo_id := if m.flags &&& glps.GLP_CTX_CRBH_ID_AND_CRBH_PRES ≠ 0 then m.carbo_id else 0
  carbo_val := if m.flags &&& glps.GLP_CTX_CRBH_ID_AND_CRBH_PRES ≠ 0 then m.carbo_val else 0
  meal := if m.flags &&& glps.GLP_CTX_MEAL_PRES ≠ 0 then m.meal else 0
  tester := if m.flags &&& glps.GLP_CTX_TESTER_HEALTH_PRES ≠ 0 then m.tester else 0
  health := if m.flags &&& glps.GLP_CTX_TESTER_HEALTH_PRES ≠ 0 then m.health else 0
  exercise_dur :=
    if m.flags &&& glps.GLP_CTX_EXE_DUR_AND_EXE_INTENS_PRES ≠ 0 then m.exercise_dur else 0
  exercise_intens :=
    if m.flags &&& glps.GLP_CTX_EXE_DUR_AND_EXE_INTENS_PRES ≠ 0 then m.exercise_intens else 0
  med_id := if m.flags &&& glps.GLP_CTX_MEDIC_ID_AND_MEDIC_PRES ≠ 0 then m.med_id else 0
  med_val := if m.flags &&& glps.GLP_CTX_MEDIC_ID_AND_MEDIC_PRES ≠ 0 then m.med_val else 0
  hba1c_val := if m.flags &&& glps.GLP_CTX_HBA1C_PRES ≠ 0 then m.hba1c_val else 0

namespace hogpd

/-- Modelled from the spec: `hogpd.h` is not among the sources; number of
elements of the arrays that have one element for each HIDS instance. -/
def HOGPD_NB_HIDS_INST_MAX : Nat := 2
/-- Modelled from the spec: `hogpd.h` is not among the sources; number of
elements of the arrays that have one element for each Report characteristic. -/
def HOGPD_NB_REPORT_INST_MAX : Nat := 5
/-- Modelled from the spec: `hogpd.h` is not among the sources; task states in
the order of their enumeration. -/
def HOGPD_DISABLED : Nat := 0
/-- Modelled from the spec: `hogpd.h` is not among the sources. -/
def HOGPD_IDLE : Nat := 1
/-- Modelled from the spec: `hogpd.h` is not among the sources. -/
def HOGPD_CONNECTED : Nat := 2
/-- Modelled from the spec: `attm.h` is not among the sources. -/
def PERM_RIGHT_DISABLE : Nat := 0

/-- The element `ind->ntf_cfg[hids_nb]` of the `HOGPD_DISABLE_IND` being filled
in (`struct hogpd_hids_ntf_cfg`); the array `report_ntf_en` is a function of the
index. -/
structure ntf_cfg_acc where
  boot_kb_in_report_ntf_en : Nat
  boot_mouse_in_report_ntf_en : Nat
  report_ntf_en : Nat → Nat

/-- Modelled from the spec: the kernel is not among the sources.  The parameter
structure returned by `KE_MSG_ALLOC` is filled with zeros by the allocator. -/
def ke_msg_alloc_ntf_cfg : Nat → ntf_cfg_acc := fun _ => ⟨0, 0, fun _ => 0⟩

/-- The array `ind->ntf_cfg` as it is sent: `HOGPD_NB_HIDS_INST_MAX` elements,
each with `HOGPD_NB_REPORT_INST_MAX` report fields. -/
def ntf_cfg_array (c : Nat → ntf_cfg_acc) : List hogpd_hids_ntf_cfg :=
  (List.range HOGPD_NB_HIDS_INST_MAX).map fun n =>
    ⟨(c n).boot_kb_in_report_ntf_en, (c n).boot_mouse_in_report_ntf_en,
      (List.range HOGPD_NB_REPORT_INST_MAX).map (c n).report_ntf_en⟩

/-- What the loop over the Report characteristics of `hogpd_disable` reads and
writes: `hogpd_env.features[hids_nb]` and `ind->ntf_cfg[hids_nb]`. -/
structure ReportSt where
  feat : hogpd_features
  cfg : ntf_cfg_acc

/-- One iteration of the loop over the Report characteristics of
`hogpd_disable`, lines 504-511. -/
def disable_report_body (report_nb : Nat) (s : ReportSt) : ReportSt :=
  let en :=
    if s.feat.report_char_cfg report_nb &&& HOGPD_REPORT_NTF_CFG_MASK = HOGPD_REPORT_NTF_CFG_MASK
    then Function.update s.cfg.report_ntf_en report_nb PRF_CLI_START_NTF
    else s.cfg.report_ntf_en
  let cc := Function.update s.feat.report_char_cfg report_nb
    (clr8 (s.feat.report_char_cfg report_nb) HOGPD_REPORT_NTF_CFG_MASK)
  { feat := { s.feat with report_char_cfg := cc }, cfg := { s.cfg with report_ntf_en := en } }

/-- The loop `for (report_nb = 0; report_nb < hogpd_env.features[hids_nb].report_nb;
report_nb++)` of `hogpd_disable`, started at `report_nb` with `n` iterations
left at most. -/
def disable_report_loop : Nat → Nat → ReportSt → ReportSt
  | 0, _, s => s
  | n + 1, report_nb, s =>
    if report_nb < s.feat.report_nb then
      disable_report_loop n (report_nb + 1) (disable_report_body report_nb s)
    else s

/-- Variables live across the iterations of the loop over the HIDS instances of
`hogpd_disable`: the environment, the array `ind->ntf_cfg` and the calls made. -/
structure DisableSt where
  env : hogpd_env_tag
  ntf_cfg : Nat → ntf_cfg_acc
  calls : List Call

/-- One iteration of the loop over the HIDS instances of `hogpd_disable`, lines
477-513. -/
def disable_body (hids_nb : Nat) (s : DisableSt) : DisableSt :=
  let calls1 := s.calls ++ [Call.attsdb_svc_set_permission (s.env.shdl hids_nb) PERM_RIGHT_DISABLE]
  let f := s.env.features hids_nb
  let c0 := s.ntf_cfg hids_nb
  let c1 :=
    if s.env.att_tbl hids_nb HOGPD_BOOT_KB_IN_REPORT_CHAR ≠ 0x00 then
      if f.svc_features &&& HOGPD_BOOT_KB_IN_NTF_CFG_MASK = HOGPD_BOOT_KB_IN_NTF_CFG_MASK
      then { c0 with boot_kb_in_report_ntf_en := PRF_CLI_START_NTF }
      else c0
    else c0
  let c2 :=
    if s.env.att_tbl hids_nb HOGPD_BOOT_MOUSE_IN_REPORT_CHAR ≠ 0x00 then
      if f.svc_features &&& HOGPD_BOOT_MOUSE_IN_NTF_CFG_MASK = HOGPD_BOOT_MOUSE_IN_NTF_CFG_MASK
      then { c1 with boot_mouse_in_report_ntf_en := PRF_CLI_START_NTF }
      else c1
    else c1
  let svc := clr8 f.svc_features (HOGPD_BOOT_KB_IN_NTF_CFG_MASK ||| HOGPD_BOOT_MOUSE_IN_NTF_CFG_MASK)
  let f1 : hogpd_features := { f with svc_features := svc }
  let rs := disable_report_loop f1.report_nb 0 ⟨f1, c2⟩
  { env := { s.env with features := Function.update s.env.features hids_nb rs.feat },
    ntf_cfg := Function.update s.ntf_cfg hids_nb rs.cfg,
    calls := calls1 }

/-- The loop `for (hids_nb = 0; hids_nb < hogpd_env.hids_nb; hids_nb++)` of
`hogpd_disable`, started at `hids_nb` with `n` iterations left at most. -/
def disable_loop : Nat → Nat → DisableSt → DisableSt
  | 0, _, s => s
  | n + 1, hids_nb, s =>
    if hids_nb < s.env.hids_nb then disable_loop n (hids_nb + 1) (disable_body hids_nb s) else s

/-- The function `hogpd_disable` of `hogpd.c`, lines 462-521. -/
def hogpd_disable (env : hogpd_env_tag) (_state : Nat) : VRes hogpd_env_tag :=
  let s := disable_loop env.hids_nb 0 { env := env, ntf_cfg := ke_msg_alloc_ntf_cfg, calls := [] }
  { env := s.env,
    state := HOGPD_IDLE,
    calls := s.calls ++ [Call.ke_msg_send ⟨.HOGPD_DISABLE_IND, env.con_info.appid, TASK_HOGPD,
      .hogpd_disable_ind env.con_info.conhdl (ntf_cfg_array s.ntf_cfg)⟩] }

end hogpd

/-- The features of a HIDS instance after `hogpd_disable`, as the property
states them: the two boot notification bits of `svc_features` cleared and the
notification bit of the configuration of each Report characteristic cleared. -/
def hogpd_disabled_features (f : hogpd.hogpd_features) : hogpd.hogpd_features where
  svc_features := clr8 f.svc_features
    (hogpd.HOGPD_BOOT_KB_IN_NTF_CFG_MASK ||| hogpd.HOGPD_BOOT_MOUSE_IN_NTF_CFG_MASK)
  report_nb := f.report_nb
  report_char_cfg := fun r =>
    if r < f.report_nb then clr8 (f.report_char_cfg r) hogpd.HOGPD_REPORT_NTF_CFG_MASK
    else f.report_char_cfg r

/-- Holds when the boot keyboard input report characteristic of instance `n`
exists and its notification bit is set. -/
def hogpd_boot_kb_ntf (env : hogpd.hogpd_env_tag) (n : Nat) : Prop :=
  n < env.hids_nb ∧ env.att_tbl n hogpd.HOGPD_BOOT_KB_IN_REPORT_CHAR ≠ 0 ∧
  (env.features n).svc_features &&& hogpd.HOGPD_BOOT_KB_IN_NTF_CFG_MASK
    = hogpd.HOGPD_BOOT_KB_IN_NTF_CFG_MASK

/-- Holds when the boot mouse input report characteristic of instance `n`
exists and its notification bit is set. -/
def hogpd_boot_mouse_ntf (env : hogpd.hogpd_env_tag) (n : Nat) : Prop :=
  n < env.hids_nb ∧ env.att_tbl n hogpd.HOGPD_BOOT_MOUSE_IN_REPORT_CHAR ≠ 0 ∧
  (env.features n).svc_features &&& hogpd.HOGPD_BOOT_MOUSE_IN_NTF_CFG_MASK
    = hogpd.HOGPD_BOOT_MOUSE_IN_NTF_CFG_MASK

/-- Holds when the notification bit of Report characteristic `r` of instance
`n` is set. -/
def hogpd_report_ntf (env : hogpd.hogpd_env_tag) (n r : Nat) : Prop :=
  n < env.hids_nb ∧ r < (env.features n).report_nb ∧
  (env.features n).report_char_cfg r &&& hogpd.HOGPD_REPORT_NTF_CFG_MASK
    = hogpd.HOGPD_REPORT_NTF_CFG_MASK

instance (env : hogpd.hogpd_env_tag) (n : Nat) : Decidable (hogpd_boot_kb_ntf env n) := by
  unfold hogpd_boot_kb_ntf; infer_instance

instance (env : hogpd.hogpd_env_tag) (n : Nat) : Decidable (hogpd_boot_mouse_ntf env n) := by
  unfold hogpd_boot_mouse_ntf; infer_instance

instance (env : hogpd.hogpd_env_tag) (n r : Nat) : Decidable (hogpd_report_ntf env n r) := by
  unfold hogpd_report_ntf; infer_instance

/-- The array of notification configurations that the property asks
`HOGPD_DISABLE_IND` to carry: `PRF_CLI_START_NTF` in the fields of the
characteristics whose notification bit is set in the environment (the boot ones
when the characteristic exists), `PRF_CLI_STOP_NTFIND` in every other field. -/
def hogpd_reported_ntf_cfg (env : hogpd.hogpd_env_tag) : List hogpd_hids_ntf_cfg :=
  (List.range hogpd.HOGPD_NB_HIDS_INST_MAX).map fun n =>
    ⟨if hogpd_boot_kb_ntf env n then PRF_CLI_START_NTF else PRF_CLI_STOP_NTFIND,
     if hogpd_boot_mouse_ntf env n then PRF_CLI_START_NTF else PRF_CLI_STOP_NTFIND,
     (List.range hogpd.HOGPD_NB_REPORT_INST_MAX).map fun r =>
       if hogpd_report_ntf env n r then PRF_CLI_START_NTF else PRF_CLI_STOP_NTFIND⟩

/-- A HID device environment with two HIDS instances.  Instance `0` has the boot
keyboard characteristic with its notification bit set and two Report
characteristics, the second with its notification bit set; instance `1` has the
boot mouse notification bit set although the characteristic does not exist. -/
def exHogpdEnv2 : hogpd.hogpd_env_tag where
  con_info := ⟨1, 5, TASK_HOGPD⟩
  shdl := fun n => 80 + 32 * n
  att_tbl := fun n c => if n = 0 ∧ c = hogpd.HOGPD_BOOT_KB_IN_REPORT_CHAR then 85 else 0
  features := fun n =>
    if n = 0 then ⟨0x43, 2, fun r => if r = 1 then 0x22 else 0x02⟩ else ⟨0x81, 0, fun _ => 0⟩
  hids_nb := 2

/-- The element `ind->ntf_cfg[n]` after the iteration of `hogpd_disable` for an
instance with the attribute table row `att` and the features `f`, from the
element `c` before it. -/
def hogpd_disabled_ntf_cfg (att : Nat → Nat) (f : hogpd.hogpd_features)
    (c : hogpd.ntf_cfg_acc) : hogpd.ntf_cfg_acc where
  boot_kb_in_report_ntf_en :=
    if att hogpd.HOGPD_BOOT_KB_IN_REPORT_CHAR ≠ 0 ∧
      f.svc_features &&& hogpd.HOGPD_BOOT_KB_IN_NTF_CFG_MASK = hogpd.HOGPD_BOOT_KB_IN_NTF_CFG_MASK
    then PRF_CLI_START_NTF else c.boot_kb_in_report_ntf_en
  boot_mouse_in_report_ntf_en :=
    if att hogpd.HOGPD_BOOT_MOUSE_IN_REPORT_CHAR ≠ 0 ∧
      f.svc_features &&& hogpd.HOGPD_BOOT_MOUSE_IN_NTF_CFG_MASK
        = hogpd.HOGPD_BOOT_MOUSE_IN_NTF_CFG_MASK
    then PRF_CLI_START_NTF else c.boot_mouse_in_report_ntf_en
  report_ntf_en := fun r =>
    if r < f.report_nb ∧
      f.report_char_cfg r &&& hogpd.HOGPD_REPORT_NTF_CFG_MASK = hogpd.HOGPD_REPORT_NTF_CFG_MASK
    then PRF_CLI_START_NTF else c.report_ntf_en r

/-! ## SC Control Point confirmation: `cscps_task.c` -/

namespace cscps_task

/-- Modelled from the spec: `cscp_common.h` is not among the sources; the
operation code of a response to a SC Control Point request. -/
def CSCP_CTNL_PT_RSP_CODE : Nat := 16
/-- Modelled from the spec: `cscp_common.h` is not among the sources; response
values of the SC Control Point. -/
def CSCP_CTNL_PT_RESP_SUCCESS : Nat := 1
/-- Modelled from the spec: `cscp_common.h` is not among the sources. -/
def CSCP_CTNL_PT_RESP_FAILED : Nat := 4
/-- Modelled from the spec: `cscp_common.h` is not among the sources; length of
a response without parameter: response code, request code, response value. -/
def CSCP_SC_CNTL_PT_RSP_MIN_LEN : Nat := 3
/-- Modelled from the spec: `cscp_common.h` is not among the sources; size of
the response buffer: a response that lists every sensor location. -/
def CSCP_SC_CNTL_PT_RSP_MAX_LEN : Nat := CSCP_SC_CNTL_PT_RSP_MIN_LEN + CSCP_LOC_MAX

/-- Parameters of `CSCPS_SC_CTNL_PT_CFM`.  In C the three values are the members
of the union `value`; the handler reads the member of the operation alone, and
they are kept as separate fields here. -/
structure cscps_sc_ctnl_pt_cfm where
  conhdl : Nat
  status : Nat
  cumul_wheel_rev : Nat
  sensor_loc : Nat
  supp_sensor_loc : Nat

/-- The loop `for (counter = 0; counter < CSCP_LOC_MAX; counter++)` of
`cscps_sc_ctnl_pt_cfm_handler`, lines 545-552, started at `counter` with `n`
iterations left at most: the state is the response buffer `rsp` and the
response length `rsp_len` (a `uint8_t`). -/
def supp_loc_loop (supp_sensor_loc : Nat) : Nat → Nat → (Nat → Nat) × Nat → (Nat → Nat) × Nat
  | 0, _, s => s
  | n + 1, counter, s =>
    if counter < CSCP_LOC_MAX then
      if (supp_sensor_loc >>> counter) &&& 0x0001 = 0x0001 then
        supp_loc_loop supp_sensor_loc n (counter + 1)
          (Function.update s.1 s.2 counter, u8 (s.2 + 1))
      else supp_loc_loop supp_sensor_loc n (counter + 1) s
    else s

/-- Variables of `cscps_sc_ctnl_pt_cfm_handler` after the `switch` on the
operation. -/
structure CfmSt where
  env : cscps_env_tag
  rsp : Nat → Nat
  rsp_len : Nat
  calls : List Call

/-- The `switch (cscps_env.operation)` of `cscps_sc_ctnl_pt_cfm_handler`, lines
507-561.  The assertions of lines 530 and 558 are not modelled: in the default
case `rsp[1]` keeps its content. -/
def cfm_switch (env : cscps_env_tag) (param : cscps_sc_ctnl_pt_cfm) (rsp : Nat → Nat) : CfmSt :=
  if env.operation = CSCPS_CTNL_PT_CUMUL_VAL_OP_CODE then
    { env := { env with wheel_revol := param.cumul_wheel_rev },
      rsp := Function.update rsp 1 CSCP_CTNL_PT_OP_SET_CUMUL_VAL,
      rsp_len := CSCP_SC_CNTL_PT_RSP_MIN_LEN,
      calls := [] }
  else if env.operation = CSCPS_CTNL_PT_UPD_LOC_OP_CODE then
    { env := env,
      rsp := Function.update rsp 1 CSCP_CTNL_PT_OP_UPD_LOC,
      rsp_len := CSCP_SC_CNTL_PT_RSP_MIN_LEN,
      calls :=
        if param.status = PRF_ERR_OK then
          [Call.attsdb_att_set_value
            (u16 (env.shdl + env.hdl_offset CSCP_CSCS_SENSOR_LOC_CHAR + 1)) 1 [param.sensor_loc]]
        else [] }
  else if env.operation = CSCPS_CTNL_PT_SUPP_LOC_OP_CODE then
    let rsp1 := Function.update rsp 1 CSCP_CTNL_PT_OP_REQ_SUPP_LOC
    let r : (Nat → Nat) × Nat :=
      if param.status = PRF_ERR_OK then
        supp_loc_loop param.supp_sensor_loc CSCP_LOC_MAX 0 (rsp1, CSCP_SC_CNTL_PT_RSP_MIN_LEN)
      else (rsp1, CSCP_SC_CNTL_PT_RSP_MIN_LEN)
    { env := env, rsp := r.1, rsp_len := r.2, calls := [] }
  else
    { env := env, rsp := rsp, rsp_len := CSCP_SC_CNTL_PT_RSP_MIN_LEN, calls := [] }

/-- The handler `cscps_sc_ctnl_pt_cfm_handler` of `cscps_task.c`, lines 481-581.
The argument `rsp` is the content of the local buffer `rsp` at entry, which the
C code does not initialise.  The assertion of line 499 is not modelled.  The
value given to `attsdb_att_set_value` is the first `rsp_len` bytes of the
buffer. -/
def cscps_sc_ctnl_pt_cfm_handler (env : cscps_env_tag) (state : Nat)
    (param : cscps_sc_ctnl_pt_cfm) (rsp : Nat → Nat) (_dest_id _src_id : Nat) :
    Res cscps_env_tag :=
  if env.operation < CSCPS_CTNL_PT_CUMUL_VAL_OP_CODE then
    { env := env, state := state, calls := [], ret := .KE_MSG_CONSUMED }
  else
    let rsp1 := Function.update rsp 0 CSCP_CTNL_PT_RSP_CODE
    let rsp2 := Function.update rsp1 2
      (if param.status = PRF_ERR_OK then CSCP_CTNL_PT_RESP_SUCCESS else CSCP_CTNL_PT_RESP_FAILED)
    let s := cfm_switch env param rsp2
    let handle := u16 (s.env.shdl + s.env.hdl_offset CSCP_CSCS_SC_CTNL_PT_CHAR + 1)
    { env := s.env, state := state,
      calls := s.calls ++
        [Call.attsdb_att_set_value handle s.rsp_len ((List.range s.rsp_len).map s.rsp),
         Call.ke_msg_send ⟨.GATT_INDICATE_REQ, TASK_GATT, s.env.con_info.prf_id,
           .gatt_indicate_req s.env.con_info.conhdl handle⟩],
      ret := .KE_MSG_CONSUMED }

end cscps_task

/-- The busy discipline of the cycling speed and cadence sensor: the task is in
`CSCPS_BUSY` exactly when an operation is recorded in `cscps_env.operation`. -/
def cscps_busy_inv (env : cscps_task.cscps_env_tag) (state : Nat) : Prop :=
  state = cscps_task.CSCPS_BUSY ↔ env.operation ≠ cscps_task.CSCPS_RESERVED_OP_CODE

/-- An SC Control Point confirmation of the application on connection `1`. -/
def exCtnlPtCfm (status supp_sensor_loc : Nat) : cscps_task.cscps_sc_ctnl_pt_cfm where
  conhdl := 1
  status := status
  cumul_wheel_rev := 0
  sensor_loc := 0
  supp_sensor_loc := supp_sensor_loc

/-! ## Scan refresh: `scpps_task.c` -/

namespace scpps_task

/-- Modelled from the spec: `scpp_common.h` is not among the sources; the Scan
Refresh value "server requires refresh". -/
def SCPP_SERVER_REQUIRES_REFRESH : Nat := 0x00
/-- Modelled from the spec: `scpps.h` is not among the sources; offset of the
Scan Refresh value from the start handle. -/
def SCPS_IDX_SCAN_REFRESH_VAL : Nat := 4
/-- Modelled from the spec: `prf_types.h` is not among the sources; the
feature-not-supported status. -/
def PRF_ERR_FEATURE_NOT_SUPPORTED : Nat := 0x8D

/-- Parameters of `SCPPS_SCAN_REFRESH_SEND_REQ`. -/
structure scpps_scan_refresh_send_req where
  conhdl : Nat
  scan_refresh : Nat

/-- The handler `scpps_scan_refresh_send_req_handler` of `scpps_task.c`, lines
175-226.  The confirmation helper `scpps_scan_refresh_cfm_send` (`scpps.c`, not
among the sources) is recorded as one call. -/
def scpps_scan_refresh_send_req_handler (env : scpps_env_tag) (state : Nat)
    (param : scpps_scan_refresh_send_req) (_dest_id _src_id : Nat) : Res scpps_env_tag :=
  let r : Nat × List Call :=
    if param.conhdl = env.con_info.conhdl ∨
        param.scan_refresh ≠ SCPP_SERVER_REQUIRES_REFRESH then
      if env.features = SCPPS_SCAN_REFRESH_CHAR_SUP then
        if env.scan_refresh_ntf_cfg = PRF_CLI_START_NTF then
          (PRF_ERR_OK,
            [Call.attsdb_att_set_value (u16 (env.shdl + SCPS_IDX_SCAN_REFRESH_VAL)) 1
              [param.scan_refresh],
             Call.ke_msg_send ⟨.GATT_NOTIFY_REQ, TASK_GATT, TASK_SCPPS,
               .gatt_notify_req env.con_info.conhdl
                 (u16 (env.shdl + SCPS_IDX_SCAN_REFRESH_VAL))⟩])
        else (PRF_ERR_NTF_DISABLED, [])
      else (PRF_ERR_FEATURE_NOT_SUPPORTED, [])
    else (PRF_ERR_INVALID_PARAM, [])
  { env := env, state := state,
    calls := r.2 ++ (if r.1 ≠ PRF_ERR_OK then [Call.scpps_scan_refresh_cfm_send r.1] else []),
    ret := .KE_MSG_CONSUMED }

end scpps_task

/-- A scan parameters environment owned by connection `1`, with the Scan Refresh
characteristic supported and its notifications enabled. -/
def exScppsEnvNtf : scpps_task.scpps_env_tag :=
  { exScppsEnv with scan_refresh_ntf_cfg := PRF_CLI_START_NTF }

/-- A connected cycling speed and cadence environment with measurement
notifications enabled and the cumulative wheel revolutions `t`. -/
def exCscpsEnvWheel (t : Nat) : cscps_task.cscps_env_tag :=
  { exCscpsEnv cscps_task.CSCP_PRF_CFG_FLAG_CSC_MEAS_NTF cscps_task.CSCPS_RESERVED_OP_CODE with
    wheel_revol := t }

/-- A CSC measurement command on connection `1` with wheel data and the wheel
revolution increment `d`. -/
def exMeasCmdWheel (d : Int) : cscps_task.cscps_ntf_csc_meas_cmd where
  conhdl := 1
  flags := 0x01
  cumul_crank_rev := 0
  last_crank_evt_time := 0
  last_wheel_evt_time := 9
  wheel_rev := d

/-! ## Alert notification client: `anpc.c` -/

namespace anpc

/-- Modelled from the spec: `anp_common.h` is not among the sources; the first
category of the second bit mask. -/
def CAT_ID_HIGH_PRTY_ALERT : Nat := 8
/-- Modelled from the spec: `anp_common.h` is not among the sources; number of
alert categories. -/
def CAT_ID_NB : Nat := 10

/-- The structure `anp_cat_id_bit_mask`: the bit masks of the categories `0`
to `7` and of the categories from `8`. -/
structure anp_cat_id_bit_mask where
  cat_id_mask_0 : Nat
  cat_id_mask_1 : Nat
  deriving DecidableEq, Repr

/-- The two `while` loops of `anpc_found_next_alert_cat`, lines 59-69 and 75-85:
`while ((idx_env->last_req < bound) && (!found))` over the bit mask `mask`,
with `n` evaluations of the condition left; `none` when they are used up
before the loop exits.  The state is `last_req` (a `uint8_t`) and `found`. -/
def found_loop (mask bound : Nat) : Nat → Nat → Bool → Option (Nat × Bool)
  | 0, _, _ => none
  | n + 1, last_req, found =>
    if last_req < bound ∧ found = false then
      if (mask >>> last_req) &&& 1 = 1 then found_loop mask bound n last_req true
      else found_loop mask bound n (u8 (last_req + 1)) found
    else some (last_req, found)

/-- The function `anpc_found_next_alert_cat` of `anpc.c`, lines 52-90, on the
field `last_req` of the environment: returns the result and `last_req`
afterwards, `none` when a loop does not exit within `fuel` evaluations of its
condition.  The argument `alert_type` is not used by the function. -/
def anpc_found_next_alert_cat (fuel : Nat) (last_req : Nat) (_alert_type : Nat)
    (cat_id : anp_cat_id_bit_mask) : Option (Bool × Nat) :=
  let s1 : Option (Nat × Bool) :=
    if last_req < CAT_ID_HIGH_PRTY_ALERT then
      found_loop cat_id.cat_id_mask_0 CAT_ID_HIGH_PRTY_ALERT fuel last_req false
    else some (last_req, false)
  match s1 with
  | none => none
  | some s =>
    let s2 : Option (Nat × Bool) :=
      if s.1 ≥ CAT_ID_HIGH_PRTY_ALERT then found_loop cat_id.cat_id_mask_1 CAT_ID_NB fuel s.1 s.2
      else some s
    match s2 with
    | none => none
    | some t => some (t.2, t.1)

end anpc

/-- The support of an alert category by a pair of bit masks as the property
states it: bit `c` of `cat_id_mask_0` for the categories below
`CAT_ID_HIGH_PRTY_ALERT`, bit `c - CAT_ID_HIGH_PRTY_ALERT` of `cat_id_mask_1`
for the categories from there to `CAT_ID_NB`. -/
def anp_cat_supported (cat_id : anpc.anp_cat_id_bit_mask) (c : Nat) : Bool :=
  if c < anpc.CAT_ID_HIGH_PRTY_ALERT then cat_id.cat_id_mask_0.testBit c
  else decide (c < anpc.CAT_ID_NB) && cat_id.cat_id_mask_1.testBit (c - anpc.CAT_ID_HIGH_PRTY_ALERT)

namespace anpc

/-- Modelled from the spec: `anpc.h` is not among the sources; the code of the
Alert Notification Control Point characteristic, index of `ans.chars`. -/
def ANPC_CHAR_ALERT_NTF_CTNL_PT : Nat := 4
/-- Modelled from the spec: `gatt.h` is not among the sources; the request type
"write characteristic" of `prf_gatt_write`. -/
def GATT_WRITE_CHAR : Nat := 0x01
/-- Modelled from the spec: `anp_common.h` is not among the sources; the size of
`struct anp_ctnl_pt`, a command identifier and a category identifier of one
byte each. -/
def ANP_CTNL_PT_SIZE : Nat := 2

/-- The part of `struct anpc_env_tag` that `anpc_write_alert_ntf_ctnl_pt` reads:
the connection information and the value handles `ans.chars[k].val_hdl`. -/
structure anpc_ans_env where
  con_info : prf_con_info
  val_hdl : Nat → Nat

/-- The function `anpc_write_alert_ntf_ctnl_pt` of `anpc.c`, lines 92-100: the
calls it makes.  Line 94 is `struct anp_ctnl_pt ctnl_pt = {cmd_id, cmd_id};`.
The helper `prf_gatt_write` (`prf_utils.c`, not among the sources) is recorded
as one call with the bytes of the structure. -/
def anpc_write_alert_ntf_ctnl_pt (idx_env : anpc_ans_env) (cmd_id _cat_id : Nat) : List Call :=
  [Call.prf_gatt_write idx_env.con_info (idx_env.val_hdl ANPC_CHAR_ALERT_NTF_CTNL_PT)
    [cmd_id, cmd_id] ANP_CTNL_PT_SIZE GATT_WRITE_CHAR]

end anpc

/-- An alert notification client environment on connection `1` whose Alert
Notification Control Point value is at handle `40`. -/
def exAnpcEnv : anpc.anpc_ans_env where
  con_info := ⟨1, 5, 36⟩
  val_hdl := fun k => if k = anpc.ANPC_CHAR_ALERT_NTF_CTNL_PT then 40 else 0

namespace hogpd

/-- The function `hogpd_init_ntf_cfg` of `hogpd.c`, lines 240-259: returns the
byte `*flag` afterwards and the calls made.  Line 254 is
`*flag |= HOGPD_REPORT_NTF_CFG_MASK;`. -/
def hogpd_init_ntf_cfg (ntf_cfg handle con_type flag _mask : Nat) : Nat × List Call :=
  let r : Nat × Nat :=
    if con_type = PRF_CON_NORMAL then
      let value := u16 ntf_cfg
      if value = PRF_CLI_START_NTF then (value, u8 (flag ||| HOGPD_REPORT_NTF_CFG_MASK))
      else (value, flag)
    else (PRF_CLI_STOP_NTFIND, flag)
  (r.2, [Call.attsdb_att_set_value handle 2 (bytes16 r.1)])

end hogpd

/-- Conversion of a C `int` result to `uint8_t`. -/
def u8i (x : Int) : Nat := (x % 256).toNat

namespace hogpd

/-- Modelled from the spec: `hogpd.h` is not among the sources; the first
characteristic code. -/
def HOGPD_HID_INFO_CHAR : Nat := 0
/-- Modelled from the spec: `hogpd.h` is not among the sources; number of
characteristic codes: the Report characteristics come last, one code for each
instance. -/
def HOGPD_CHAR_MAX : Nat := HOGPD_REPORT_CHAR + HOGPD_NB_REPORT_INST_MAX

/-- The result `found` of `hogpd_get_att` and the bytes behind its three output
pointers. -/
structure GetAtt where
  found : Nat
  char_code : Nat
  hids_nb : Nat
  report_nb : Nat
  deriving DecidableEq, Repr

/-- One iteration of the loop over the characteristics of `hogpd_get_att`, lines
415-452, for the characteristic `att` of the instance `svc`. -/
def get_att_body (env : hogpd_env_tag) (svc offset att : Nat) (s : GetAtt) : GetAtt :=
  let s1 : GetAtt :=
    if offset = env.att_tbl svc att + 1 then
      if att ≥ HOGPD_REPORT_CHAR then
        { s with report_nb := att - HOGPD_REPORT_CHAR, char_code := HOGPD_REPORT_CHAR,
                 found := PRF_ERR_OK }
      else { s with char_code := att, found := PRF_ERR_OK }
    else s
  let s2 : GetAtt :=
    if s1.found = PRF_APP_ERROR then
      if att = HOGPD_BOOT_KB_IN_REPORT_CHAR ∨ att = HOGPD_BOOT_MOUSE_IN_REPORT_CHAR then
        if offset = env.att_tbl svc att + 2 then
          { s1 with report_nb := 0, char_code := att ||| HOGPD_DESC_MASK, found := PRF_ERR_OK }
        else s1
      else s1
    else s1
  if s2.found = PRF_APP_ERROR then
    if att ≥ HOGPD_REPORT_CHAR then
      if offset = env.att_tbl svc att + 3 then
        { s2 with report_nb := att - HOGPD_REPORT_CHAR,
                  char_code := u8 (HOGPD_REPORT_CHAR ||| HOGPD_DESC_MASK), found := PRF_ERR_OK }
      else s2
    else s2
  else s2

/-- The loop `for (att = HOGPD_HID_INFO_CHAR; ((att < HOGPD_CHAR_MAX) && (found ==
PRF_APP_ERROR)); att++)` of `hogpd_get_att`, started at `att` with `n`
iterations left at most. -/
def get_att_att_loop (env : hogpd_env_tag) (svc offset : Nat) : Nat → Nat → GetAtt → GetAtt
  | 0, _, s => s
  | n + 1, att, s =>
    if att < HOGPD_CHAR_MAX ∧ s.found = PRF_APP_ERROR then
      get_att_att_loop env svc offset n (att + 1) (get_att_body env svc offset att s)
    else s

/-- The loop `for (svc = 0; ((svc < hogpd_env.hids_nb) && (found ==
PRF_APP_ERROR)); svc++)` of `hogpd_get_att`, started at `svc` with `n`
iterations left at most.  The offset is a `uint8_t`:
`offset = handle - hogpd_env.shdl[svc]`. -/
def get_att_svc_loop (env : hogpd_env_tag) (handle : Nat) : Nat → Nat → GetAtt → GetAtt
  | 0, _, s => s
  | n + 1, svc, s =>
    if svc < env.hids_nb ∧ s.found = PRF_APP_ERROR then
      let offset := u8i ((handle : Int) - (env.shdl svc : Int))
      get_att_svc_loop env handle n (svc + 1)
        (get_att_att_loop env svc offset HOGPD_CHAR_MAX HOGPD_HID_INFO_CHAR
          { s with hids_nb := svc })
    else s

/-- The function `hogpd_get_att` of `hogpd.c`, lines 399-460; `char_code`,
`hids_nb` and `report_nb` are the bytes behind the output pointers at entry. -/
def hogpd_get_att (env : hogpd_env_tag) (handle char_code hids_nb report_nb : Nat) : GetAtt :=
  get_att_svc_loop env handle env.hids_nb 0 ⟨PRF_APP_ERROR, char_code, hids_nb, report_nb⟩

end hogpd

/-- Holds when the 8-bit offset of the handle in instance `svc` is the offset of
characteristic `att` plus `k`, with `k = 1` for a characteristic value, `k = 2`
for the client configuration descriptor of the boot keyboard and boot mouse
input reports, and `k = 3` for the client configuration descriptor of a
Report. -/
def hogpd_att_match (env : hogpd.hogpd_env_tag) (handle svc att k : Nat) : Prop :=
  u8i ((handle : Int) - (env.shdl svc : Int)) = env.att_tbl svc att + k ∧
  (k = 1 ∨
   (k = 2 ∧ (att = hogpd.HOGPD_BOOT_KB_IN_REPORT_CHAR ∨
     att = hogpd.HOGPD_BOOT_MOUSE_IN_REPORT_CHAR)) ∨
   (k = 3 ∧ att ≥ hogpd.HOGPD_REPORT_CHAR))

/-- The outputs `char_code` and `report_nb` of `hogpd_get_att` that identify the
characteristic `att` and the attribute `k` of it; `report_nb` is the content of
the output at entry, kept for a characteristic value that is not a Report. -/
def hogpd_att_decode (att k report_nb : Nat) : Nat × Nat :=
  if k = 1 then
    if att ≥ hogpd.HOGPD_REPORT_CHAR then (hogpd.HOGPD_REPORT_CHAR, att - hogpd.HOGPD_REPORT_CHAR)
    else (att, report_nb)
  else if k = 2 then (att ||| hogpd.HOGPD_DESC_MASK, 0)
  else (hogpd.HOGPD_REPORT_CHAR ||| hogpd.HOGPD_DESC_MASK, att - hogpd.HOGPD_REPORT_CHAR)

/-- A HID device environment with one HIDS instance at start handle `80` whose
characteristic values are at the offsets `2`, `4`, ... and whose Protocol Mode
characteristic (code `3`) is absent. -/
def exHogpdEnv3 : hogpd.hogpd_env_tag where
  con_info := ⟨1, 5, TASK_HOGPD⟩
  shdl := fun _ => 80
  att_tbl := fun _ c => if c = 3 then 0 else 2 * c + 1
  features := fun _ => ⟨0, 1, fun _ => 0⟩
  hids_nb := 1

/-- The sensor locations of a bit mask as the property states them: the indices
`c < CSCP_LOC_MAX` whose bit `c` is set, in increasing order. -/
def cscp_supp_locs (supp_sensor_loc : Nat) : List Nat :=
  (List.range cscps_task.CSCP_LOC_MAX).filter (fun c => supp_sensor_loc.testBit c)

/-! ## Random number generator: `rng.c` -/

namespace rng

/-- The C expression `buf[j] & 0x1` for an `int16_t` sample: the
least-significant bit of its two's complement representation. -/
def lsb (s : Int) : Nat := (s % 2).toNat

/-- The loop `for (uint8_t j = 0; j < 16; j++) rand ^= (buf[j] & 0x1);` of
`rng_get`, started at `j` with `n` iterations left at most. -/
def rng_inner (buf : Nat → Int) : Nat → Nat → Nat → Nat
  | 0, _, rand => rand
  | n + 1, j, rand =>
    if j < 16 then rng_inner buf n (j + 1) (rand ^^^ lsb (buf j)) else rand

/-- The loop `for (uint8_t i = 0; i < 32; i++)` of `rng_get`, lines 52-62,
started at `i` with `n` iterations left at most; `adc_read i` is the content of
`buf` after the call of `adc_read` of iteration `i`, and `rand` is a
`uint32_t`. -/
def rng_outer (adc_read : Nat → Nat → Int) : Nat → Nat → Nat → Nat
  | 0, _, rand => rand
  | n + 1, i, rand =>
    if i < 32 then
      rng_outer adc_read n (i + 1) (u32 (rng_inner (adc_read i) 16 0 rand <<< 1))
    else rand

/-- The function `rng_get` of `rng.c`, lines 38-71: the value returned, as a
function of the samples that the ADC driver (not among the sources) stores in
`buf`: `adc_read i j` is sample `j` of the call of iteration `i`. -/
def rng_get (adc_read : Nat → Nat → Int) : Nat := rng_outer adc_read 32 0 0

end rng

/-- The parity of the least-significant bits of the 16 samples of a batch: true
when the number of odd samples is odd. -/
def rng_batch_parity (buf : Nat → Int) : Bool :=
  decide (((List.range 16).filter (fun j => decide (buf j % 2 = 1))).length % 2 = 1)

/-- Samples of the ADC: in batch `i` the sample `0` is `i` and the sample `1` is
`-1` when `i` is a multiple of 3, every other sample is `0`. -/
def exAdc : Nat → Nat → Int := fun i j =>
  if j = 0 then (i : Int) else if j = 1 ∧ i % 3 = 0 then -1 else 0

/-! ## Theorems -/

/-- C1: an ENABLE request of BASS, HRPS or SCPPS whose connection handle is not
in the connection table makes exactly one call, the error indication with
status `PRF_ERR_REQ_DISALLOWED` that names the ENABLE request (so no other
message is sent and nothing is written to the attribute database), leaves the
task state as it was and consumes the message. -/
theorem C1_enable_absent_connection (S : Stack)
    (benv : bass_task.bass_env_tag) (bparam : bass_task.bass_enable_req)
    (henv : hrps_task.hrps_env_tag) (hparam : hrps_task.hrps_enable_req)
    (senv : scpps_task.scpps_env_tag) (sparam : scpps_task.scpps_enable_req)
    (state dest_id src_id : Nat)
    (hb : S.gap_get_rec_idx bparam.conhdl = GAP_INVALID_CONIDX)
    (hh : S.gap_get_rec_idx hparam.conhdl = GAP_INVALID_CONIDX)
    (hs : S.gap_get_rec_idx sparam.conhdl = GAP_INVALID_CONIDX) :
    ((bass_task.bass_enable_req_handler S benv state bparam dest_id src_id).calls =
        [Call.prf_server_error_ind_send ⟨bparam.conhdl, src_id, benv.con_info.prf_id⟩
          PRF_ERR_REQ_DISALLOWED .BASS_ERROR_IND .BASS_ENABLE_REQ] ∧
      (bass_task.bass_enable_req_handler S benv state bparam dest_id src_id).state = state ∧
      (bass_task.bass_enable_req_handler S benv state bparam dest_id src_id).ret =
        .KE_MSG_CONSUMED) ∧
    ((hrps_task.hrps_enable_req_handler S henv state hparam dest_id src_id).calls =
        [Call.prf_server_error_ind_send ⟨hparam.conhdl, src_id, henv.con_info.prf_id⟩
          PRF_ERR_REQ_DISALLOWED .HRPS_ERROR_IND .HRPS_ENABLE_REQ] ∧
      (hrps_task.hrps_enable_req_handler S henv state hparam dest_id src_id).state = state ∧
      (hrps_task.hrps_enable_req_handler S henv state hparam dest_id src_id).ret =
        .KE_MSG_CONSUMED) ∧
    ((scpps_task.scpps_enable_req_handler S senv state sparam dest_id src_id).calls =
        [Call.prf_server_error_ind_send ⟨sparam.conhdl, src_id, senv.con_info.prf_id⟩
          PRF_ERR_REQ_DISALLOWED .SCPPS_ERROR_IND .SCPPS_ENABLE_REQ] ∧
      (scpps_task.scpps_enable_req_handler S senv state sparam dest_id src_id).state = state ∧
      (scpps_task.scpps_enable_req_handler S senv state sparam dest_id src_id).ret =
        .KE_MSG_CONSUMED) := by
  refine ⟨?_, ?_, ?_⟩
  · simp [bass_task.bass_enable_req_handler, hb]
  · simp [hrps_task.hrps_enable_req_handler, hh]
  · simp [scpps_task.scpps_enable_req_handler, hs]

/-- Witness of C1: connection handle `9` is absent from the table of
`exStack`; each of the three handlers, in state 1 (idle), answers with the
single error indication and stays in state 1. -/
theorem C1_enable_absent_connection_witness :
    exStack.gap_get_rec_idx 9 = GAP_INVALID_CONIDX ∧
    ((bass_task.bass_enable_req_handler exStack exBassEnv 1 (exBassEnable 9) 30 7).calls =
        [Call.prf_server_error_ind_send ⟨9, 7, TASK_BASS⟩
          PRF_ERR_REQ_DISALLOWED .BASS_ERROR_IND .BASS_ENABLE_REQ] ∧
      (bass_task.bass_enable_req_handler exStack exBassEnv 1 (exBassEnable 9) 30 7).state = 1 ∧
      (bass_task.bass_enable_req_handler exStack exBassEnv 1 (exBassEnable 9) 30 7).ret =
        .KE_MSG_CONSUMED) ∧
    ((hrps_task.hrps_enable_req_handler exStack exHrpsEnv 1 (exHrpsEnable 9) 30 7).calls =
        [Call.prf_server_error_ind_send ⟨9, 7, TASK_HRPS⟩
          PRF_ERR_REQ_DISALLOWED .HRPS_ERROR_IND .HRPS_ENABLE_REQ] ∧
      (hrps_task.hrps_enable_req_handler exStack exHrpsEnv 1 (exHrpsEnable 9) 30 7).state = 1 ∧
      (hrps_task.hrps_enable_req_handler exStack exHrpsEnv 1 (exHrpsEnable 9) 30 7).ret =
        .KE_MSG_CONSUMED) ∧
    ((scpps_task.scpps_enable_req_handler exStack exScppsEnv 1 (exScppsEnable 9) 30 7).calls =
        [Call.prf_server_error_ind_send ⟨9, 7, TASK_SCPPS⟩
          PRF_ERR_REQ_DISALLOWED .SCPPS_ERROR_IND .SCPPS_ENABLE_REQ] ∧
      (scpps_task.scpps_enable_req_handler exStack exScppsEnv 1 (exScppsEnable 9) 30 7).state = 1 ∧
      (scpps_task.scpps_enable_req_handler exStack exScppsEnv 1 (exScppsEnable 9) 30 7).ret =
        .KE_MSG_CONSUMED) :=
  ⟨by decide,
   C1_enable_absent_connection exStack exBassEnv (exBassEnable 9) exHrpsEnv (exHrpsEnable 9)
     exScppsEnv (exScppsEnable 9) 1 30 7 (by decide) (by decide) (by decide)⟩

/-- C2 (as stated, refuted): connection handle `9` is absent from the table of
`exStack`, the environment is owned by connection `1` and application task `5`,
and after the rejected `BASS_ENABLE_REQ` sent by task `7` the environment holds
connection handle `9` and application task `7`: it is not left as it was. -/
theorem C2_rejected_enable_changes_con_info :
    exStack.gap_get_rec_idx (exBassEnable 9).conhdl = GAP_INVALID_CONIDX ∧
    exBassEnv.con_info = ⟨1, 5, TASK_BASS⟩ ∧
    (bass_task.bass_enable_req_handler exStack exBassEnv 1 (exBassEnable 9) 30 7).env.con_info
      = ⟨9, 7, TASK_BASS⟩ ∧
    (bass_task.bass_enable_req_handler exStack exBassEnv 1 (exBassEnable 9) 30 7).env
      ≠ exBassEnv := by
  refine ⟨by decide, by decide, by decide, ?_⟩
  intro h
  have h2 := congrArg (fun e => e.con_info.conhdl) h
  revert h2
  decide

/-- C2 (amended): a `BASS_ENABLE_REQ` on a connection handle absent from the
connection table leaves the number of instances, the feature flags, the start
handles and the profile task id of `bass_env` as they were, and stores the
connection handle of the request and the sending task in `con_info`. -/
theorem C2_rejected_enable_frame (S : Stack) (env : bass_task.bass_env_tag) (state : Nat)
    (param : bass_task.bass_enable_req) (dest_id src_id : Nat)
    (h : S.gap_get_rec_idx param.conhdl = GAP_INVALID_CONIDX) :
    (bass_task.bass_enable_req_handler S env state param dest_id src_id).env.bas_nb
      = env.bas_nb ∧
    (bass_task.bass_enable_req_handler S env state param dest_id src_id).env.features
      = env.features ∧
    (bass_task.bass_enable_req_handler S env state param dest_id src_id).env.shdl
      = env.shdl ∧
    (bass_task.bass_enable_req_handler S env state param dest_id src_id).env.con_info
      = ⟨param.conhdl, src_id, env.con_info.prf_id⟩ := by
  simp [bass_task.bass_enable_req_handler, h]

/-- Witness of the amended C2 on the rejected request of connection handle
`9`. -/
theorem C2_rejected_enable_frame_witness :
    exStack.gap_get_rec_idx (exBassEnable 9).conhdl = GAP_INVALID_CONIDX ∧
    ((bass_task.bass_enable_req_handler exStack exBassEnv 1 (exBassEnable 9) 30 7).env.bas_nb
      = exBassEnv.bas_nb ∧
    (bass_task.bass_enable_req_handler exStack exBassEnv 1 (exBassEnable 9) 30 7).env.features
      = exBassEnv.features ∧
    (bass_task.bass_enable_req_handler exStack exBassEnv 1 (exBassEnable 9) 30 7).env.shdl
      = exBassEnv.shdl ∧
    (bass_task.bass_enable_req_handler exStack exBassEnv 1 (exBassEnable 9) 30 7).env.con_info
      = ⟨(exBassEnable 9).conhdl, 7, exBassEnv.con_info.prf_id⟩) :=
  ⟨by decide, C2_rejected_enable_frame exStack exBassEnv 1 (exBassEnable 9) 30 7 (by decide)⟩

/-- C3: a `BASS_CREATE_DB_REQ` whose `bas_nb` exceeds
`BASS_NB_BAS_INSTANCES_MAX` makes exactly one call, sending
`BASS_CREATE_DB_CFM` with status `PRF_ERR_INVALID_PARAM` to the requester (so
no service is created), leaves the task state as it was and leaves `bas_nb`,
`features` and the start handles of `bass_env` unchanged. -/
theorem C3_create_db_too_many_instances (S : Stack) (env : bass_task.bass_env_tag) (state : Nat)
    (param : bass_task.bass_create_db_req) (dest_id src_id : Nat)
    (h : param.bas_nb > bass_task.BASS_NB_BAS_INSTANCES_MAX) :
    (bass_task.bass_create_db_req_handler S env state param dest_id src_id).calls =
      [Call.ke_msg_send ⟨.BASS_CREATE_DB_CFM, src_id, TASK_BASS,
        .bass_create_db_cfm PRF_ERR_INVALID_PARAM⟩] ∧
    (bass_task.bass_create_db_req_handler S env state param dest_id src_id).state = state ∧
    (bass_task.bass_create_db_req_handler S env state param dest_id src_id).env.bas_nb
      = env.bas_nb ∧
    (bass_task.bass_create_db_req_handler S env state param dest_id src_id).env.features
      = env.features ∧
    (bass_task.bass_create_db_req_handler S env state param dest_id src_id).env.shdl
      = env.shdl ∧
    (bass_task.bass_create_db_req_handler S env state param dest_id src_id).ret
      = .KE_MSG_CONSUMED := by
  have h2 : ¬ param.bas_nb ≤ bass_task.BASS_NB_BAS_INSTANCES_MAX := Nat.not_le.mpr h
  simp [bass_task.bass_create_db_req_handler, h2]

/-- Witness of C3: a request for three instances in the disabled state. -/
theorem C3_create_db_too_many_instances_witness :
    (exBassCreate 3).bas_nb > bass_task.BASS_NB_BAS_INSTANCES_MAX ∧
    ((bass_task.bass_create_db_req_handler exStack exBassEnv bass_task.BASS_DISABLED
        (exBassCreate 3) 30 7).calls =
      [Call.ke_msg_send ⟨.BASS_CREATE_DB_CFM, 7, TASK_BASS,
        .bass_create_db_cfm PRF_ERR_INVALID_PARAM⟩] ∧
    (bass_task.bass_create_db_req_handler exStack exBassEnv bass_task.BASS_DISABLED
        (exBassCreate 3) 30 7).state = bass_task.BASS_DISABLED ∧
    (bass_task.bass_create_db_req_handler exStack exBassEnv bass_task.BASS_DISABLED
        (exBassCreate 3) 30 7).env.bas_nb = exBassEnv.bas_nb ∧
    (bass_task.bass_create_db_req_handler exStack exBassEnv bass_task.BASS_DISABLED
        (exBassCreate 3) 30 7).env.features = exBassEnv.features ∧
    (bass_task.bass_create_db_req_handler exStack exBassEnv bass_task.BASS_DISABLED
        (exBassCreate 3) 30 7).env.shdl = exBassEnv.shdl ∧
    (bass_task.bass_create_db_req_handler exStack exBassEnv bass_task.BASS_DISABLED
        (exBassCreate 3) 30 7).ret = .KE_MSG_CONSUMED) :=
  ⟨by decide,
   C3_create_db_too_many_instances exStack exBassEnv bass_task.BASS_DISABLED (exBassCreate 3) 30 7
     (by decide)⟩

/-- Every call made by one iteration of the create-database loop of BASS is a
write to the attribute database. -/
theorem bass_create_db_body_calls (S : Stack) (param : bass_task.bass_create_db_req)
    (dest_id i : Nat) (s : bass_task.CreateSt) :
    ∃ l, (bass_task.create_db_body S param dest_id i s).calls = s.calls ++ l ∧
      ∀ c ∈ l, Call.isDbWrite c = true := by
  unfold bass_task.create_db_body
  simp only []
  split_ifs <;> simp only [List.append_assoc, List.singleton_append, List.cons_append,
    List.nil_append] <;> exact ⟨_, rfl, by simp [Call.isDbWrite]⟩

/-- Every call made by the create-database loop of BASS is a write to the
attribute database. -/
theorem bass_create_db_loop_calls (S : Stack) (param : bass_task.bass_create_db_req)
    (dest_id : Nat) (n : Nat) :
    ∀ (i : Nat) (s : bass_task.CreateSt),
      ∃ l, (bass_task.create_db_loop S param dest_id n i s).calls = s.calls ++ l ∧
        ∀ c ∈ l, Call.isDbWrite c = true := by
  induction n with
  | zero =>
    intro i s
    exact ⟨[], by simp [bass_task.create_db_loop], by simp⟩
  | succ n ih =>
    intro i s
    unfold bass_task.create_db_loop
    by_cases hc : i < param.bas_nb ∧ s.status = PRF_ERR_OK
    · rw [if_pos hc]
      obtain ⟨l1, h1, hd1⟩ := bass_create_db_body_calls S param dest_id i s
      obtain ⟨l2, h2, hd2⟩ := ih (i + 1) (bass_task.create_db_body S param dest_id i s)
      refine ⟨l1 ++ l2, ?_, ?_⟩
      · rw [h2, h1, List.append_assoc]
      · intro c hc2
        rcases List.mem_append.mp hc2 with h | h
        · exact hd1 c h
        · exact hd2 c h
    · rw [if_neg hc]
      exact ⟨[], by simp, by simp⟩

/-- C4: run in the disabled state, the create-database handlers of BASS, HRPS
and CSCPS make calls to the attribute database followed by exactly one
confirmation (completion event for CSCPS) to the requester, carrying the final
status; the task state afterwards is idle if that status is the success status
and still disabled otherwise.  This holds for every request and every result
of the attribute database. -/
theorem C4_create_db_reply_and_state (S : Stack)
    (benv : bass_task.bass_env_tag) (bparam : bass_task.bass_create_db_req)
    (henv : hrps_task.hrps_env_tag) (hparam : hrps_task.hrps_create_db_req)
    (cenv : cscps_task.cscps_env_tag) (cparam : cscps_task.cscps_create_db_req)
    (dest_id src_id : Nat) :
    (∃ status db,
      (bass_task.bass_create_db_req_handler S benv bass_task.BASS_DISABLED bparam dest_id
          src_id).calls =
        db ++ [Call.ke_msg_send ⟨.BASS_CREATE_DB_CFM, src_id, TASK_BASS,
          .bass_create_db_cfm status⟩] ∧
      (∀ c ∈ db, Call.isDbWrite c = true) ∧
      (bass_task.bass_create_db_req_handler S benv bass_task.BASS_DISABLED bparam dest_id
          src_id).state =
        if status = PRF_ERR_OK then bass_task.BASS_IDLE else bass_task.BASS_DISABLED) ∧
    (∃ status db,
      (hrps_task.hrps_create_db_req_handler S henv hrps_task.HRPS_DISABLED hparam dest_id
          src_id).calls =
        db ++ [Call.ke_msg_send ⟨.HRPS_CREATE_DB_CFM, src_id, TASK_HRPS,
          .hrps_create_db_cfm status⟩] ∧
      (∀ c ∈ db, Call.isDbWrite c = true) ∧
      (hrps_task.hrps_create_db_req_handler S henv hrps_task.HRPS_DISABLED hparam dest_id
          src_id).state =
        if status = ATT_ERR_NO_ERROR then hrps_task.HRPS_IDLE else hrps_task.HRPS_DISABLED) ∧
    (∃ status db,
      (cscps_task.cscps_create_db_req_handler S cenv cscps_task.CSCPS_DISABLED cparam dest_id
          src_id).calls =
        db ++ [Call.cscps_send_cmp_evt TASK_CSCPS src_id GAP_INVALID_CONHDL
          cscps_task.CSCPS_CREATE_DB_OP_CODE status] ∧
      (∀ c ∈ db, Call.isDbWrite c = true) ∧
      (cscps_task.cscps_create_db_req_handler S cenv cscps_task.CSCPS_DISABLED cparam dest_id
          src_id).state =
        if status = ATT_ERR_NO_ERROR then cscps_task.CSCPS_IDLE
        else cscps_task.CSCPS_DISABLED) := by
  refine ⟨?_, ?_, ?_⟩
  · unfold bass_task.bass_create_db_req_handler
    by_cases hnb : bparam.bas_nb ≤ bass_task.BASS_NB_BAS_INSTANCES_MAX
    · obtain ⟨l, hl, hdb⟩ := bass_create_db_loop_calls S bparam dest_id bparam.bas_nb 0
        { env := { benv with con_info := { benv.con_info with prf_id := TASK_BASS },
                             bas_nb := bparam.bas_nb },
          status := PRF_ERR_OK, cfg_flag := bass_task.BAS_CFG_FLAG_MANDATORY_MASK, calls := [] }
      simp only [List.nil_append] at hl
      simp only [if_pos hnb]
      exact ⟨_, l, by rw [hl], hdb, rfl⟩
    · simp only [if_neg hnb]
      exact ⟨PRF_ERR_INVALID_PARAM, [], rfl, by simp, by decide⟩
  · unfold hrps_task.hrps_create_db_req_handler
    simp only []
    exact ⟨_, _, rfl, by simp [Call.isDbWrite], rfl⟩
  · have hib : ¬ cscps_task.CSCPS_IDLE = cscps_task.CSCPS_BUSY := by decide
    have hdb : ¬ cscps_task.CSCPS_DISABLED = cscps_task.CSCPS_BUSY := by decide
    unfold cscps_task.cscps_create_db_req_handler cscps_task.cscps_send_cmp_evt
    rw [if_pos rfl]
    simp only [if_neg hib, if_neg hdb]
    split_ifs <;>
      simp only [List.append_assoc, List.singleton_append, List.cons_append, List.nil_append] <;>
      first
        | exact ⟨_, [_], rfl, by simp [Call.isDbWrite], by simp [*]⟩
        | exact ⟨_, [_, _, _], rfl, by simp [Call.isDbWrite], by simp [*]⟩
        | exact ⟨_, [_, _, _, _], rfl, by simp [Call.isDbWrite], by simp [*]⟩

/-- One iteration of the enable loop of BASS changes nothing of the environment
but `features[i]`. -/
theorem bass_enable_body_frame (param : bass_task.bass_enable_req) (i : Nat)
    (s : bass_task.EnableSt) :
    (bass_task.enable_body param i s).env.bas_nb = s.env.bas_nb ∧
    (bass_task.enable_body param i s).env.shdl = s.env.shdl ∧
    (bass_task.enable_body param i s).env.con_info = s.env.con_info ∧
    ∀ j, j ≠ i → (bass_task.enable_body param i s).env.features j = s.env.features j := by
  unfold bass_task.enable_body
  simp only []
  split_ifs <;> refine ⟨rfl, rfl, rfl, ?_⟩ <;> intro j hj <;>
    simp [Function.update_noteq hj]

/-- One iteration of the enable loop of BASS sends the notification of instance
`i` when it is due, and no other `GATT_NOTIFY_REQ`. -/
theorem bass_enable_body_ntf (param : bass_task.bass_enable_req) (i : Nat)
    (s : bass_task.EnableSt) :
    (bass_task.enable_body param i s).calls.filter (Call.isMsg .GATT_NOTIFY_REQ) =
      s.calls.filter (Call.isMsg .GATT_NOTIFY_REQ) ++
        (if bass_ntf_due s.env param i = true then [bass_ntf_req s.env i] else []) := by
  unfold bass_task.enable_body bass_ntf_due bass_ntf_req
  simp only []
  split_ifs <;> simp_all [Call.isMsg, List.filter_append, List.filter_cons]

/-- The enable loop of BASS, run from instance `i` to the last one, sends the
notifications that are due for these instances, in order, and no other
`GATT_NOTIFY_REQ`. -/
theorem bass_enable_loop_ntf (param : bass_task.bass_enable_req) (n : Nat) :
    ∀ (i : Nat) (s : bass_task.EnableSt), i + n = s.env.bas_nb →
      (bass_task.enable_loop param n i s).calls.filter (Call.isMsg .GATT_NOTIFY_REQ) =
        s.calls.filter (Call.isMsg .GATT_NOTIFY_REQ) ++
          ((List.range' i n).filter (bass_ntf_due s.env param)).map (bass_ntf_req s.env) := by
  induction n with
  | zero =>
    intro i s _
    simp [bass_task.enable_loop]
  | succ n ih =>
    intro i s hn
    have hlt : i < s.env.bas_nb := by omega
    obtain ⟨hnb, hshdl, hcon, hfeat⟩ := bass_enable_body_frame param i s
    unfold bass_task.enable_loop
    rw [if_pos hlt, ih (i + 1) (bass_task.enable_body param i s) (by rw [hnb]; omega),
      bass_enable_body_ntf, List.append_assoc]
    congr 1
    have hdue : ∀ j ∈ List.range' (i + 1) n,
        bass_ntf_due (bass_task.enable_body param i s).env param j = bass_ntf_due s.env param j := by
      intro j hj
      have hji : j ≠ i := by
        have := (List.mem_range'_1.mp hj).1
        omega
      simp only [bass_ntf_due, hfeat j hji]
    have hreq : ∀ j, bass_ntf_req (bass_task.enable_body param i s).env j = bass_ntf_req s.env j := by
      intro j
      simp only [bass_ntf_req, hshdl, hcon]
    rw [List.filter_congr hdue, funext hreq, List.range'_succ, List.filter_cons]
    by_cases hd : bass_ntf_due s.env param i = true
    · simp [hd]
    · simp [hd]

/-- C5: a `BASS_ENABLE_REQ` on a connection present in the connection table
moves the task to `BASS_CONNECTED`, and the `GATT_NOTIFY_REQ` messages it sends
are, in the order of the instances, exactly one for each instance `i < bas_nb`
with `features[i] = BAS_BATT_LVL_NTF_SUP`, `con_type = PRF_CON_NORMAL`,
`batt_level_ntf_cfg[i] = PRF_CLI_START_NTF` and `old_batt_lvl[i]` different
from `current_batt_lvl[i]`, and none for any other instance; each carries the
connection handle of the request and the Battery Level value handle of the
instance. -/
theorem C5_enable_sends_due_notifications (S : Stack) (env : bass_task.bass_env_tag)
    (state : Nat) (param : bass_task.bass_enable_req) (dest_id src_id : Nat)
    (h : S.gap_get_rec_idx param.conhdl ≠ GAP_INVALID_CONIDX) :
    (bass_task.bass_enable_req_handler S env state param dest_id src_id).state
      = bass_task.BASS_CONNECTED ∧
    (bass_task.bass_enable_req_handler S env state param dest_id src_id).calls.filter
        (Call.isMsg .GATT_NOTIFY_REQ) =
      ((List.range env.bas_nb).filter (fun i =>
          decide (env.features i = bass_task.BAS_BATT_LVL_NTF_SUP ∧
            param.con_type = PRF_CON_NORMAL ∧
            param.batt_level_ntf_cfg i = PRF_CLI_START_NTF ∧
            param.old_batt_lvl i ≠ param.current_batt_lvl i))).map
        (fun i => Call.ke_msg_send ⟨.GATT_NOTIFY_REQ, TASK_GATT, TASK_BASS,
          .gatt_notify_req param.conhdl
            (u16 (env.shdl i + bass_task.BAS_IDX_BATT_LVL_VAL))⟩) := by
  unfold bass_task.bass_enable_req_handler
  simp only [if_neg h, true_and]
  rw [bass_enable_loop_ntf param env.bas_nb 0 _ (by simp), List.range_eq_range']
  simp only [List.filter_nil, List.nil_append]
  rfl

/-- Witness of C5: one instance that supports notifications, notifications
started, battery level changed from 40 to 50, on the connection `1` of
`exStack`: the task becomes connected and exactly one notification is sent,
for the Battery Level value handle `16 + 2`. -/
theorem C5_enable_sends_due_notifications_witness :
    exStack.gap_get_rec_idx (exBassEnable 1).conhdl ≠ GAP_INVALID_CONIDX ∧
    (bass_task.bass_enable_req_handler exStack exBassEnv bass_task.BASS_IDLE (exBassEnable 1)
        30 7).state = bass_task.BASS_CONNECTED ∧
    (bass_task.bass_enable_req_handler exStack exBassEnv bass_task.BASS_IDLE (exBassEnable 1)
        30 7).calls.filter (Call.isMsg .GATT_NOTIFY_REQ) =
      [Call.ke_msg_send ⟨.GATT_NOTIFY_REQ, TASK_GATT, TASK_BASS, .gatt_notify_req 1 18⟩] :=
  ⟨by decide,
   (C5_enable_sends_due_notifications exStack exBassEnv bass_task.BASS_IDLE (exBassEnable 1)
     30 7 (by decide)).1,
   (C5_enable_sends_due_notifications exStack exBassEnv bass_task.BASS_IDLE (exBassEnable 1)
     30 7 (by decide)).2.trans (by decide)⟩

/-- Bits of a value truncated to `uint8_t`. -/
theorem testBit_u8 (x k : Nat) : (u8 x).testBit k = (decide (k < 8) && x.testBit k) := by
  have h256 : (256 : Nat) = 2 ^ 8 := by norm_num
  unfold u8
  rw [h256, Nat.testBit_mod_two_pow]

/-- Bits of the constant `0xFF`. -/
theorem testBit_255 (k : Nat) : (255 : Nat).testBit k = decide (k < 8) := by
  have h : (255 : Nat) = 2 ^ 8 - 1 := by norm_num
  rw [h, Nat.testBit_two_pow_sub_one]

/-- Bits of `(uint8_t)(x & ~m)`. -/
theorem testBit_clr8 (x m k : Nat) :
    (clr8 x m).testBit k = (decide (k < 8) && x.testBit k && !m.testBit k) := by
  unfold clr8
  rw [Nat.testBit_and, Nat.testBit_xor, testBit_u8, testBit_u8, testBit_255]
  by_cases hk : k < 8 <;> cases x.testBit k <;> cases m.testBit k <;> simp [hk]

/-- Bits of `(uint8_t)(x | m)`. -/
theorem testBit_u8_or (x m k : Nat) :
    (u8 (x ||| m)).testBit k = (decide (k < 8) && (x.testBit k || m.testBit k)) := by
  rw [testBit_u8, Nat.testBit_or]

/-- After `flag |= mask` on a `uint8_t` every bit of the mask is set. -/
theorem u8_or_and_mask (x m : Nat) (hm : m < 256) : u8 (x ||| m) &&& m = m := by
  apply Nat.eq_of_testBit_eq
  intro k
  rw [Nat.testBit_and, testBit_u8_or]
  by_cases hk : k < 8
  · cases x.testBit k <;> cases m.testBit k <;> simp [hk]
  · have hmk : m.testBit k = false := by
      apply Nat.testBit_lt_two_pow
      calc m < 2 ^ 8 := by simpa using hm
        _ ≤ 2 ^ k := Nat.pow_le_pow_right (by norm_num) (by omega)
    simp [hk, hmk]

/-- After `flag &= ~mask` on a `uint8_t` every bit of the mask is clear. -/
theorem clr8_and_mask (x m : Nat) : clr8 x m &&& m = 0 := by
  apply Nat.eq_of_testBit_eq
  intro k
  rw [Nat.testBit_and, testBit_clr8]
  cases x.testBit k <;> cases m.testBit k <;> simp


/-- The search loop of the BASS write handler stops at once when the status is
not `PRF_APP_ERROR`. -/
theorem bass_find_loop_done (env : bass_task.bass_env_tag) (handle n k : Nat) :
    bass_task.find_loop env handle n k PRF_ERR_OK = (k, PRF_ERR_OK) := by
  cases n with
  | zero => rfl
  | succ n =>
    unfold bass_task.find_loop
    have h : ¬ (k < env.bas_nb ∧ PRF_ERR_OK = PRF_APP_ERROR) := by
      intro h
      exact absurd h.2 (by decide)
    rw [if_neg h]

/-- The search loop of the BASS write handler, started at `k`, stops just after
the first instance `i` whose notification configuration handle is the written
handle. -/
theorem bass_find_loop_found (env : bass_task.bass_env_tag) (handle i : Nat)
    (hi : i < env.bas_nb) (hh : handle = env.shdl i + bass_task.BAS_IDX_BATT_LVL_NTF_CFG)
    (hfirst : ∀ j, j < i → handle ≠ env.shdl j + bass_task.BAS_IDX_BATT_LVL_NTF_CFG) (n : Nat) :
    ∀ k, k ≤ i → i < k + n →
      bass_task.find_loop env handle n k PRF_APP_ERROR = (i + 1, PRF_ERR_OK) := by
  induction n with
  | zero =>
    intro k hk hn
    omega
  | succ n ih =>
    intro k hk hn
    unfold bass_task.find_loop
    rw [if_pos ⟨by omega, rfl⟩]
    by_cases hki : k = i
    · subst hki
      rw [if_pos hh, bass_find_loop_done]
    · have hlt : k < i := by omega
      rw [if_neg (hfirst k hlt)]
      exact ih (k + 1) (by omega) (by omega)

/-- C6: a GATT write whose handle is the Battery Level client characteristic
configuration descriptor of instance `i` (the first such instance below
`bas_nb`).  Value `0x0001` sets `BASS_FLAG_NTF_CFG_BIT` in `features[i]`, value
`0x0000` clears it; in both cases the value is stored in the attribute
database and the write response has status `PRF_ERR_OK`.  Any other 16-bit
value is answered with `PRF_APP_ERROR` by the single call of the handler, so
nothing is written to the database and no indication is sent, and the
environment is unchanged.  In every case `features[j]` is unchanged for `j`
different from `i`. -/
theorem C6_bass_write_ntf_cfg (env : bass_task.bass_env_tag) (state : Nat)
    (param : gatt_write_cmd_ind) (dest_id src_id i : Nat)
    (hnb : env.bas_nb < 256) (hi : i < env.bas_nb)
    (hh : param.handle = env.shdl i + bass_task.BAS_IDX_BATT_LVL_NTF_CFG)
    (hfirst : ∀ j, j < i → param.handle ≠ env.shdl j + bass_task.BAS_IDX_BATT_LVL_NTF_CFG) :
    (co_read16p (param.value 0) (param.value 1) = 0x0001 →
      (bass_task.gatt_write_cmd_ind_handler env state param dest_id src_id).env.features i
          = u8 (env.features i ||| bass_task.BASS_FLAG_NTF_CFG_BIT) ∧
      (bass_task.gatt_write_cmd_ind_handler env state param dest_id src_id).env.features i
          &&& bass_task.BASS_FLAG_NTF_CFG_BIT = bass_task.BASS_FLAG_NTF_CFG_BIT ∧
      (bass_task.gatt_write_cmd_ind_handler env state param dest_id src_id).calls =
        [Call.attsdb_att_set_value (u16 param.handle) 2 (bytes16 0x0001)] ++
        (if param.last = true then
          [Call.ke_msg_send ⟨.BASS_BATT_LEVEL_NTF_CFG_IND, env.con_info.appid, TASK_BASS,
            .bass_batt_level_ntf_cfg_ind (u16 env.con_info.conhdl) 0x0001 i⟩]
         else []) ++
        [Call.atts_write_rsp_send env.con_info.conhdl param.handle PRF_ERR_OK]) ∧
    (co_read16p (param.value 0) (param.value 1) = 0x0000 →
      (bass_task.gatt_write_cmd_ind_handler env state param dest_id src_id).env.features i
          = clr8 (env.features i) bass_task.BASS_FLAG_NTF_CFG_BIT ∧
      (bass_task.gatt_write_cmd_ind_handler env state param dest_id src_id).env.features i
          &&& bass_task.BASS_FLAG_NTF_CFG_BIT = 0 ∧
      (bass_task.gatt_write_cmd_ind_handler env state param dest_id src_id).calls =
        [Call.attsdb_att_set_value (u16 param.handle) 2 (bytes16 0x0000)] ++
        (if param.last = true then
          [Call.ke_msg_send ⟨.BASS_BATT_LEVEL_NTF_CFG_IND, env.con_info.appid, TASK_BASS,
            .bass_batt_level_ntf_cfg_ind (u16 env.con_info.conhdl) 0x0000 i⟩]
         else []) ++
        [Call.atts_write_rsp_send env.con_info.conhdl param.handle PRF_ERR_OK]) ∧
    (co_read16p (param.value 0) (param.value 1) ≠ 0x0000 →
      co_read16p (param.value 0) (param.value 1) ≠ 0x0001 →
      (bass_task.gatt_write_cmd_ind_handler env state param dest_id src_id).calls =
        [Call.atts_write_rsp_send env.con_info.conhdl param.handle PRF_APP_ERROR] ∧
      (bass_task.gatt_write_cmd_ind_handler env state param dest_id src_id).env.features
        = env.features) ∧
    (∀ j, j ≠ i →
      (bass_task.gatt_write_cmd_ind_handler env state param dest_id src_id).env.features j
        = env.features j) := by
  have hfind := bass_find_loop_found env param.handle i hi hh hfirst env.bas_nb 0
    (Nat.zero_le i) (by omega)
  have hidx : u8 (i + 1 + 255) = i := by
    unfold u8
    omega
  unfold bass_task.gatt_write_cmd_ind_handler
  simp only [hfind, hidx, if_true]
  refine ⟨?_, ?_, ?_, ?_⟩
  · intro hv
    simp only [hv, PRF_CLI_STOP_NTFIND, PRF_CLI_START_NTF]
    refine ⟨by simp, ?_, ?_⟩
    · simp only [Nat.one_ne_zero, or_true, if_true, Function.update_same]
      exact u8_or_and_mask _ _ (by decide)
    · cases param.last <;> simp [hh, co_write16p, u16]
  · intro hv
    simp only [hv, PRF_CLI_STOP_NTFIND, PRF_CLI_START_NTF]
    refine ⟨by simp, ?_, ?_⟩
    · simp only [true_or, if_true, Nat.zero_ne_one, if_false, Function.update_same]
      exact clr8_and_mask _ _
    · cases param.last <;> simp [hh, co_write16p, u16]
  · intro h0 h1
    have hn : ¬ (co_read16p (param.value 0) (param.value 1) = PRF_CLI_STOP_NTFIND ∨
        co_read16p (param.value 0) (param.value 1) = PRF_CLI_START_NTF) := by
      rintro (h | h)
      · exact h0 h
      · exact h1 h
    simp only [if_neg hn]
    simp
  · intro j hj
    split_ifs <;> simp [Function.update_noteq hj]

/-- Witness of C6: two instances at start handles `16` and `32`; the write of
`0x0001` at handle `35` is for instance `1`, sets the flag in `features[1]`
(`0x01` becomes `0x03`), stores the value, informs the application and answers
`PRF_ERR_OK`. -/
theorem C6_bass_write_ntf_cfg_witness :
    exBassEnv2.bas_nb < 256 ∧ 1 < exBassEnv2.bas_nb ∧
    (exWrite 35 1 0).handle = exBassEnv2.shdl 1 + bass_task.BAS_IDX_BATT_LVL_NTF_CFG ∧
    (∀ j, j < 1 →
      (exWrite 35 1 0).handle ≠ exBassEnv2.shdl j + bass_task.BAS_IDX_BATT_LVL_NTF_CFG) ∧
    co_read16p ((exWrite 35 1 0).value 0) ((exWrite 35 1 0).value 1) = 0x0001 ∧
    (bass_task.gatt_write_cmd_ind_handler exBassEnv2 bass_task.BASS_CONNECTED (exWrite 35 1 0)
      30 10).env.features 1 = 0x03 ∧
    (bass_task.gatt_write_cmd_ind_handler exBassEnv2 bass_task.BASS_CONNECTED (exWrite 35 1 0)
      30 10).calls =
      [Call.attsdb_att_set_value 35 2 [1, 0],
       Call.ke_msg_send ⟨.BASS_BATT_LEVEL_NTF_CFG_IND, 5, TASK_BASS,
         .bass_batt_level_ntf_cfg_ind 1 1 1⟩,
       Call.atts_write_rsp_send 1 35 PRF_ERR_OK] :=
  have hfirst : ∀ j, j < 1 →
      (exWrite 35 1 0).handle ≠ exBassEnv2.shdl j + bass_task.BAS_IDX_BATT_LVL_NTF_CFG := by
    intro j hj
    have h0 : j = 0 := by omega
    subst h0
    decide
  ⟨by decide, by decide, by decide, hfirst, by decide,
   ((C6_bass_write_ntf_cfg exBassEnv2 bass_task.BASS_CONNECTED (exWrite 35 1 0) 30 10 1
      (by decide) (by decide) (by decide) hfirst).1 (by decide)).1.trans (by decide),
   ((C6_bass_write_ntf_cfg exBassEnv2 bass_task.BASS_CONNECTED (exWrite 35 1 0) 30 10 1
      (by decide) (by decide) (by decide) hfirst).1 (by decide)).2.2.trans (by decide)⟩

/-- C7 (evaluation at the failing input): in state `CSCPS_CONNECTED`, with CSC
measurement notifications enabled, the client writes the two bytes `0x00 0x01`
(the 16-bit value `0x0100`) to the CSC Measurement client characteristic
configuration descriptor at handle `64 + 3`.  The handler takes the first byte
alone as the value: it stores `0x0000` in the attribute database, clears the
notification flag of `prf_cfg`, sends the configuration indication to the
application and answers `PRF_ERR_OK`. -/
theorem C7_cscps_meas_ccc_second_byte_ignored :
    co_read16p ((exWrite 67 0x00 0x01).value 0) ((exWrite 67 0x00 0x01).value 1) = 0x0100 ∧
    (exWrite 67 0x00 0x01).handle =
      (exCscpsEnv cscps_task.CSCP_PRF_CFG_FLAG_CSC_MEAS_NTF
        cscps_task.CSCPS_RESERVED_OP_CODE).shdl + cscps_task.CSCS_IDX_CSC_MEAS_NTF_CFG ∧
    (cscps_task.gatt_write_cmd_ind_handler
      (exCscpsEnv cscps_task.CSCP_PRF_CFG_FLAG_CSC_MEAS_NTF cscps_task.CSCPS_RESERVED_OP_CODE)
      cscps_task.CSCPS_CONNECTED (exWrite 67 0x00 0x01) TASK_CSCPS TASK_GATT).calls =
      [Call.attsdb_att_set_value 67 2 [0, 0],
       Call.ke_msg_send ⟨.CSCPS_NTF_IND_CFG_IND, 5, TASK_CSCPS,
         .cscps_ntf_ind_cfg_ind 1 cscps_task.CSCP_CSCS_CSC_MEAS_CHAR 0x0000⟩,
       Call.atts_write_rsp_send 1 67 PRF_ERR_OK] ∧
    (exCscpsEnv cscps_task.CSCP_PRF_CFG_FLAG_CSC_MEAS_NTF
      cscps_task.CSCPS_RESERVED_OP_CODE).prf_cfg = 0x0017 ∧
    (cscps_task.gatt_write_cmd_ind_handler
      (exCscpsEnv cscps_task.CSCP_PRF_CFG_FLAG_CSC_MEAS_NTF cscps_task.CSCPS_RESERVED_OP_CODE)
      cscps_task.CSCPS_CONNECTED (exWrite 67 0x00 0x01) TASK_CSCPS TASK_GATT).env.prf_cfg
      = 0x0007 := by
  refine ⟨by decide, by decide, by decide, by decide, by decide⟩

/-- A `uint8_t` has no bit at position 8 or above. -/
theorem testBit_of_lt_256 (x k : Nat) (hx : x < 256) (hk : ¬ k < 8) : x.testBit k = false := by
  apply Nat.testBit_lt_two_pow
  calc x < 2 ^ 8 := by simpa using hx
    _ ≤ 2 ^ k := Nat.pow_le_pow_right (by norm_num) (by omega)

/-- The statement `flag |= mask` on a `uint8_t` sets the bits of the mask and
no other. -/
theorem maskSet_u8_or (old mask : Nat) (ho : old < 256) (hm : mask < 256) :
    MaskSet old (u8 (old ||| mask)) mask := by
  refine ⟨u8_or_and_mask old mask hm, ?_⟩
  intro k hk
  rw [testBit_u8_or, hk, Bool.or_false]
  by_cases h8 : k < 8
  · simp [h8]
  · simp [h8, testBit_of_lt_256 old k ho h8]

/-- The statement `flag &= ~mask` on a `uint8_t` clears the bits of the mask
and no other. -/
theorem maskCleared_clr8 (old mask : Nat) (ho : old < 256) :
    MaskCleared old (clr8 old mask) mask := by
  refine ⟨clr8_and_mask old mask, ?_⟩
  intro k hk
  rw [testBit_clr8, hk]
  by_cases h8 : k < 8
  · simp [h8]
  · simp [h8, testBit_of_lt_256 old k ho h8]

/-- C8: `hogpd_ntf_cfg_ind_send` called with a value other than `0x0000` and
`0x0001` returns `PRF_APP_ERROR`, makes no call (no database write, no
`HOGPD_NTF_CFG_IND`) and leaves `hogpd_env` unchanged.  Called with `0x0001`
(resp. `0x0000`) it returns `PRF_ERR_OK` and, for the boot keyboard input, boot
mouse input and report configuration codes, sets (resp. clears) the bits of the
corresponding mask and no other bit: in `features[hids_nb].svc_features` for
the two boot codes, in `features[hids_nb].report_char_cfg[report_nb]` for the
report code; the rest of the environment is unchanged. -/
theorem C8_hogpd_ntf_cfg_ind_send (env : hogpd.hogpd_env_tag)
    (ntf_cfg handle cfg_code hids_nb report_nb : Nat)
    (hsvc : (env.features hids_nb).svc_features < 256)
    (hrep : (env.features hids_nb).report_char_cfg report_nb < 256) :
    (ntf_cfg ≠ 0x0000 → ntf_cfg ≠ 0x0001 →
      (hogpd.hogpd_ntf_cfg_ind_send env ntf_cfg handle cfg_code hids_nb report_nb).ret
        = PRF_APP_ERROR ∧
      (hogpd.hogpd_ntf_cfg_ind_send env ntf_cfg handle cfg_code hids_nb report_nb).calls = [] ∧
      (hogpd.hogpd_ntf_cfg_ind_send env ntf_cfg handle cfg_code hids_nb report_nb).env = env) ∧
    (ntf_cfg = 0x0000 ∨ ntf_cfg = 0x0001 →
      (hogpd.hogpd_ntf_cfg_ind_send env ntf_cfg handle cfg_code hids_nb report_nb).ret
        = PRF_ERR_OK ∧
      (hogpd.hogpd_ntf_cfg_ind_send env ntf_cfg handle cfg_code hids_nb report_nb).env.con_info
        = env.con_info ∧
      (hogpd.hogpd_ntf_cfg_ind_send env ntf_cfg handle cfg_code hids_nb report_nb).env.shdl
        = env.shdl ∧
      (hogpd.hogpd_ntf_cfg_ind_send env ntf_cfg handle cfg_code hids_nb report_nb).env.att_tbl
        = env.att_tbl ∧
      (hogpd.hogpd_ntf_cfg_ind_send env ntf_cfg handle cfg_code hids_nb report_nb).env.hids_nb
        = env.hids_nb ∧
      (∀ n, n ≠ hids_nb →
        (hogpd.hogpd_ntf_cfg_ind_send env ntf_cfg handle cfg_code hids_nb report_nb).env.features n
          = env.features n) ∧
      ((hogpd.hogpd_ntf_cfg_ind_send env ntf_cfg handle cfg_code hids_nb
          report_nb).env.features hids_nb).report_nb = (env.features hids_nb).report_nb ∧
      (cfg_code = hogpd.HOGPD_BOOT_KB_IN_REPORT_CFG →
        (ntf_cfg = 0x0001 → MaskSet (env.features hids_nb).svc_features
          ((hogpd.hogpd_ntf_cfg_ind_send env ntf_cfg handle cfg_code hids_nb
            report_nb).env.features hids_nb).svc_features hogpd.HOGPD_BOOT_KB_IN_NTF_CFG_MASK) ∧
        (ntf_cfg = 0x0000 → MaskCleared (env.features hids_nb).svc_features
          ((hogpd.hogpd_ntf_cfg_ind_send env ntf_cfg handle cfg_code hids_nb
            report_nb).env.features hids_nb).svc_features hogpd.HOGPD_BOOT_KB_IN_NTF_CFG_MASK) ∧
        ((hogpd.hogpd_ntf_cfg_ind_send env ntf_cfg handle cfg_code hids_nb
            report_nb).env.features hids_nb).report_char_cfg
          = (env.features hids_nb).report_char_cfg) ∧
      (cfg_code = hogpd.HOGPD_BOOT_MOUSE_IN_REPORT_CFG →
        (ntf_cfg = 0x0001 → MaskSet (env.features hids_nb).svc_features
          ((hogpd.hogpd_ntf_cfg_ind_send env ntf_cfg handle cfg_code hids_nb
            report_nb).env.features hids_nb).svc_features
          hogpd.HOGPD_BOOT_MOUSE_IN_NTF_CFG_MASK) ∧
        (ntf_cfg = 0x0000 → MaskCleared (env.features hids_nb).svc_features
          ((hogpd.hogpd_ntf_cfg_ind_send env ntf_cfg handle cfg_code hids_nb
            report_nb).env.features hids_nb).svc_features
          hogpd.HOGPD_BOOT_MOUSE_IN_NTF_CFG_MASK) ∧
        ((hogpd.hogpd_ntf_cfg_ind_send env ntf_cfg handle cfg_code hids_nb
            report_nb).env.features hids_nb).report_char_cfg
          = (env.features hids_nb).report_char_cfg) ∧
      (cfg_code = hogpd.HOGPD_REPORT_CFG →
        (ntf_cfg = 0x0001 → MaskSet ((env.features hids_nb).report_char_cfg report_nb)
          (((hogpd.hogpd_ntf_cfg_ind_send env ntf_cfg handle cfg_code hids_nb
            report_nb).env.features hids_nb).report_char_cfg report_nb)
          hogpd.HOGPD_REPORT_NTF_CFG_MASK) ∧
        (ntf_cfg = 0x0000 → MaskCleared ((env.features hids_nb).report_char_cfg report_nb)
          (((hogpd.hogpd_ntf_cfg_ind_send env ntf_cfg handle cfg_code hids_nb
            report_nb).env.features hids_nb).report_char_cfg report_nb)
          hogpd.HOGPD_REPORT_NTF_CFG_MASK) ∧
        (∀ k, k ≠ report_nb →
          ((hogpd.hogpd_ntf_cfg_ind_send env ntf_cfg handle cfg_code hids_nb
            report_nb).env.features hids_nb).report_char_cfg k
            = (env.features hids_nb).report_char_cfg k) ∧
        ((hogpd.hogpd_ntf_cfg_ind_send env ntf_cfg handle cfg_code hids_nb
            report_nb).env.features hids_nb).svc_features
          = (env.features hids_nb).svc_features)) := by
  refine ⟨?_, ?_⟩
  · intro h0 h1
    have hn : ¬ (ntf_cfg = PRF_CLI_STOP_NTFIND ∨ ntf_cfg = PRF_CLI_START_NTF) := by
      rintro (h | h)
      · exact h0 h
      · exact h1 h
    unfold hogpd.hogpd_ntf_cfg_ind_send
    rw [if_neg hn]
    exact ⟨rfl, rfl, rfl⟩
  · intro hv
    have hp : ntf_cfg = PRF_CLI_STOP_NTFIND ∨ ntf_cfg = PRF_CLI_START_NTF := hv
    unfold hogpd.hogpd_ntf_cfg_ind_send
    rw [if_pos hp]
    refine ⟨rfl, rfl, rfl, rfl, rfl, ?_, ?_, ?_, ?_, ?_⟩
    · intro n hn
      exact Function.update_noteq hn _ _
    · simp only [Function.update_same]
      split_ifs <;> rfl
    · intro hc
      subst hc
      have hsel : hogpd.ntf_cfg_select hogpd.HOGPD_BOOT_KB_IN_REPORT_CFG
          = (hogpd.HOGPD_BOOT_KB_IN_NTF_CFG_MASK, false) := by decide
      simp only [hsel, Bool.false_eq_true, if_false, Function.update_same]
      refine ⟨?_, ?_, trivial⟩
      · intro h1
        subst h1
        exact maskSet_u8_or _ _ hsvc (by decide)
      · intro h0
        subst h0
        exact maskCleared_clr8 _ _ hsvc
    · intro hc
      subst hc
      have hsel : hogpd.ntf_cfg_select hogpd.HOGPD_BOOT_MOUSE_IN_REPORT_CFG
          = (hogpd.HOGPD_BOOT_MOUSE_IN_NTF_CFG_MASK, false) := by decide
      simp only [hsel, Bool.false_eq_true, if_false, Function.update_same]
      refine ⟨?_, ?_, trivial⟩
      · intro h1
        subst h1
        exact maskSet_u8_or _ _ hsvc (by decide)
      · intro h0
        subst h0
        exact maskCleared_clr8 _ _ hsvc
    · intro hc
      subst hc
      have hsel : hogpd.ntf_cfg_select hogpd.HOGPD_REPORT_CFG
          = (hogpd.HOGPD_REPORT_NTF_CFG_MASK, true) := by decide
      simp only [hsel, if_true, Function.update_same]
      refine ⟨?_, ?_, ?_, trivial⟩
      · intro h1
        subst h1
        exact maskSet_u8_or _ _ hrep (by decide)
      · intro h0
        subst h0
        exact maskCleared_clr8 _ _ hrep
      · intro k hk
        exact Function.update_noteq hk _ _

/-- Witness of C8: on an environment whose report flag is `0x02`, the value
`0x0001` for the report configuration code is accepted and sets the bits of
`HOGPD_REPORT_NTF_CFG_MASK` in `report_char_cfg[0]`, and the value `0x0002` is
refused with `PRF_APP_ERROR`. -/
theorem C8_hogpd_ntf_cfg_ind_send_witness :
    (exHogpdEnv.features 0).svc_features < 256 ∧
    (exHogpdEnv.features 0).report_char_cfg 0 < 256 ∧
    (hogpd.hogpd_ntf_cfg_ind_send exHogpdEnv 0x0001 99 hogpd.HOGPD_REPORT_CFG 0 0).ret
      = PRF_ERR_OK ∧
    MaskSet ((exHogpdEnv.features 0).report_char_cfg 0)
      (((hogpd.hogpd_ntf_cfg_ind_send exHogpdEnv 0x0001 99 hogpd.HOGPD_REPORT_CFG 0
        0).env.features 0).report_char_cfg 0) hogpd.HOGPD_REPORT_NTF_CFG_MASK ∧
    (hogpd.hogpd_ntf_cfg_ind_send exHogpdEnv 0x0002 99 hogpd.HOGPD_REPORT_CFG 0 0).ret
      = PRF_APP_ERROR :=
  ⟨by decide, by decide,
   ((C8_hogpd_ntf_cfg_ind_send exHogpdEnv 0x0001 99 hogpd.HOGPD_REPORT_CFG 0 0
      (by decide) (by decide)).2 (Or.inr rfl)).1,
   ((((C8_hogpd_ntf_cfg_ind_send exHogpdEnv 0x0001 99 hogpd.HOGPD_REPORT_CFG 0 0
      (by decide) (by decide)).2 (Or.inr rfl)).2.2.2.2.2.2.2.2.2 rfl).1 rfl),
   ((C8_hogpd_ntf_cfg_ind_send exHogpdEnv 0x0002 99 hogpd.HOGPD_REPORT_CFG 0 0
      (by decide) (by decide)).1 (by decide) (by decide)).1⟩

/-- C9 (as stated, refuted): a run of the handler.  Step 1 starts the "set
cumulative value" procedure: the task is busy with operation
`CSCPS_CTNL_PT_CUMUL_VAL_OP_CODE`.  Step 2 disables the indications of the SC
Control Point; the procedure is still in progress.  A further write to the SC
Control Point value is then answered with `PRF_CCCD_IMPR_CONFIGURED`, which is
not `CSCP_ERROR_PROC_IN_PROGRESS`. -/
theorem C9_ctnl_pt_write_busy_ccc_disabled :
    exCscpsStep2.state = cscps_task.CSCPS_BUSY ∧
    exCscpsStep2.env.operation ≥ cscps_task.CSCPS_CTNL_PT_CUMUL_VAL_OP_CODE ∧
    (exWrite 73 cscps_task.CSCP_CTNL_PT_OP_SET_CUMUL_VAL 0).handle =
      exCscpsStep2.env.shdl +
        exCscpsStep2.env.hdl_offset cscps_task.CSCP_CSCS_SC_CTNL_PT_CHAR + 1 ∧
    (cscps_task.gatt_write_cmd_ind_handler exCscpsStep2.env exCscpsStep2.state
      (exWrite 73 cscps_task.CSCP_CTNL_PT_OP_SET_CUMUL_VAL 0) TASK_CSCPS TASK_GATT).calls =
      [Call.atts_write_rsp_send 1 73 PRF_CCCD_IMPR_CONFIGURED] ∧
    PRF_CCCD_IMPR_CONFIGURED ≠ cscps_task.CSCP_ERROR_PROC_IN_PROGRESS := by
  refine ⟨by decide, by decide, by decide, by decide, by decide⟩

/-- C9 (amended): a write to the SC Control Point value while a control point
procedure is in progress (task busy, `operation` at least
`CSCPS_CTNL_PT_CUMUL_VAL_OP_CODE`) makes exactly one call, the write response:
with status `CSCP_ERROR_PROC_IN_PROGRESS` when the indications of the SC
Control Point are enabled in `prf_cfg`, with status `PRF_CCCD_IMPR_CONFIGURED`
when they are not.  In both cases no request indication is sent, the message
is consumed and `cscps_env` and the task state are unchanged. -/
theorem C9_ctnl_pt_write_while_procedure (env : cscps_task.cscps_env_tag)
    (param : gatt_write_cmd_ind) (dest_id src_id : Nat)
    (hop : env.operation ≥ cscps_task.CSCPS_CTNL_PT_CUMUL_VAL_OP_CODE)
    (hh : param.handle = env.shdl + env.hdl_offset cscps_task.CSCP_CSCS_SC_CTNL_PT_CHAR + 1)
    (hoff : env.hdl_offset cscps_task.CSCP_CSCS_SC_CTNL_PT_CHAR + 1
      ≠ cscps_task.CSCS_IDX_CSC_MEAS_NTF_CFG) :
    (cscps_task.CSCPS_IS_NTFIND_ENABLED env cscps_task.CSCP_PRF_CFG_FLAG_SC_CTNL_PT_IND = true →
      (cscps_task.gatt_write_cmd_ind_handler env cscps_task.CSCPS_BUSY param dest_id
          src_id).calls =
        [Call.atts_write_rsp_send param.conhdl param.handle
          cscps_task.CSCP_ERROR_PROC_IN_PROGRESS]) ∧
    (cscps_task.CSCPS_IS_NTFIND_ENABLED env cscps_task.CSCP_PRF_CFG_FLAG_SC_CTNL_PT_IND = false →
      (cscps_task.gatt_write_cmd_ind_handler env cscps_task.CSCPS_BUSY param dest_id
          src_id).calls =
        [Call.atts_write_rsp_send param.conhdl param.handle PRF_CCCD_IMPR_CONFIGURED]) ∧
    (cscps_task.gatt_write_cmd_ind_handler env cscps_task.CSCPS_BUSY param dest_id src_id).ret
      = .KE_MSG_CONSUMED ∧
    (cscps_task.gatt_write_cmd_ind_handler env cscps_task.CSCPS_BUSY param dest_id src_id).env
      = env ∧
    (cscps_task.gatt_write_cmd_ind_handler env cscps_task.CSCPS_BUSY param dest_id src_id).state
      = cscps_task.CSCPS_BUSY := by
  have h1 : ¬ param.handle = env.shdl + cscps_task.CSCS_IDX_CSC_MEAS_NTF_CFG := by
    rw [hh]
    omega
  have h2 : ¬ param.handle =
      env.shdl + env.hdl_offset cscps_task.CSCP_CSCS_SC_CTNL_PT_CHAR + 2 := by
    rw [hh]
    omega
  have h3 : cscps_task.CSCPS_BUSY ≥ cscps_task.CSCPS_CONNECTED := by decide
  unfold cscps_task.gatt_write_cmd_ind_handler
  rw [if_pos h3, if_neg h1, if_neg h2, if_pos hh]
  cases hen : cscps_task.CSCPS_IS_NTFIND_ENABLED env cscps_task.CSCP_PRF_CFG_FLAG_SC_CTNL_PT_IND
  · simp
  · simp [hop]

/-- Witness of the amended C9: busy with the "set cumulative value" procedure
and indications enabled, a write to the SC Control Point value at handle
`64 + 8 + 1` is answered with `CSCP_ERROR_PROC_IN_PROGRESS` alone. -/
theorem C9_ctnl_pt_write_while_procedure_witness :
    (exCscpsEnv cscps_task.CSCP_PRF_CFG_FLAG_SC_CTNL_PT_IND
      cscps_task.CSCPS_CTNL_PT_CUMUL_VAL_OP_CODE).operation
        ≥ cscps_task.CSCPS_CTNL_PT_CUMUL_VAL_OP_CODE ∧
    (exWrite 73 cscps_task.CSCP_CTNL_PT_OP_UPD_LOC 2).handle =
      (exCscpsEnv cscps_task.CSCP_PRF_CFG_FLAG_SC_CTNL_PT_IND
        cscps_task.CSCPS_CTNL_PT_CUMUL_VAL_OP_CODE).shdl +
      (exCscpsEnv cscps_task.CSCP_PRF_CFG_FLAG_SC_CTNL_PT_IND
        cscps_task.CSCPS_CTNL_PT_CUMUL_VAL_OP_CODE).hdl_offset
          cscps_task.CSCP_CSCS_SC_CTNL_PT_CHAR + 1 ∧
    (exCscpsEnv cscps_task.CSCP_PRF_CFG_FLAG_SC_CTNL_PT_IND
      cscps_task.CSCPS_CTNL_PT_CUMUL_VAL_OP_CODE).hdl_offset
        cscps_task.CSCP_CSCS_SC_CTNL_PT_CHAR + 1 ≠ cscps_task.CSCS_IDX_CSC_MEAS_NTF_CFG ∧
    cscps_task.CSCPS_IS_NTFIND_ENABLED
      (exCscpsEnv cscps_task.CSCP_PRF_CFG_FLAG_SC_CTNL_PT_IND
        cscps_task.CSCPS_CTNL_PT_CUMUL_VAL_OP_CODE)
      cscps_task.CSCP_PRF_CFG_FLAG_SC_CTNL_PT_IND = true ∧
    (cscps_task.gatt_write_cmd_ind_handler
      (exCscpsEnv cscps_task.CSCP_PRF_CFG_FLAG_SC_CTNL_PT_IND
        cscps_task.CSCPS_CTNL_PT_CUMUL_VAL_OP_CODE)
      cscps_task.CSCPS_BUSY (exWrite 73 cscps_task.CSCP_CTNL_PT_OP_UPD_LOC 2)
      TASK_CSCPS TASK_GATT).calls =
      [Call.atts_write_rsp_send 1 73 cscps_task.CSCP_ERROR_PROC_IN_PROGRESS] :=
  ⟨by decide, by decide, by decide, by decide,
   (C9_ctnl_pt_write_while_procedure
      (exCscpsEnv cscps_task.CSCP_PRF_CFG_FLAG_SC_CTNL_PT_IND
        cscps_task.CSCPS_CTNL_PT_CUMUL_VAL_OP_CODE)
      (exWrite 73 cscps_task.CSCP_CTNL_PT_OP_UPD_LOC 2)
      TASK_CSCPS TASK_GATT (by decide) (by decide) (by decide)).1 (by decide)⟩

/-- C10 (evaluation at the failing input): the task is busy sending a CSC
measurement (`operation = CSCPS_SEND_CSC_MEAS_OP_CODE`), notifications and
indications are enabled.  A write to the SC Control Point value is deferred
(`KE_MSG_SAVED`) with environment and state unchanged, yet the handler sends
the GATT write response with status `PRF_ERR_OK`.  The measurement command
handler, when it defers a command in the same situation, makes no call. -/
theorem C10_saved_write_sends_write_response :
    (cscps_task.gatt_write_cmd_ind_handler
      (exCscpsEnv (cscps_task.CSCP_PRF_CFG_FLAG_CSC_MEAS_NTF |||
        cscps_task.CSCP_PRF_CFG_FLAG_SC_CTNL_PT_IND) cscps_task.CSCPS_SEND_CSC_MEAS_OP_CODE)
      cscps_task.CSCPS_BUSY (exWrite 73 cscps_task.CSCP_CTNL_PT_OP_SET_CUMUL_VAL 0)
      TASK_CSCPS TASK_GATT).ret = .KE_MSG_SAVED ∧
    (cscps_task.gatt_write_cmd_ind_handler
      (exCscpsEnv (cscps_task.CSCP_PRF_CFG_FLAG_CSC_MEAS_NTF |||
        cscps_task.CSCP_PRF_CFG_FLAG_SC_CTNL_PT_IND) cscps_task.CSCPS_SEND_CSC_MEAS_OP_CODE)
      cscps_task.CSCPS_BUSY (exWrite 73 cscps_task.CSCP_CTNL_PT_OP_SET_CUMUL_VAL 0)
      TASK_CSCPS TASK_GATT).calls = [Call.atts_write_rsp_send 1 73 PRF_ERR_OK] ∧
    (cscps_task.gatt_write_cmd_ind_handler
      (exCscpsEnv (cscps_task.CSCP_PRF_CFG_FLAG_CSC_MEAS_NTF |||
        cscps_task.CSCP_PRF_CFG_FLAG_SC_CTNL_PT_IND) cscps_task.CSCPS_SEND_CSC_MEAS_OP_CODE)
      cscps_task.CSCPS_BUSY (exWrite 73 cscps_task.CSCP_CTNL_PT_OP_SET_CUMUL_VAL 0)
      TASK_CSCPS TASK_GATT).state = cscps_task.CSCPS_BUSY ∧
    (cscps_task.cscps_ntf_csc_meas_cmd_handler
      (exCscpsEnv (cscps_task.CSCP_PRF_CFG_FLAG_CSC_MEAS_NTF |||
        cscps_task.CSCP_PRF_CFG_FLAG_SC_CTNL_PT_IND) cscps_task.CSCPS_SEND_CSC_MEAS_OP_CODE)
      cscps_task.CSCPS_BUSY exMeasCmd TASK_CSCPS 5).ret = .KE_MSG_SAVED ∧
    (cscps_task.cscps_ntf_csc_meas_cmd_handler
      (exCscpsEnv (cscps_task.CSCP_PRF_CFG_FLAG_CSC_MEAS_NTF |||
        cscps_task.CSCP_PRF_CFG_FLAG_SC_CTNL_PT_IND) cscps_task.CSCPS_SEND_CSC_MEAS_OP_CODE)
      cscps_task.CSCPS_BUSY exMeasCmd TASK_CSCPS 5).calls = [] := by
  refine ⟨by decide, by decide, by decide, by decide, by decide⟩

/-- What holds of the deferred messages of CSCPS in general: a measurement
command that is deferred makes no call, a write that is deferred makes the
single call of the write response with status `PRF_ERR_OK`; both leave
`cscps_env` and the task state unchanged. -/
theorem cscps_deferred_message (env : cscps_task.cscps_env_tag) (state dest_id src_id : Nat) :
    (∀ param : cscps_task.cscps_ntf_csc_meas_cmd,
      (cscps_task.cscps_ntf_csc_meas_cmd_handler env state param dest_id src_id).ret
        = .KE_MSG_SAVED →
      (cscps_task.cscps_ntf_csc_meas_cmd_handler env state param dest_id src_id).calls = [] ∧
      (cscps_task.cscps_ntf_csc_meas_cmd_handler env state param dest_id src_id).env = env ∧
      (cscps_task.cscps_ntf_csc_meas_cmd_handler env state param dest_id src_id).state
        = state) ∧
    (∀ param : gatt_write_cmd_ind,
      (cscps_task.gatt_write_cmd_ind_handler env state param dest_id src_id).ret
        = .KE_MSG_SAVED →
      (cscps_task.gatt_write_cmd_ind_handler env state param dest_id src_id).calls =
        [Call.atts_write_rsp_send param.conhdl param.handle PRF_ERR_OK] ∧
      (cscps_task.gatt_write_cmd_ind_handler env state param dest_id src_id).env = env ∧
      (cscps_task.gatt_write_cmd_ind_handler env state param dest_id src_id).state = state) := by
  refine ⟨?_, ?_⟩
  · intro param
    unfold cscps_task.cscps_ntf_csc_meas_cmd_handler
    simp only []
    split_ifs <;> simp
  · intro param
    unfold cscps_task.gatt_write_cmd_ind_handler cscps_task.write_ccc
    simp only []
    split_ifs <;> simp

/-- C17 (evaluation at failing inputs): the environment is owned by connection
`1` and has one instance, with notifications enabled.  A request on connection
`9` (instance 0, level 50) is not refused: the Battery Level value is written
to the attribute database and a `GATT_NOTIFY_REQ` is sent, and no confirmation
with `PRF_ERR_INVALID_PARAM` is sent.  A request on connection `1` for instance
`5` is not refused either: `shdl[5]` and `features[5]` are used.  Only a request
that is wrong in all three parameters is refused. -/
theorem C17_batt_level_upd_malformed_accepted :
    (⟨9, 0, 50⟩ : bass_task.bass_batt_level_upd_req).conhdl ≠ exBassEnvNtf.con_info.conhdl ∧
    (bass_task.bass_batt_level_upd_req_handler exBassEnvNtf bass_task.BASS_CONNECTED
      ⟨9, 0, 50⟩ TASK_BASS 5).calls =
      [Call.attsdb_att_set_value 18 1 [50],
       Call.ke_msg_send ⟨.GATT_NOTIFY_REQ, TASK_GATT, TASK_BASS, .gatt_notify_req 1 18⟩] ∧
    (⟨1, 5, 50⟩ : bass_task.bass_batt_level_upd_req).bas_instance ≥ exBassEnvNtf.bas_nb ∧
    (bass_task.bass_batt_level_upd_req_handler exBassEnvNtf bass_task.BASS_CONNECTED
      ⟨1, 5, 50⟩ TASK_BASS 5).calls =
      [Call.attsdb_att_set_value (exBassEnvNtf.shdl 5 + 2) 1 [50],
       Call.bass_batt_level_upd_cfm_send PRF_ERR_NTF_DISABLED] ∧
    (bass_task.bass_batt_level_upd_req_handler exBassEnvNtf bass_task.BASS_CONNECTED
      ⟨9, 5, 101⟩ TASK_BASS 5).calls =
      [Call.bass_batt_level_upd_cfm_send PRF_ERR_INVALID_PARAM] := by
  refine ⟨by decide, by decide, by decide, by decide, by decide⟩

/-- What the handler of `BASS_BATT_LEVEL_UPD_REQ` does in general: the request
is refused with `PRF_ERR_INVALID_PARAM`, by the single call of the
confirmation, exactly when the connection handle differs from the stored one
and the instance is not below `bas_nb` and the level exceeds
`BAS_BATTERY_LVL_MAX`; otherwise the Battery Level value is written. -/
theorem bass_batt_level_upd_refused_iff (env : bass_task.bass_env_tag) (state : Nat)
    (param : bass_task.bass_batt_level_upd_req) (dest_id src_id : Nat) :
    ((bass_task.bass_batt_level_upd_req_handler env state param dest_id src_id).calls =
        [Call.bass_batt_level_upd_cfm_send PRF_ERR_INVALID_PARAM] ↔
      (param.conhdl ≠ env.con_info.conhdl ∧ ¬ param.bas_instance < env.bas_nb ∧
        ¬ param.batt_level ≤ bass_task.BAS_BATTERY_LVL_MAX)) := by
  unfold bass_task.bass_batt_level_upd_req_handler
  by_cases h : param.conhdl = env.con_info.conhdl ∨ param.bas_instance < env.bas_nb ∨
      param.batt_level ≤ bass_task.BAS_BATTERY_LVL_MAX
  · rw [if_pos h]
    constructor
    · intro hc
      split_ifs at hc <;> simp at hc
    · intro hn
      rcases h with h | h | h
      · exact absurd h hn.1
      · exact absurd h hn.2.1
      · exact absurd h hn.2.2
  · rw [if_neg h]
    simp only [true_iff]
    exact ⟨fun h1 => h (Or.inl h1), fun h2 => h (Or.inr (Or.inl h2)),
      fun h3 => h (Or.inr (Or.inr h3))⟩

/-- C18: `cscpc_send_cmp_evt`, `anpc_send_cmp_evt` and `paspc_send_cmp_evt`, for
every prior task state: the state afterwards is the connected state if it was
the busy state and is unchanged otherwise, hence never the busy state; the
calls are the release of the stored operation message when there is one (for
cscpc and anpc), followed by exactly one completion event to the application
that carries the connection handle, the operation code and the status; for
cscpc and anpc the operation pointer is `NULL` afterwards. -/
theorem C18_send_cmp_evt (cenv aenv : client_env_tag)
    (state operation status src_id dest_id conhdl : Nat) :
    ((cscpc.cscpc_send_cmp_evt cenv state operation status).state =
        (if state = cscpc.CSCPC_BUSY then cscpc.CSCPC_CONNECTED else state) ∧
      (cscpc.cscpc_send_cmp_evt cenv state operation status).state ≠ cscpc.CSCPC_BUSY ∧
      (cscpc.cscpc_send_cmp_evt cenv state operation status).calls =
        cenv.operation.toList.map Call.ke_msg_free ++
          [Call.ke_msg_send ⟨.CSCPC_CMP_EVT, cenv.con_info.appid, cenv.con_info.prf_id,
            .cscpc_cmp_evt cenv.con_info.conhdl operation status⟩] ∧
      (cscpc.cscpc_send_cmp_evt cenv state operation status).env.operation = none ∧
      (cscpc.cscpc_send_cmp_evt cenv state operation status).env.con_info = cenv.con_info) ∧
    ((anpc.anpc_send_cmp_evt aenv state operation status).state =
        (if state = anpc.ANPC_BUSY then anpc.ANPC_CONNECTED else state) ∧
      (anpc.anpc_send_cmp_evt aenv state operation status).state ≠ anpc.ANPC_BUSY ∧
      (anpc.anpc_send_cmp_evt aenv state operation status).calls =
        aenv.operation.toList.map Call.ke_msg_free ++
          [Call.ke_msg_send ⟨.ANPC_CMP_EVT, aenv.con_info.appid, aenv.con_info.prf_id,
            .anpc_cmp_evt aenv.con_info.conhdl operation status⟩] ∧
      (anpc.anpc_send_cmp_evt aenv state operation status).env.operation = none ∧
      (anpc.anpc_send_cmp_evt aenv state operation status).env.con_info = aenv.con_info) ∧
    ((paspc.paspc_send_cmp_evt state src_id dest_id conhdl operation status).state =
        (if state = paspc.PASPC_BUSY then paspc.PASPC_CONNECTED else state) ∧
      (paspc.paspc_send_cmp_evt state src_id dest_id conhdl operation status).state
        ≠ paspc.PASPC_BUSY ∧
      (paspc.paspc_send_cmp_evt state src_id dest_id conhdl operation status).calls =
        [Call.ke_msg_send ⟨.PASPC_CMP_EVT, dest_id, src_id,
          .paspc_cmp_evt conhdl operation status⟩]) := by
  refine ⟨⟨rfl, ?_, ?_, rfl, rfl⟩, ⟨rfl, ?_, ?_, rfl, rfl⟩, ⟨rfl, ?_, rfl⟩⟩
  · unfold cscpc.cscpc_send_cmp_evt
    by_cases h : state = cscpc.CSCPC_BUSY
    · simp only [if_pos h]
      decide
    · simp only [if_neg h]
      exact h
  · unfold cscpc.cscpc_send_cmp_evt
    cases cenv.operation <;> rfl
  · unfold anpc.anpc_send_cmp_evt
    by_cases h : state = anpc.ANPC_BUSY
    · simp only [if_pos h]
      decide
    · simp only [if_neg h]
      exact h
  · unfold anpc.anpc_send_cmp_evt
    cases aenv.operation <;> rfl
  · unfold paspc.paspc_send_cmp_evt
    by_cases h : state = paspc.PASPC_BUSY
    · simp only [if_pos h]
      decide
    · simp only [if_neg h]
      exact h

/-- C20: the sleep check of the main loop, for every user status and every
status returned by `ble_sleep`: no `enter_sleep` call when the user status or
the BLE status is `PM_ACTIVE`; the CPU clock is gated when neither is active
and at least one is `PM_IDLE`; `SLEEP_NORMAL` when both are `PM_SLEEP`;
`SLEEP_DEEP` when the BLE status is `PM_SLEEP` and the user status is
`PM_DEEP_SLEEP`; at most one `enter_sleep` call in every case. -/
theorem C20_sleep_check_table (usr_sleep_st : Int) (ble_sleep : Int → Int) :
    ((usr_sleep_st = app_main.PM_ACTIVE ∨ ble_sleep usr_sleep_st = app_main.PM_ACTIVE) →
      (app_main.sleep_check usr_sleep_st ble_sleep).filter app_main.MainCall.isEnterSleep
        = []) ∧
    (usr_sleep_st ≠ app_main.PM_ACTIVE → ble_sleep usr_sleep_st ≠ app_main.PM_ACTIVE →
      (usr_sleep_st = app_main.PM_IDLE ∨ ble_sleep usr_sleep_st = app_main.PM_IDLE) →
      (app_main.sleep_check usr_sleep_st ble_sleep).filter app_main.MainCall.isEnterSleep
        = [app_main.MainCall.enter_sleep app_main.sleep_mode.SLEEP_CPU_CLK_OFF
            app_main.wakeup_src.WAKEUP_BY_ALL_IRQ_SOURCE false]) ∧
    (usr_sleep_st = app_main.PM_SLEEP → ble_sleep usr_sleep_st = app_main.PM_SLEEP →
      (app_main.sleep_check usr_sleep_st ble_sleep).filter app_main.MainCall.isEnterSleep
        = [app_main.MainCall.enter_sleep app_main.sleep_mode.SLEEP_NORMAL
            app_main.wakeup_src.WAKEUP_BY_OSC_EN_or_WAKEUP_BY_GPIO true]) ∧
    (usr_sleep_st = app_main.PM_DEEP_SLEEP → ble_sleep usr_sleep_st = app_main.PM_SLEEP →
      (app_main.sleep_check usr_sleep_st ble_sleep).filter app_main.MainCall.isEnterSleep
        = [app_main.MainCall.enter_sleep app_main.sleep_mode.SLEEP_DEEP
            app_main.wakeup_src.WAKEUP_BY_GPIO true]) ∧
    ((app_main.sleep_check usr_sleep_st ble_sleep).filter
      app_main.MainCall.isEnterSleep).length ≤ 1 := by
  unfold app_main.sleep_check
  simp only [app_main.PM_ACTIVE, app_main.PM_IDLE, app_main.PM_SLEEP, app_main.PM_DEEP_SLEEP]
  generalize ble_sleep usr_sleep_st = b
  refine ⟨?_, ?_, ?_, ?_, ?_⟩
  · rintro (h | h) <;> subst h <;> split_ifs <;> simp_all [app_main.MainCall.isEnterSleep]
  · intro h1 h2 h3
    have hc : (b = 1 ∨ usr_sleep_st = 1) ∧ b ≠ 0 := ⟨h3.symm, h2⟩
    rw [if_pos h1, if_pos hc]
    simp [app_main.MainCall.isEnterSleep]
  · intro h1 h2
    subst h1 h2
    simp [app_main.MainCall.isEnterSleep]
  · intro h1 h2
    subst h1 h2
    simp [app_main.MainCall.isEnterSleep]
  · split_ifs <;> simp [app_main.MainCall.isEnterSleep]

/-- Witness of C20: user status `PM_SLEEP` and BLE status `PM_SLEEP` give the
single call `enter_sleep(SLEEP_NORMAL, ...)`, and user status `PM_IDLE` with
BLE status `PM_SLEEP` gates the CPU clock. -/
theorem C20_sleep_check_table_witness :
    (app_main.sleep_check app_main.PM_SLEEP (fun _ => app_main.PM_SLEEP)).filter
        app_main.MainCall.isEnterSleep
      = [app_main.MainCall.enter_sleep app_main.sleep_mode.SLEEP_NORMAL
          app_main.wakeup_src.WAKEUP_BY_OSC_EN_or_WAKEUP_BY_GPIO true] ∧
    (app_main.sleep_check app_main.PM_IDLE (fun _ => app_main.PM_SLEEP)).filter
        app_main.MainCall.isEnterSleep
      = [app_main.MainCall.enter_sleep app_main.sleep_mode.SLEEP_CPU_CLK_OFF
          app_main.wakeup_src.WAKEUP_BY_ALL_IRQ_SOURCE false] :=
  ⟨(C20_sleep_check_table app_main.PM_SLEEP (fun _ => app_main.PM_SLEEP)).2.2.1 rfl rfl,
   (C20_sleep_check_table app_main.PM_IDLE (fun _ => app_main.PM_SLEEP)).2.1
     (by decide) (by decide) (Or.inl rfl)⟩

/-- C19 (as stated, refuted): the database has no SC Control Point
characteristic, the task is idle and connection `1` is in the connection
table.  The enable request, for a normal connection, supplies the value `5`
as client configuration of the SC Control Point, which is neither "stop" nor
"start indications"; the completion event nevertheless carries `PRF_ERR_OK`
and the task moves to `CSCPS_CONNECTED`. -/
theorem C19_enable_unchecked_ctnl_pt_cfg :
    exStack.gap_get_rec_idx (exCscpsEnable PRF_CLI_STOP_NTFIND 5).conhdl ≠ GAP_INVALID_CONIDX ∧
    (exCscpsEnable PRF_CLI_STOP_NTFIND 5).con_type ≠ PRF_CON_DISCOVERY ∧
    (exCscpsEnable PRF_CLI_STOP_NTFIND 5).sc_ctnl_pt_ntf_cfg ≠ PRF_CLI_STOP_NTFIND ∧
    (exCscpsEnable PRF_CLI_STOP_NTFIND 5).sc_ctnl_pt_ntf_cfg ≠ PRF_CLI_START_IND ∧
    (cscps_task.cscps_enable_req_handler exStack exCscpsEnvNoCtnlPt cscps_task.CSCPS_IDLE
      (exCscpsEnable PRF_CLI_STOP_NTFIND 5) TASK_CSCPS 5).calls =
      [Call.attsdb_att_set_value 67 2 [0, 0],
       Call.attsdb_svc_set_permission 64 1,
       Call.cscps_send_cmp_evt TASK_CSCPS 5 1 cscps_task.CSCPS_ENABLE_OP_CODE PRF_ERR_OK] ∧
    (cscps_task.cscps_enable_req_handler exStack exCscpsEnvNoCtnlPt cscps_task.CSCPS_IDLE
      (exCscpsEnable PRF_CLI_STOP_NTFIND 5) TASK_CSCPS 5).state = cscps_task.CSCPS_CONNECTED := by
  refine ⟨by decide, by decide, by decide, by decide, by decide, by decide⟩

/-- The checks of the client configuration values keep the connection handle
of the request and the handle offsets of the environment. -/
theorem cscps_enable_chk_frame (c : cscps_task.EnableChk) :
    (cscps_task.enable_chk_ctnl_pt (cscps_task.enable_chk_meas c)).param.conhdl
      = c.param.conhdl ∧
    (cscps_task.enable_chk_ctnl_pt (cscps_task.enable_chk_meas c)).env.hdl_offset
      = c.env.hdl_offset := by
  unfold cscps_task.enable_chk_ctnl_pt cscps_task.enable_chk_meas
    cscps_task.CSCPS_ENABLE_NTFIND
  split_ifs <;> exact ⟨rfl, rfl⟩

/-- C19 (amended): `cscps_enable_req_handler` makes calls to the attribute
database followed by exactly one completion event with operation code
`CSCPS_ENABLE_OP_CODE` and a status.  With the status `PRF_ERR_OK` the task is
in `CSCPS_CONNECTED` afterwards; with any other status the completion event is
the only call and the state is the one the completion event leaves: unchanged,
except that a task in `CSCPS_BUSY` is taken to `CSCPS_CONNECTED`.  The status is
`PRF_ERR_REQ_DISALLOWED` when the task is not idle or the connection handle is
not in the connection table; `cscps_env` is then unchanged but for the
operation code, which the completion event sets to `CSCPS_RESERVED_OP_CODE`.
In the idle state, on a known connection that is not a discovery connection,
the status is `PRF_ERR_INVALID_PARAM`, with no attribute written and the state
still idle, when the CSC Measurement value is neither "stop" nor "start
notifications", or when the SC Control Point characteristic is in the database
and its value is neither "stop" nor "start indications". -/
theorem C19_enable_req (S : Stack) (env : cscps_task.cscps_env_tag) (state : Nat)
    (param : cscps_task.cscps_enable_req) (dest_id src_id : Nat) :
    (∃ status db,
      (cscps_task.cscps_enable_req_handler S env state param dest_id src_id).calls =
        db ++ [Call.cscps_send_cmp_evt dest_id src_id param.conhdl
          cscps_task.CSCPS_ENABLE_OP_CODE status] ∧
      (∀ c ∈ db, Call.isDbWrite c = true) ∧
      (status ≠ PRF_ERR_OK → db = []) ∧
      (cscps_task.cscps_enable_req_handler S env state param dest_id src_id).state =
        if status = PRF_ERR_OK then cscps_task.CSCPS_CONNECTED
        else if state = cscps_task.CSCPS_BUSY then cscps_task.CSCPS_CONNECTED else state) ∧
    ((state ≠ cscps_task.CSCPS_IDLE ∨ S.gap_get_rec_idx param.conhdl = GAP_INVALID_CONIDX) →
      (cscps_task.cscps_enable_req_handler S env state param dest_id src_id).calls =
        [Call.cscps_send_cmp_evt dest_id src_id param.conhdl cscps_task.CSCPS_ENABLE_OP_CODE
          PRF_ERR_REQ_DISALLOWED] ∧
      (cscps_task.cscps_enable_req_handler S env state param dest_id src_id).env =
        { env with operation := cscps_task.CSCPS_RESERVED_OP_CODE } ∧
      (cscps_task.cscps_enable_req_handler S env state param dest_id src_id).state =
        if state = cscps_task.CSCPS_BUSY then cscps_task.CSCPS_CONNECTED else state) ∧
    (state = cscps_task.CSCPS_IDLE → S.gap_get_rec_idx param.conhdl ≠ GAP_INVALID_CONIDX →
      param.con_type ≠ PRF_CON_DISCOVERY →
      ((param.csc_meas_ntf_cfg ≠ PRF_CLI_STOP_NTFIND ∧
          param.csc_meas_ntf_cfg ≠ PRF_CLI_START_NTF) ∨
        (env.hdl_offset cscps_task.CSCP_CSCS_SC_CTNL_PT_CHAR ≠ 0x00 ∧
          param.sc_ctnl_pt_ntf_cfg ≠ PRF_CLI_STOP_NTFIND ∧
          param.sc_ctnl_pt_ntf_cfg ≠ PRF_CLI_START_IND)) →
      (cscps_task.cscps_enable_req_handler S env state param dest_id src_id).calls =
        [Call.cscps_send_cmp_evt dest_id src_id param.conhdl cscps_task.CSCPS_ENABLE_OP_CODE
          PRF_ERR_INVALID_PARAM] ∧
      (cscps_task.cscps_enable_req_handler S env state param dest_id src_id).state
        = cscps_task.CSCPS_IDLE) := by
  have hcb : ¬ cscps_task.CSCPS_CONNECTED = cscps_task.CSCPS_BUSY := by decide
  have hib : ¬ cscps_task.CSCPS_IDLE = cscps_task.CSCPS_BUSY := by decide
  refine ⟨?_, ?_, ?_⟩
  · unfold cscps_task.cscps_enable_req_handler cscps_task.cscps_send_cmp_evt
    simp only [if_neg hcb]
    by_cases h0 : state = cscps_task.CSCPS_IDLE ∧
        S.gap_get_rec_idx param.conhdl ≠ GAP_INVALID_CONIDX
    · rw [if_pos h0]
      have hfr := cscps_enable_chk_frame
        ⟨{ env with con_info := ⟨param.conhdl, src_id, dest_id⟩,
                    prf_cfg := env.prf_cfg &&& cscps_task.CSCP_FEAT_ALL_SUPP }, param, PRF_ERR_OK⟩
      simp only [] at hfr
      simp only [hfr.1]
      split_ifs <;>
        simp only [List.append_assoc, List.singleton_append, List.cons_append,
          List.nil_append] <;>
        first
        | exact ⟨_, [_, _, _], rfl, by simp [Call.isDbWrite],
            fun hne => absurd (by assumption) hne, by simp [*]⟩
        | exact ⟨_, [_, _], rfl, by simp [Call.isDbWrite],
            fun hne => absurd (by assumption) hne, by simp [*]⟩
        | exact ⟨_, [], rfl, by simp, fun _ => rfl, by simp [*]⟩
    · rw [if_neg h0]
      have hne : ¬ PRF_ERR_REQ_DISALLOWED = PRF_ERR_OK := by decide
      exact ⟨PRF_ERR_REQ_DISALLOWED, [], rfl, by simp, fun _ => rfl, by rw [if_neg hne]⟩
  · intro h
    have h0 : ¬ (state = cscps_task.CSCPS_IDLE ∧
        S.gap_get_rec_idx param.conhdl ≠ GAP_INVALID_CONIDX) := by
      rintro ⟨h1, h2⟩
      rcases h with h | h
      · exact h h1
      · exact h2 h
    unfold cscps_task.cscps_enable_req_handler cscps_task.cscps_send_cmp_evt
    rw [if_neg h0]
    exact ⟨rfl, rfl, rfl⟩
  · intro hst hgap hcon hbad
    have hfr := cscps_enable_chk_frame
      ⟨{ env with con_info := ⟨param.conhdl, src_id, dest_id⟩,
                  prf_cfg := env.prf_cfg &&& cscps_task.CSCP_FEAT_ALL_SUPP }, param, PRF_ERR_OK⟩
    simp only [] at hfr
    have hstatus : (cscps_task.enable_chk_ctnl_pt (cscps_task.enable_chk_meas
        ⟨{ env with con_info := ⟨param.conhdl, src_id, dest_id⟩,
                    prf_cfg := env.prf_cfg &&& cscps_task.CSCP_FEAT_ALL_SUPP }, param,
          PRF_ERR_OK⟩)).status = PRF_ERR_INVALID_PARAM := by
      unfold cscps_task.enable_chk_ctnl_pt cscps_task.enable_chk_meas
        cscps_task.CSCPS_ENABLE_NTFIND
      rcases hbad with ⟨hm0, hm1⟩ | ⟨hoff, hs0, hs1⟩
      · simp [hcon, hm0, hm1, PRF_ERR_INVALID_PARAM, PRF_ERR_OK]
      · split_ifs <;> simp_all [PRF_ERR_INVALID_PARAM, PRF_ERR_OK]
    have hsb : ¬ state = cscps_task.CSCPS_BUSY := by rw [hst]; exact hib
    unfold cscps_task.cscps_enable_req_handler cscps_task.cscps_send_cmp_evt
    rw [if_pos ⟨hst, hgap⟩]
    simp only [hstatus, hfr.1]
    have hne : ¬ PRF_ERR_INVALID_PARAM = PRF_ERR_OK := by decide
    rw [if_neg hne, if_neg hsb]
    exact ⟨rfl, hst⟩

/-- Witness of the amended C19 at two requests on connection `1`.  The SC
Control Point characteristic is in the database (offset `8`), the task is idle
and the normal-connection request supplies `5` for the SC Control Point: the
only call is the completion event with `PRF_ERR_INVALID_PARAM` and the task
stays idle.  The task is busy sending a measurement and an enable request
arrives: the only call is the completion event with `PRF_ERR_REQ_DISALLOWED`,
the recorded operation is reset and the task is in `CSCPS_CONNECTED`. -/
theorem C19_enable_req_witness :
    ((cscps_task.cscps_enable_req_handler exStack (exCscpsEnv 0 0) cscps_task.CSCPS_IDLE
      (exCscpsEnable PRF_CLI_STOP_NTFIND 5) TASK_CSCPS 5).calls =
      [Call.cscps_send_cmp_evt TASK_CSCPS 5 1 cscps_task.CSCPS_ENABLE_OP_CODE
        PRF_ERR_INVALID_PARAM] ∧
    (cscps_task.cscps_enable_req_handler exStack (exCscpsEnv 0 0) cscps_task.CSCPS_IDLE
      (exCscpsEnable PRF_CLI_STOP_NTFIND 5) TASK_CSCPS 5).state = cscps_task.CSCPS_IDLE) ∧
    ((cscps_task.cscps_enable_req_handler exStack
        (exCscpsEnv 0 cscps_task.CSCPS_SEND_CSC_MEAS_OP_CODE) cscps_task.CSCPS_BUSY
        (exCscpsEnable PRF_CLI_STOP_NTFIND PRF_CLI_STOP_NTFIND) TASK_CSCPS 5).calls =
      [Call.cscps_send_cmp_evt TASK_CSCPS 5 1 cscps_task.CSCPS_ENABLE_OP_CODE
        PRF_ERR_REQ_DISALLOWED] ∧
    (cscps_task.cscps_enable_req_handler exStack
        (exCscpsEnv 0 cscps_task.CSCPS_SEND_CSC_MEAS_OP_CODE) cscps_task.CSCPS_BUSY
        (exCscpsEnable PRF_CLI_STOP_NTFIND PRF_CLI_STOP_NTFIND) TASK_CSCPS 5).env =
      exCscpsEnv 0 cscps_task.CSCPS_RESERVED_OP_CODE ∧
    (cscps_task.cscps_enable_req_handler exStack
        (exCscpsEnv 0 cscps_task.CSCPS_SEND_CSC_MEAS_OP_CODE) cscps_task.CSCPS_BUSY
        (exCscpsEnable PRF_CLI_STOP_NTFIND PRF_CLI_STOP_NTFIND) TASK_CSCPS 5).state =
      cscps_task.CSCPS_CONNECTED) :=
  ⟨(C19_enable_req exStack (exCscpsEnv 0 0) cscps_task.CSCPS_IDLE
      (exCscpsEnable PRF_CLI_STOP_NTFIND 5) TASK_CSCPS 5).2.2 rfl (by decide) (by decide)
      (Or.inr ⟨by decide, by decide, by decide⟩),
   (C19_enable_req exStack (exCscpsEnv 0 cscps_task.CSCPS_SEND_CSC_MEAS_OP_CODE)
      cscps_task.CSCPS_BUSY (exCscpsEnable PRF_CLI_STOP_NTFIND PRF_CLI_STOP_NTFIND)
      TASK_CSCPS 5).2.1 (Or.inl (by decide))⟩

/-- Clearing the bits of a mask twice is clearing them once. -/
theorem clr8_clr8 (x m : Nat) : clr8 (clr8 x m) m = clr8 x m := by
  apply Nat.eq_of_testBit_eq
  intro k
  rw [testBit_clr8, testBit_clr8]
  by_cases hk : k < 8 <;> cases x.testBit k <;> cases m.testBit k <;> simp [hk]

/-- C12: `glps_disable` is idempotent on the profile state.  After one call the
event configuration is `0`, the enable flag is clear and the task is in
`GLPS_IDLE`; a second call leaves the same environment and the same state.  The
`GLPS_DISABLE_IND` of the first call carries the event configuration that was
set before the call, the one of the second call carries `0`. -/
theorem C12_glps_disable_idempotent (env : glps.glps_env_tag)
    (state status1 status2 : Nat) :
    (glps.glps_disable (glps.glps_disable env state status1).env
        (glps.glps_disable env state status1).state status2).env
      = (glps.glps_disable env state status1).env ∧
    (glps.glps_disable (glps.glps_disable env state status1).env
        (glps.glps_disable env state status1).state status2).state
      = (glps.glps_disable env state status1).state ∧
    (glps.glps_disable env state status1).env.evt_cfg = 0 ∧
    (glps.glps_disable env state status1).env.flags &&& glps.GLPS_ENABLE_FLAG = 0 ∧
    (glps.glps_disable env state status1).state = glps.GLPS_IDLE ∧
    (glps.glps_disable env state status1).calls =
      [Call.attsdb_svc_set_permission env.shdl glps.PERM_RIGHT_DISABLE,
       Call.ke_msg_send ⟨.GLPS_DISABLE_IND, env.con_info.appid, glps.TASK_GLPS,
         .glps_disable_ind env.con_info.conhdl env.evt_cfg⟩] ∧
    (glps.glps_disable (glps.glps_disable env state status1).env
        (glps.glps_disable env state status1).state status2).calls =
      [Call.attsdb_svc_set_permission env.shdl glps.PERM_RIGHT_DISABLE,
       Call.ke_msg_send ⟨.GLPS_DISABLE_IND, env.con_info.appid, glps.TASK_GLPS,
         .glps_disable_ind env.con_info.conhdl 0⟩] := by
  refine ⟨?_, rfl, rfl, ?_, rfl, rfl, rfl⟩
  · simp only [glps.glps_disable, clr8_clr8]
  · exact clr8_and_mask _ _

/-- C15 (evaluation at the failing input): two buffers agree on their first two
bytes - operation code "report stored records", operator "less than or equal"
- and differ in the byte at index 2; the length is 2.  The function reads the
byte at index 2 as filter type: for the first buffer it returns `PRF_APP_ERROR`,
for the second `GLP_RSP_OPERAND_NOT_SUP`, and the parsed requests carry the
filter types `1` and `7`. -/
theorem C15_unpack_racp_req_reads_past_length :
    (∀ k, k < 2 → exBuf [1, 2, 1] k = exBuf [1, 2, 7] k) ∧
    (glps.glps_unpack_racp_req (exBuf [1, 2, 1]) 2 exRacpReq).1 = PRF_APP_ERROR ∧
    (glps.glps_unpack_racp_req (exBuf [1, 2, 7]) 2 exRacpReq).1 = glps.GLP_RSP_OPERAND_NOT_SUP ∧
    (glps.glps_unpack_racp_req (exBuf [1, 2, 1]) 2 exRacpReq).2.filter.filter_type = 1 ∧
    (glps.glps_unpack_racp_req (exBuf [1, 2, 7]) 2 exRacpReq).2.filter.filter_type = 7 ∧
    (glps.glps_unpack_racp_req (exBuf [1, 2, 1]) 2 exRacpReq).1 ≠
      (glps.glps_unpack_racp_req (exBuf [1, 2, 7]) 2 exRacpReq).1 := by
  refine ⟨?_, by decide, by decide, by decide, by decide, by decide⟩
  intro k hk
  have h : k = 0 ∨ k = 1 := by omega
  rcases h with h | h <;> subst h <;> rfl

/-- The branches of `glps_unpack_racp_req` that parse the operand keep the
operation code and the operator of the request. -/
theorem glps_unpack_operand_frame (packed_val : Nat → Nat) (length cursor : Nat)
    (req : glps.glp_racp_req) :
    ((glps.unpack_seq_num packed_val length req cursor).2.op_code = req.op_code ∧
      (glps.unpack_seq_num packed_val length req cursor).2.filter.operator
        = req.filter.operator) ∧
    ((glps.unpack_time packed_val length req cursor).2.op_code = req.op_code ∧
      (glps.unpack_time packed_val length req cursor).2.filter.operator
        = req.filter.operator) := by
  unfold glps.unpack_seq_num glps.unpack_time glps.unpack_seq_num_max glps.unpack_time_max
  simp only []
  refine ⟨?_, ?_⟩ <;> split_ifs <;> exact ⟨rfl, rfl⟩

/-- C16: the precedence of the classification of a record access request by
`glps_unpack_racp_req`, for every buffer, length and prior content of the
result structure.  A length below 2 gives `PRF_APP_ERROR`.  Otherwise an
operation code (byte 0) outside `[GLP_REQ_REP_STRD_RECS,
GLP_REQ_REP_NUM_OF_STRD_RECS]` gives `GLP_RSP_OP_CODE_NOT_SUP`; otherwise the
abort operation code gives `PRF_ERR_OK` whatever the operator; otherwise an
operator (byte 1) outside `[GLP_OP_ALL_RECS, GLP_OP_LAST_REC]` gives
`GLP_RSP_OPERATOR_NOT_SUP`; otherwise, for an operator that takes an operand, a
filter type (byte 2) that is neither sequence number nor user facing time gives
`GLP_RSP_OPERAND_NOT_SUP`.  With a length of at least 2 the parsed request
carries byte 0 as operation code and byte 1 as operator. -/
theorem C16_unpack_racp_req_precedence (packed_val : Nat → Nat) (length : Nat)
    (racp_req : glps.glp_racp_req) :
    (length < 2 →
      (glps.glps_unpack_racp_req packed_val length racp_req).1 = PRF_APP_ERROR) ∧
    (2 ≤ length →
      (packed_val 0 < glps.GLP_REQ_REP_STRD_RECS ∨
        packed_val 0 > glps.GLP_REQ_REP_NUM_OF_STRD_RECS) →
      (glps.glps_unpack_racp_req packed_val length racp_req).1
        = glps.GLP_RSP_OP_CODE_NOT_SUP) ∧
    (2 ≤ length → packed_val 0 = glps.GLP_REQ_ABORT_OP →
      (glps.glps_unpack_racp_req packed_val length racp_req).1 = PRF_ERR_OK) ∧
    (2 ≤ length →
      glps.GLP_REQ_REP_STRD_RECS ≤ packed_val 0 →
      packed_val 0 ≤ glps.GLP_REQ_REP_NUM_OF_STRD_RECS →
      packed_val 0 ≠ glps.GLP_REQ_ABORT_OP →
      (packed_val 1 < glps.GLP_OP_ALL_RECS ∨ packed_val 1 > glps.GLP_OP_LAST_REC) →
      (glps.glps_unpack_racp_req packed_val length racp_req).1
        = glps.GLP_RSP_OPERATOR_NOT_SUP) ∧
    (2 ≤ length →
      glps.GLP_REQ_REP_STRD_RECS ≤ packed_val 0 →
      packed_val 0 ≤ glps.GLP_REQ_REP_NUM_OF_STRD_RECS →
      packed_val 0 ≠ glps.GLP_REQ_ABORT_OP →
      glps.GLP_OP_LT_OR_EQ ≤ packed_val 1 → packed_val 1 ≤ glps.GLP_OP_WITHIN_RANGE_OF →
      packed_val 2 ≠ glps.GLP_FILTER_SEQ_NUMBER →
      packed_val 2 ≠ glps.GLP_FILTER_USER_FACING_TIME →
      (glps.glps_unpack_racp_req packed_val length racp_req).1
        = glps.GLP_RSP_OPERAND_NOT_SUP) ∧
    (2 ≤ length →
      (glps.glps_unpack_racp_req packed_val length racp_req).2.op_code = packed_val 0 ∧
      (glps.glps_unpack_racp_req packed_val length racp_req).2.filter.operator
        = packed_val 1) := by
  refine ⟨?_, ?_, ?_, ?_, ?_, ?_⟩
  · intro h
    unfold glps.glps_unpack_racp_req
    rw [if_pos h]
  · intro hl hop
    unfold glps.glps_unpack_racp_req
    rw [if_neg (by omega)]
    simp only []
    rw [if_pos hop]
  · intro hl hop
    have hn : ¬ (packed_val 0 < glps.GLP_REQ_REP_STRD_RECS ∨
        packed_val 0 > glps.GLP_REQ_REP_NUM_OF_STRD_RECS) := by
      rw [hop]
      decide
    unfold glps.glps_unpack_racp_req
    rw [if_neg (by omega)]
    simp only []
    rw [if_neg hn, if_pos hop]
  · intro hl h1 h2 h3 hor
    have hn : ¬ (packed_val 0 < glps.GLP_REQ_REP_STRD_RECS ∨
        packed_val 0 > glps.GLP_REQ_REP_NUM_OF_STRD_RECS) := by omega
    unfold glps.glps_unpack_racp_req
    rw [if_neg (by omega)]
    simp only []
    rw [if_neg hn, if_neg h3, if_pos hor]
  · intro hl h1 h2 h3 h4 h5 h6 h7
    have hn : ¬ (packed_val 0 < glps.GLP_REQ_REP_STRD_RECS ∨
        packed_val 0 > glps.GLP_REQ_REP_NUM_OF_STRD_RECS) := by omega
    have hor : ¬ (packed_val 1 < glps.GLP_OP_ALL_RECS ∨ packed_val 1 > glps.GLP_OP_LAST_REC) := by
      simp only [glps.GLP_OP_ALL_RECS, glps.GLP_OP_LAST_REC, glps.GLP_OP_LT_OR_EQ,
        glps.GLP_OP_WITHIN_RANGE_OF] at *
      omega
    unfold glps.glps_unpack_racp_req
    rw [if_neg (by omega)]
    simp only []
    rw [if_neg hn, if_neg h3, if_neg hor, if_pos ⟨h4, h5⟩, if_neg (by omega), if_neg h6,
      if_neg h7]
  · intro hl
    have hs := fun r => (glps_unpack_operand_frame packed_val length 3 r).1
    have ht := fun r => (glps_unpack_operand_frame packed_val length 3 r).2
    unfold glps.glps_unpack_racp_req
    rw [if_neg (by omega)]
    simp only []
    split_ifs <;> first | exact ⟨rfl, rfl⟩ | exact hs _ | exact ht _

/-- Witness of C16: requests of length 3.  Operation code `9` is not supported;
the abort operation code is accepted with the operator `0xFF`; operator `7` is
not supported; the filter type `5` of an operator with operand is not
supported. -/
theorem C16_unpack_racp_req_precedence_witness :
    (glps.glps_unpack_racp_req (exBuf [9, 1, 0]) 3 exRacpReq).1 = glps.GLP_RSP_OP_CODE_NOT_SUP ∧
    (glps.glps_unpack_racp_req (exBuf [3, 0xFF, 0]) 3 exRacpReq).1 = PRF_ERR_OK ∧
    (glps.glps_unpack_racp_req (exBuf [1, 7, 0]) 3 exRacpReq).1
      = glps.GLP_RSP_OPERATOR_NOT_SUP ∧
    (glps.glps_unpack_racp_req (exBuf [1, 2, 5]) 3 exRacpReq).1
      = glps.GLP_RSP_OPERAND_NOT_SUP ∧
    ((glps.glps_unpack_racp_req (exBuf [1, 2, 5]) 3 exRacpReq).2.op_code = 1 ∧
      (glps.glps_unpack_racp_req (exBuf [1, 2, 5]) 3 exRacpReq).2.filter.operator = 2) :=
  ⟨(C16_unpack_racp_req_precedence (exBuf [9, 1, 0]) 3 exRacpReq).2.1 (by decide)
      (Or.inr (by decide)),
   (C16_unpack_racp_req_precedence (exBuf [3, 0xFF, 0]) 3 exRacpReq).2.2.1 (by decide) rfl,
   (C16_unpack_racp_req_precedence (exBuf [1, 7, 0]) 3 exRacpReq).2.2.2.1 (by decide)
      (by decide) (by decide) (by decide) (Or.inr (by decide)),
   (C16_unpack_racp_req_precedence (exBuf [1, 2, 5]) 3 exRacpReq).2.2.2.2.1 (by decide)
      (by decide) (by decide) (by decide) (by decide) (by decide) (by decide) (by decide),
   (C16_unpack_racp_req_precedence (exBuf [1, 2, 5]) 3 exRacpReq).2.2.2.2.2 (by decide)⟩

/-- An optional byte written at the cursor appends the group of that byte. -/
theorem packed_ite_put8 (c : Prop) [Decidable c] (l : List Nat) (n v : Nat) :
    (if c then (glps.Packed.mk l n).put8 v else glps.Packed.mk l n)
      = glps.Packed.mk (l ++ glp_seg c [u8 v]) (n + (if c then 1 else 0)) := by
  unfold glp_seg glps.Packed.put8
  split_ifs <;> simp

/-- An optional 16-bit word written at the cursor appends the group of its two
bytes. -/
theorem packed_ite_put16 (c : Prop) [Decidable c] (l : List Nat) (n v : Nat) :
    (if c then (glps.Packed.mk l n).put16 v else glps.Packed.mk l n)
      = glps.Packed.mk (l ++ glp_seg c (bytes16 v)) (n + (if c then 2 else 0)) := by
  unfold glp_seg glps.Packed.put16
  split_ifs <;> simp

/-- An optional byte followed by a 16-bit word appends the group of the three
bytes. -/
theorem packed_ite_put8_put16 (c : Prop) [Decidable c] (l : List Nat) (n v w : Nat) :
    (if c then ((glps.Packed.mk l n).put8 v).put16 w else glps.Packed.mk l n)
      = glps.Packed.mk (l ++ glp_seg c ([u8 v] ++ bytes16 w)) (n + (if c then 3 else 0)) := by
  unfold glp_seg glps.Packed.put16 glps.Packed.put8
  split_ifs <;> simp

/-- An optional 16-bit word followed by a byte appends the group of the three
bytes. -/
theorem packed_ite_put16_put8 (c : Prop) [Decidable c] (l : List Nat) (n v w : Nat) :
    (if c then ((glps.Packed.mk l n).put16 v).put8 w else glps.Packed.mk l n)
      = glps.Packed.mk (l ++ glp_seg c (bytes16 v ++ [u8 w])) (n + (if c then 3 else 0)) := by
  unfold glp_seg glps.Packed.put16 glps.Packed.put8
  split_ifs <;> simp

/-- The packing function writes the layout and counts its bytes. -/
theorem glps_pack_meas_ctx_value_eq (m : glps.glp_meas_ctx) (seq_num : Nat) :
    glps.glps_pack_meas_ctx_value m seq_num =
      glps.Packed.mk (glps_meas_ctx_layout m seq_num)
        (3 + (if m.flags &&& glps.GLP_CTX_EXTD_F_PRES ≠ 0 then 1 else 0)
        + (if m.flags &&& glps.GLP_CTX_CRBH_ID_AND_CRBH_PRES ≠ 0 then 3 else 0)
        + (if m.flags &&& glps.GLP_CTX_MEAL_PRES ≠ 0 then 1 else 0)
        + (if m.flags &&& glps.GLP_CTX_TESTER_HEALTH_PRES ≠ 0 then 1 else 0)
        + (if m.flags &&& glps.GLP_CTX_EXE_DUR_AND_EXE_INTENS_PRES ≠ 0 then 3 else 0)
        + (if m.flags &&& glps.GLP_CTX_MEDIC_ID_AND_MEDIC_PRES ≠ 0 then 3 else 0)
        + (if m.flags &&& glps.GLP_CTX_HBA1C_PRES ≠ 0 then 2 else 0)) := by
  have h0 : (glps.Packed.put8 ⟨[], 0⟩ m.flags).put16 seq_num
      = glps.Packed.mk ([u8 m.flags] ++ bytes16 seq_num) 3 := rfl
  unfold glps.glps_pack_meas_ctx_value glps_meas_ctx_layout
  simp only [h0, packed_ite_put8, packed_ite_put16, packed_ite_put8_put16,
    packed_ite_put16_put8]

/-- Length of an optional group. -/
theorem glp_seg_length (c : Prop) [Decidable c] (l : List Nat) :
    (glp_seg c l).length = if c then l.length else 0 := by
  unfold glp_seg
  split_ifs <;> simp

/-- Length of the layout: 3 plus the sizes of the groups present. -/
theorem glps_meas_ctx_layout_length (m : glps.glp_meas_ctx) (seq_num : Nat) :
    (glps_meas_ctx_layout m seq_num).length =
        3 + (if m.flags &&& glps.GLP_CTX_EXTD_F_PRES ≠ 0 then 1 else 0)
        + (if m.flags &&& glps.GLP_CTX_CRBH_ID_AND_CRBH_PRES ≠ 0 then 3 else 0)
        + (if m.flags &&& glps.GLP_CTX_MEAL_PRES ≠ 0 then 1 else 0)
        + (if m.flags &&& glps.GLP_CTX_TESTER_HEALTH_PRES ≠ 0 then 1 else 0)
        + (if m.flags &&& glps.GLP_CTX_EXE_DUR_AND_EXE_INTENS_PRES ≠ 0 then 3 else 0)
        + (if m.flags &&& glps.GLP_CTX_MEDIC_ID_AND_MEDIC_PRES ≠ 0 then 3 else 0)
        + (if m.flags &&& glps.GLP_CTX_HBA1C_PRES ≠ 0 then 2 else 0) := by
  unfold glps_meas_ctx_layout
  simp only [List.length_append, glp_seg_length, bytes16, List.length_cons, List.length_nil,
    List.length_singleton]

/-- Two measurement contexts with the same flags that agree on the fields of
the groups present have the same layout. -/
theorem glps_meas_ctx_layout_congr (m1 m2 : glps.glp_meas_ctx) (seq_num : Nat)
    (hflags : m1.flags = m2.flags)
    (hext : m1.flags &&& glps.GLP_CTX_EXTD_F_PRES ≠ 0 → m1.ext_flags = m2.ext_flags)
    (hcrb : m1.flags &&& glps.GLP_CTX_CRBH_ID_AND_CRBH_PRES ≠ 0 →
      m1.carbo_id = m2.carbo_id ∧ m1.carbo_val = m2.carbo_val)
    (hmeal : m1.flags &&& glps.GLP_CTX_MEAL_PRES ≠ 0 → m1.meal = m2.meal)
    (hth : m1.flags &&& glps.GLP_CTX_TESTER_HEALTH_PRES ≠ 0 →
      m1.tester = m2.tester ∧ m1.health = m2.health)
    (hexe : m1.flags &&& glps.GLP_CTX_EXE_DUR_AND_EXE_INTENS_PRES ≠ 0 →
      m1.exercise_dur = m2.exercise_dur ∧ m1.exercise_intens = m2.exercise_intens)
    (hmed : m1.flags &&& glps.GLP_CTX_MEDIC_ID_AND_MEDIC_PRES ≠ 0 →
      m1.med_id = m2.med_id ∧ m1.med_val = m2.med_val)
    (hhba : m1.flags &&& glps.GLP_CTX_HBA1C_PRES ≠ 0 → m1.hba1c_val = m2.hba1c_val) :
    glps_meas_ctx_layout m1 seq_num = glps_meas_ctx_layout m2 seq_num := by
  have seg_congr : ∀ (c : Prop) [Decidable c] (l1 l2 : List Nat), (c → l1 = l2) →
      glp_seg c l1 = glp_seg c l2 := by
    intro c _ l1 l2 h
    unfold glp_seg
    split_ifs with hc
    · exact h hc
    · rfl
  unfold glps_meas_ctx_layout
  rw [← hflags]
  rw [seg_congr _ [u8 m1.ext_flags] [u8 m2.ext_flags] (fun h => by rw [hext h]),
    seg_congr _ ([u8 m1.carbo_id] ++ bytes16 m1.carbo_val) ([u8 m2.carbo_id] ++ bytes16 m2.carbo_val)
      (fun h => by rw [(hcrb h).1, (hcrb h).2]),
    seg_congr _ [u8 m1.meal] [u8 m2.meal] (fun h => by rw [hmeal h]),
    seg_congr _ [u8 ((m1.tester <<< 4) ||| m1.health)] [u8 ((m2.tester <<< 4) ||| m2.health)]
      (fun h => by rw [(hth h).1, (hth h).2]),
    seg_congr _ (bytes16 m1.exercise_dur ++ [u8 m1.exercise_intens])
      (bytes16 m2.exercise_dur ++ [u8 m2.exercise_intens])
      (fun h => by rw [(hexe h).1, (hexe h).2]),
    seg_congr _ ([u8 m1.med_id] ++ bytes16 m1.med_val) ([u8 m2.med_id] ++ bytes16 m2.med_val)
      (fun h => by rw [(hmed h).1, (hmed h).2]),
    seg_congr _ (bytes16 m1.hba1c_val) (bytes16 m2.hba1c_val) (fun h => by rw [hhba h])]

/-- C14: the packed glucose measurement context is flag-driven.  Two
measurement contexts with the same flags that agree on every field whose
presence flag is set are packed, with the same sequence number, into the same
bytes and the same length.  Byte 0 is the flags and bytes 1-2 the sequence
number, little-endian, and the bytes are those of the layout (groups in fixed
order, words little-endian); the returned length is the number of bytes written, 3
plus the sizes of the groups that the flags select (extended flags 1,
carbohydrate 3, meal 1, tester-health 1, exercise 3, medication 3, HbA1c 2),
hence between 3 and 17. -/
theorem C14_pack_meas_ctx_flag_driven (m1 m2 : glps.glp_meas_ctx) (seq_num : Nat)
    (hflags : m1.flags = m2.flags)
    (hext : m1.flags &&& glps.GLP_CTX_EXTD_F_PRES ≠ 0 → m1.ext_flags = m2.ext_flags)
    (hcrb : m1.flags &&& glps.GLP_CTX_CRBH_ID_AND_CRBH_PRES ≠ 0 →
      m1.carbo_id = m2.carbo_id ∧ m1.carbo_val = m2.carbo_val)
    (hmeal : m1.flags &&& glps.GLP_CTX_MEAL_PRES ≠ 0 → m1.meal = m2.meal)
    (hth : m1.flags &&& glps.GLP_CTX_TESTER_HEALTH_PRES ≠ 0 →
      m1.tester = m2.tester ∧ m1.health = m2.health)
    (hexe : m1.flags &&& glps.GLP_CTX_EXE_DUR_AND_EXE_INTENS_PRES ≠ 0 →
      m1.exercise_dur = m2.exercise_dur ∧ m1.exercise_intens = m2.exercise_intens)
    (hmed : m1.flags &&& glps.GLP_CTX_MEDIC_ID_AND_MEDIC_PRES ≠ 0 →
      m1.med_id = m2.med_id ∧ m1.med_val = m2.med_val)
    (hhba : m1.flags &&& glps.GLP_CTX_HBA1C_PRES ≠ 0 → m1.hba1c_val = m2.hba1c_val) :
    glps.glps_pack_meas_ctx_value m1 seq_num = glps.glps_pack_meas_ctx_value m2 seq_num ∧
    (glps.glps_pack_meas_ctx_value m1 seq_num).bytes = glps_meas_ctx_layout m1 seq_num ∧
    (glps.glps_pack_meas_ctx_value m1 seq_num).bytes.take 3
      = [u8 m1.flags, u8 seq_num, u8 (seq_num / 256)] ∧
    (glps.glps_pack_meas_ctx_value m1 seq_num).cursor
      = (glps.glps_pack_meas_ctx_value m1 seq_num).bytes.length ∧
    (glps.glps_pack_meas_ctx_value m1 seq_num).cursor =
      3 + (if m1.flags &&& glps.GLP_CTX_EXTD_F_PRES ≠ 0 then 1 else 0)
        + (if m1.flags &&& glps.GLP_CTX_CRBH_ID_AND_CRBH_PRES ≠ 0 then 3 else 0)
        + (if m1.flags &&& glps.GLP_CTX_MEAL_PRES ≠ 0 then 1 else 0)
        + (if m1.flags &&& glps.GLP_CTX_TESTER_HEALTH_PRES ≠ 0 then 1 else 0)
        + (if m1.flags &&& glps.GLP_CTX_EXE_DUR_AND_EXE_INTENS_PRES ≠ 0 then 3 else 0)
        + (if m1.flags &&& glps.GLP_CTX_MEDIC_ID_AND_MEDIC_PRES ≠ 0 then 3 else 0)
        + (if m1.flags &&& glps.GLP_CTX_HBA1C_PRES ≠ 0 then 2 else 0) ∧
    3 ≤ (glps.glps_pack_meas_ctx_value m1 seq_num).cursor ∧
    (glps.glps_pack_meas_ctx_value m1 seq_num).cursor ≤ 17 := by
  have e1 := glps_pack_meas_ctx_value_eq m1 seq_num
  have e2 := glps_pack_meas_ctx_value_eq m2 seq_num
  have hl := glps_meas_ctx_layout_congr m1 m2 seq_num hflags hext hcrb hmeal hth hexe hmed hhba
  refine ⟨?_, ?_, ?_, ?_, ?_, ?_, ?_⟩
  · rw [e1, e2, hl, ← hflags]
  · rw [e1]
  · rw [e1]
    unfold glps_meas_ctx_layout
    simp [bytes16]
  · rw [e1]
    exact (glps_meas_ctx_layout_length m1 seq_num).symm
  · rw [e1]
  · rw [e1]
    simp only []
    omega
  · rw [e1]
    simp only []
    split_ifs <;> omega

/-- C14 at two measurement contexts with the tester-health group alone that
differ in the fields of absent groups. -/
theorem C14_pack_meas_ctx_flag_driven_witness :
    glps.glps_pack_meas_ctx_value (exMeasCtx 1 5) 7
      = glps.glps_pack_meas_ctx_value { exMeasCtx 1 5 with meal := 9, hba1c_val := 3 } 7 ∧
    (glps.glps_pack_meas_ctx_value (exMeasCtx 1 5) 7).bytes = [4, 7, 0, 21] ∧
    (glps.glps_pack_meas_ctx_value (exMeasCtx 1 5) 7).cursor = 4 :=
  have h := C14_pack_meas_ctx_flag_driven (exMeasCtx 1 5)
    { exMeasCtx 1 5 with meal := 9, hba1c_val := 3 } 7 rfl (fun _ => rfl) (fun _ => ⟨rfl, rfl⟩)
    (fun h => absurd rfl h) (fun _ => ⟨rfl, rfl⟩) (fun _ => ⟨rfl, rfl⟩) (fun _ => ⟨rfl, rfl⟩)
    (fun h => absurd rfl h)
  ⟨h.1, by decide, by decide⟩

/-- Truncation to `uint8_t` of a value in range. -/
theorem u8_of_lt {x : Nat} (h : x < 256) : u8 x = x := Nat.mod_eq_of_lt h

/-- A value shifted left and joined with a value below the shift is their sum. -/
theorem shiftLeft_or_eq_add {a b i : Nat} (h : b < 2 ^ i) : (a <<< i) ||| b = 2 ^ i * a + b := by
  rw [Nat.mul_add_lt_is_or h a, Nat.shiftLeft_eq, Nat.mul_comm]

/-- Reading the two bytes of a 16-bit word gives the word back. -/
theorem co_read16p_bytes16 {v : Nat} (h : v < 65536) :
    co_read16p (u8 v) (u8 (v / 256)) = v := by
  unfold co_read16p u8
  have h1 : v / 256 < 256 := by omega
  rw [Nat.mod_mod, Nat.mod_mod, Nat.mod_eq_of_lt h1, Nat.lor_comm,
    shiftLeft_or_eq_add (by omega : v % 256 < 2 ^ 8)]
  omega

/-- The two nibbles of the tester-health byte are the tester and the health
values when both are below 16. -/
theorem glp_nibbles {t h : Nat} (ht : t < 16) (hh : h < 16) :
    u8 ((t <<< 4) ||| h) >>> 4 = t ∧ u8 ((t <<< 4) ||| h) &&& 0x0F = h := by
  rw [shiftLeft_or_eq_add (by omega : h < 2 ^ 4)]
  unfold u8
  rw [Nat.mod_eq_of_lt (by omega), Nat.shiftRight_eq_div_pow]
  refine ⟨by omega, ?_⟩
  have := Nat.and_pow_two_sub_one_eq_mod (2 ^ 4 * t + h) 4
  simp only [Nat.reducePow, Nat.reduceSub] at this
  simp only [Nat.reducePow]
  rw [this]
  omega

/-- Skipping an optional group of one byte. -/
theorem glp_skip_seg1 (c : Prop) [Decidable c] (a : Nat) (t : List Nat) :
    glp_skip c 1 (glp_seg c [a] ++ t) = t := by
  unfold glp_skip glp_seg
  split_ifs <;> simp

/-- Skipping an optional group of three bytes. -/
theorem glp_skip_seg3 (c : Prop) [Decidable c] (a b d : Nat) (t : List Nat) :
    glp_skip c 3 (glp_seg c [a, b, d] ++ t) = t := by
  unfold glp_skip glp_seg
  split_ifs <;> simp

/-- Reading the first byte of a group that is present. -/
theorem glp_rd8_seg (c : Prop) [Decidable c] (a : Nat) (s t : List Nat) :
    (if c then glp_rd8 (glp_seg c (a :: s) ++ t) else 0) = if c then a else 0 := by
  unfold glp_rd8 glp_seg
  split_ifs <;> simp

/-- Reading the high bits of the first byte of a group that is present. -/
theorem glp_rd8_seg_shr (c : Prop) [Decidable c] (a k : Nat) (s t : List Nat) :
    (if c then glp_rd8 (glp_seg c (a :: s) ++ t) >>> k else 0) = if c then a >>> k else 0 := by
  unfold glp_rd8 glp_seg
  split_ifs <;> simp

/-- Reading the low bits of the first byte of a group that is present. -/
theorem glp_rd8_seg_and (c : Prop) [Decidable c] (a k : Nat) (s t : List Nat) :
    (if c then glp_rd8 (glp_seg c (a :: s) ++ t) &&& k else 0) = if c then a &&& k else 0 := by
  unfold glp_rd8 glp_seg
  split_ifs <;> simp

/-- Reading the first word of a group that is present. -/
theorem glp_rd16_seg (c : Prop) [Decidable c] (a b : Nat) (s t : List Nat) :
    (if c then glp_rd16 (glp_seg c (a :: b :: s) ++ t) else 0)
      = if c then co_read16p a b else 0 := by
  unfold glp_rd16 glp_seg
  split_ifs <;> simp

/-- Reading the word after the first byte of a group that is present. -/
theorem glp_rd16_seg_drop1 (c : Prop) [Decidable c] (x a b : Nat) (s t : List Nat) :
    (if c then glp_rd16 ((glp_seg c (x :: a :: b :: s) ++ t).drop 1) else 0)
      = if c then co_read16p a b else 0 := by
  unfold glp_rd16 glp_seg
  split_ifs <;> simp

/-- Reading the byte after the first word of a group that is present. -/
theorem glp_rd8_seg_drop2 (c : Prop) [Decidable c] (x y a : Nat) (s t : List Nat) :
    (if c then glp_rd8 ((glp_seg c (x :: y :: a :: s) ++ t).drop 2) else 0)
      = if c then a else 0 := by
  unfold glp_rd8 glp_seg
  split_ifs <;> simp

/-- Reading the word of the last group when it is present. -/
theorem glp_rd16_seg_last (c : Prop) [Decidable c] (a b : Nat) :
    (if c then glp_rd16 (glp_seg c [a, b]) else 0) = if c then co_read16p a b else 0 := by
  unfold glp_rd16 glp_seg
  split_ifs <;> simp

/-- Two conditional values are equal when they are equal under the condition. -/
theorem ite_congr_of {c : Prop} [Decidable c] {a b : Nat} (h : c → a = b) :
    (if c then a else 0) = if c then b else 0 := by
  split_ifs with hc
  · exact h hc
  · rfl

/-- Unpacking the layout of a measurement context returns the sequence number
and the measurement context with the fields of absent groups cleared. -/
theorem glps_unpack_layout (m : glps.glp_meas_ctx) (seq_num : Nat)
    (hr : glp_meas_ctx_in_range m) (hseq : seq_num < 65536)
    (hn : m.flags &&& glps.GLP_CTX_TESTER_HEALTH_PRES ≠ 0 → m.tester < 16 ∧ m.health < 16) :
    glps_unpack_meas_ctx_value (glps_meas_ctx_layout m seq_num)
      = (glp_meas_ctx_selected m, seq_num) := by
  obtain ⟨h1, h2, h3, h4, h5, h6, h7, h8, h9, h10, h11, h12⟩ := hr
  unfold glps_unpack_meas_ctx_value glps_meas_ctx_layout glp_meas_ctx_selected
  simp only [List.append_assoc, bytes16, List.singleton_append, List.cons_append,
    List.nil_append]
  have r8 : ∀ (a : Nat) (l : List Nat), glp_rd8 (a :: l) = a := fun _ _ => rfl
  have r16 : ∀ (a b : Nat) (l : List Nat), glp_rd16 (a :: b :: l) = co_read16p a b :=
    fun _ _ _ => rfl
  have d1 : ∀ (a : Nat) (l : List Nat), (a :: l).drop 1 = l := fun _ _ => rfl
  have d3 : ∀ (a b c : Nat) (l : List Nat), (a :: b :: c :: l).drop 3 = l := fun _ _ _ _ => rfl
  simp only [r8, d1, d3, r16, u8_of_lt h11, glp_skip_seg1, glp_skip_seg3]
  simp only [glp_rd8_seg, glp_rd8_seg_shr, glp_rd8_seg_and, glp_rd16_seg, glp_rd16_seg_drop1,
    glp_rd8_seg_drop2, glp_rd16_seg_last, u8_of_lt h5, u8_of_lt h6, u8_of_lt h9, u8_of_lt h10,
    u8_of_lt h12, co_read16p_bytes16 h1, co_read16p_bytes16 h2, co_read16p_bytes16 h3,
    co_read16p_bytes16 h4, co_read16p_bytes16 hseq]
  have ht : (if m.flags &&& glps.GLP_CTX_TESTER_HEALTH_PRES ≠ 0
      then u8 ((m.tester <<< 4) ||| m.health) >>> 4 else 0)
      = if m.flags &&& glps.GLP_CTX_TESTER_HEALTH_PRES ≠ 0 then m.tester else 0 :=
    ite_congr_of (fun h => (glp_nibbles (hn h).1 (hn h).2).1)
  have hh : (if m.flags &&& glps.GLP_CTX_TESTER_HEALTH_PRES ≠ 0
      then u8 ((m.tester <<< 4) ||| m.health) &&& 15 else 0)
      = if m.flags &&& glps.GLP_CTX_TESTER_HEALTH_PRES ≠ 0 then m.health else 0 :=
    ite_congr_of (fun h => (glp_nibbles (hn h).1 (hn h).2).2)
  rw [ht, hh]

/-- The fields of the present groups are those of the measurement context after
the fields of the absent groups are cleared. -/
theorem glp_meas_ctx_selected_fields (m r : glps.glp_meas_ctx)
    (h : r = glp_meas_ctx_selected m) :
    r.flags = m.flags ∧
    (m.flags &&& glps.GLP_CTX_EXTD_F_PRES ≠ 0 → r.ext_flags = m.ext_flags) ∧
    (m.flags &&& glps.GLP_CTX_CRBH_ID_AND_CRBH_PRES ≠ 0 →
      r.carbo_id = m.carbo_id ∧ r.carbo_val = m.carbo_val) ∧
    (m.flags &&& glps.GLP_CTX_MEAL_PRES ≠ 0 → r.meal = m.meal) ∧
    (m.flags &&& glps.GLP_CTX_TESTER_HEALTH_PRES ≠ 0 →
      r.tester = m.tester ∧ r.health = m.health) ∧
    (m.flags &&& glps.GLP_CTX_EXE_DUR_AND_EXE_INTENS_PRES ≠ 0 →
      r.exercise_dur = m.exercise_dur ∧ r.exercise_intens = m.exercise_intens) ∧
    (m.flags &&& glps.GLP_CTX_MEDIC_ID_AND_MEDIC_PRES ≠ 0 →
      r.med_id = m.med_id ∧ r.med_val = m.med_val) ∧
    (m.flags &&& glps.GLP_CTX_HBA1C_PRES ≠ 0 → r.hba1c_val = m.hba1c_val) := by
  subst h
  unfold glp_meas_ctx_selected
  refine ⟨rfl, ?_, ?_, ?_, ?_, ?_, ?_, ?_⟩ <;> intro hc <;> simp only [if_pos hc] <;> trivial

/-- Two measurement contexts that are equal after the fields of the absent
groups are cleared have the same flags and agree on the fields of the present
groups. -/
theorem glp_meas_ctx_selected_agree (m1 m2 : glps.glp_meas_ctx)
    (h : glp_meas_ctx_selected m1 = glp_meas_ctx_selected m2) :
    m1.flags = m2.flags ∧
    (m1.flags &&& glps.GLP_CTX_EXTD_F_PRES ≠ 0 → m1.ext_flags = m2.ext_flags) ∧
    (m1.flags &&& glps.GLP_CTX_CRBH_ID_AND_CRBH_PRES ≠ 0 →
      m1.carbo_id = m2.carbo_id ∧ m1.carbo_val = m2.carbo_val) ∧
    (m1.flags &&& glps.GLP_CTX_MEAL_PRES ≠ 0 → m1.meal = m2.meal) ∧
    (m1.flags &&& glps.GLP_CTX_TESTER_HEALTH_PRES ≠ 0 →
      m1.tester = m2.tester ∧ m1.health = m2.health) ∧
    (m1.flags &&& glps.GLP_CTX_EXE_DUR_AND_EXE_INTENS_PRES ≠ 0 →
      m1.exercise_dur = m2.exercise_dur ∧ m1.exercise_intens = m2.exercise_intens) ∧
    (m1.flags &&& glps.GLP_CTX_MEDIC_ID_AND_MEDIC_PRES ≠ 0 →
      m1.med_id = m2.med_id ∧ m1.med_val = m2.med_val) ∧
    (m1.flags &&& glps.GLP_CTX_HBA1C_PRES ≠ 0 → m1.hba1c_val = m2.hba1c_val) := by
  have hf : (glp_meas_ctx_selected m1).flags = (glp_meas_ctx_selected m2).flags := by rw [h]
  have hf : m1.flags = m2.flags := hf
  obtain ⟨-, a1, a2, a3, a4, a5, a6, a7⟩ :=
    glp_meas_ctx_selected_fields m1 (glp_meas_ctx_selected m2) h.symm
  obtain ⟨-, b1, b2, b3, b4, b5, b6, b7⟩ :=
    glp_meas_ctx_selected_fields m2 (glp_meas_ctx_selected m2) rfl
  rw [← hf] at b1 b2 b3 b4 b5 b6 b7
  refine ⟨hf, fun c => (a1 c).symm.trans (b1 c),
    fun c => ⟨(a2 c).1.symm.trans (b2 c).1, (a2 c).2.symm.trans (b2 c).2⟩,
    fun c => (a3 c).symm.trans (b3 c),
    fun c => ⟨(a4 c).1.symm.trans (b4 c).1, (a4 c).2.symm.trans (b4 c).2⟩,
    fun c => ⟨(a5 c).1.symm.trans (b5 c).1, (a5 c).2.symm.trans (b5 c).2⟩,
    fun c => ⟨(a6 c).1.symm.trans (b6 c).1, (a6 c).2.symm.trans (b6 c).2⟩,
    fun c => (a7 c).symm.trans (b7 c)⟩

/-- Unpacking the bytes written by `glps_pack_meas_ctx_value` returns the
sequence number and the measurement context with the fields of absent groups
cleared, when the fields are in the range of their C types and the tester and
health values are nibbles. -/
theorem glps_unpack_pack_meas_ctx (m : glps.glp_meas_ctx) (seq_num : Nat)
    (hr : glp_meas_ctx_in_range m) (hseq : seq_num < 65536)
    (hn : m.flags &&& glps.GLP_CTX_TESTER_HEALTH_PRES ≠ 0 → m.tester < 16 ∧ m.health < 16) :
    glps_unpack_meas_ctx_value (glps.glps_pack_meas_ctx_value m seq_num).bytes
      = (glp_meas_ctx_selected m, seq_num) := by
  rw [glps_pack_meas_ctx_value_eq m seq_num]
  exact glps_unpack_layout m seq_num hr hseq hn

/-- C13, counterexample: the tester value 16 is lost.  The two measurement
contexts have every field in the range of its C type, the tester-health flag
set and different tester values (16 and 0), yet they are packed into the same
bytes and length; so no unpack function returns the tester value of every
measurement context from its packed bytes and length. -/
theorem C13_pack_meas_ctx_tester_lost :
    glp_meas_ctx_in_range (exMeasCtx 16 0) ∧ glp_meas_ctx_in_range (exMeasCtx 0 0) ∧
    (exMeasCtx 16 0).flags &&& glps.GLP_CTX_TESTER_HEALTH_PRES ≠ 0 ∧
    (exMeasCtx 0 0).flags &&& glps.GLP_CTX_TESTER_HEALTH_PRES ≠ 0 ∧
    (exMeasCtx 16 0).tester ≠ (exMeasCtx 0 0).tester ∧
    glps.glps_pack_meas_ctx_value (exMeasCtx 16 0) 7
      = glps.glps_pack_meas_ctx_value (exMeasCtx 0 0) 7 ∧
    ¬ ∃ unpack : List Nat → Nat → glps.glp_meas_ctx × Nat,
      ∀ (m : glps.glp_meas_ctx) (seq_num : Nat), glp_meas_ctx_in_range m → seq_num < 65536 →
        m.flags &&& glps.GLP_CTX_TESTER_HEALTH_PRES ≠ 0 →
        (unpack (glps.glps_pack_meas_ctx_value m seq_num).bytes
          (glps.glps_pack_meas_ctx_value m seq_num).cursor).1.tester = m.tester := by
  have r1 : glp_meas_ctx_in_range (exMeasCtx 16 0) := by
    unfold glp_meas_ctx_in_range; decide
  have r2 : glp_meas_ctx_in_range (exMeasCtx 0 0) := by
    unfold glp_meas_ctx_in_range; decide
  have e : glps.glps_pack_meas_ctx_value (exMeasCtx 16 0) 7
      = glps.glps_pack_meas_ctx_value (exMeasCtx 0 0) 7 := by decide
  refine ⟨r1, r2, by decide, by decide, by decide, e, ?_⟩
  rintro ⟨unpack, hu⟩
  have h1 := hu (exMeasCtx 16 0) 7 r1 (by decide) (by decide)
  have h2 := hu (exMeasCtx 0 0) 7 r2 (by decide) (by decide)
  rw [e, h2] at h1
  exact absurd h1 (by decide)

/-- C13, amended: round trip of the glucose measurement context for nibble
tester and health values.  For every measurement context whose fields are in
the range of their C types and whose tester and health values are below 16 when
the tester-health flag is set, and every 16-bit sequence number,
`glps_unpack_meas_ctx_value` applied to the packed bytes returns the same
sequence number, the same flags and, for every presence flag that is set, the
same field values; and two such measurement contexts that are packed into the
same bytes have the same sequence number, the same flags and the same
flag-selected fields. -/
theorem C13_pack_meas_ctx_round_trip (m m2 : glps.glp_meas_ctx) (seq_num seq_num2 : Nat)
    (hr : glp_meas_ctx_in_range m) (hseq : seq_num < 65536)
    (hn : m.flags &&& glps.GLP_CTX_TESTER_HEALTH_PRES ≠ 0 → m.tester < 16 ∧ m.health < 16)
    (hr2 : glp_meas_ctx_in_range m2) (hseq2 : seq_num2 < 65536)
    (hn2 : m2.flags &&& glps.GLP_CTX_TESTER_HEALTH_PRES ≠ 0 → m2.tester < 16 ∧ m2.health < 16) :
    ((glps_unpack_meas_ctx_value (glps.glps_pack_meas_ctx_value m seq_num).bytes).2 = seq_num ∧
     (glps_unpack_meas_ctx_value (glps.glps_pack_meas_ctx_value m seq_num).bytes).1.flags
       = m.flags ∧
     (m.flags &&& glps.GLP_CTX_EXTD_F_PRES ≠ 0 →
       (glps_unpack_meas_ctx_value (glps.glps_pack_meas_ctx_value m seq_num).bytes).1.ext_flags
         = m.ext_flags) ∧
     (m.flags &&& glps.GLP_CTX_CRBH_ID_AND_CRBH_PRES ≠ 0 →
       (glps_unpack_meas_ctx_value (glps.glps_pack_meas_ctx_value m seq_num).bytes).1.carbo_id
         = m.carbo_id ∧
       (glps_unpack_meas_ctx_value (glps.glps_pack_meas_ctx_value m seq_num).bytes).1.carbo_val
         = m.carbo_val) ∧
     (m.flags &&& glps.GLP_CTX_MEAL_PRES ≠ 0 →
       (glps_unpack_meas_ctx_value (glps.glps_pack_meas_ctx_value m seq_num).bytes).1.meal
         = m.meal) ∧
     (m.flags &&& glps.GLP_CTX_TESTER_HEALTH_PRES ≠ 0 →
       (glps_unpack_meas_ctx_value (glps.glps_pack_meas_ctx_value m seq_num).bytes).1.tester
         = m.tester ∧
       (glps_unpack_meas_ctx_value (glps.glps_pack_meas_ctx_value m seq_num).bytes).1.health
         = m.health) ∧
     (m.flags &&& glps.GLP_CTX_EXE_DUR_AND_EXE_INTENS_PRES ≠ 0 →
       (glps_unpack_meas_ctx_value
         (glps.glps_pack_meas_ctx_value m seq_num).bytes).1.exercise_dur = m.exercise_dur ∧
       (glps_unpack_meas_ctx_value
         (glps.glps_pack_meas_ctx_value m seq_num).bytes).1.exercise_intens
         = m.exercise_intens) ∧
     (m.flags &&& glps.GLP_CTX_MEDIC_ID_AND_MEDIC_PRES ≠ 0 →
       (glps_unpack_meas_ctx_value (glps.glps_pack_meas_ctx_value m seq_num).bytes).1.med_id
         = m.med_id ∧
       (glps_unpack_meas_ctx_value (glps.glps_pack_meas_ctx_value m seq_num).bytes).1.med_val
         = m.med_val) ∧
     (m.flags &&& glps.GLP_CTX_HBA1C_PRES ≠ 0 →
       (glps_unpack_meas_ctx_value (glps.glps_pack_meas_ctx_value m seq_num).bytes).1.hba1c_val
         = m.hba1c_val)) ∧
    ((glps.glps_pack_meas_ctx_value m seq_num).bytes
        = (glps.glps_pack_meas_ctx_value m2 seq_num2).bytes →
      seq_num = seq_num2 ∧ m.flags = m2.flags ∧
      (m.flags &&& glps.GLP_CTX_EXTD_F_PRES ≠ 0 → m.ext_flags = m2.ext_flags) ∧
      (m.flags &&& glps.GLP_CTX_CRBH_ID_AND_CRBH_PRES ≠ 0 →
        m.carbo_id = m2.carbo_id ∧ m.carbo_val = m2.carbo_val) ∧
      (m.flags &&& glps.GLP_CTX_MEAL_PRES ≠ 0 → m.meal = m2.meal) ∧
      (m.flags &&& glps.GLP_CTX_TESTER_HEALTH_PRES ≠ 0 →
        m.tester = m2.tester ∧ m.health = m2.health) ∧
      (m.flags &&& glps.GLP_CTX_EXE_DUR_AND_EXE_INTENS_PRES ≠ 0 →
        m.exercise_dur = m2.exercise_dur ∧ m.exercise_intens = m2.exercise_intens) ∧
      (m.flags &&& glps.GLP_CTX_MEDIC_ID_AND_MEDIC_PRES ≠ 0 →
        m.med_id = m2.med_id ∧ m.med_val = m2.med_val) ∧
      (m.flags &&& glps.GLP_CTX_HBA1C_PRES ≠ 0 → m.hba1c_val = m2.hba1c_val)) := by
  have hu := glps_unpack_pack_meas_ctx m seq_num hr hseq hn
  have hu2 := glps_unpack_pack_meas_ctx m2 seq_num2 hr2 hseq2 hn2
  constructor
  · rw [hu]
    exact ⟨rfl, glp_meas_ctx_selected_fields m _ rfl⟩
  · intro hb
    rw [hb, hu2] at hu
    have hs : glp_meas_ctx_selected m2 = glp_meas_ctx_selected m := congrArg Prod.fst hu
    have hq : seq_num2 = seq_num := congrArg Prod.snd hu
    exact ⟨hq.symm, glp_meas_ctx_selected_agree m m2 hs.symm⟩

/-- C13 amended, at the measurement context with every group but one present
and at a measurement context with the tester-health group alone: the unpacked
values are the packed ones, and the two packed values differ. -/
theorem C13_pack_meas_ctx_round_trip_witness :
    glps_unpack_meas_ctx_value (glps.glps_pack_meas_ctx_value exMeasCtxFull 0x0A0B).bytes
      = (exMeasCtxFull, 0x0A0B) ∧
    (glps_unpack_meas_ctx_value
      (glps.glps_pack_meas_ctx_value exMeasCtxFull 0x0A0B).bytes).1.tester = 1 ∧
    (glps_unpack_meas_ctx_value
      (glps.glps_pack_meas_ctx_value exMeasCtxFull 0x0A0B).bytes).1.health = 5 ∧
    (glps.glps_pack_meas_ctx_value exMeasCtxFull 0x0A0B).bytes
      ≠ (glps.glps_pack_meas_ctx_value (exMeasCtx 1 5) 7).bytes :=
  have h := C13_pack_meas_ctx_round_trip exMeasCtxFull (exMeasCtx 1 5) 0x0A0B 7
    (by unfold glp_meas_ctx_in_range; decide) (by decide) (fun _ => by decide)
    (by unfold glp_meas_ctx_in_range; decide) (by decide) (fun _ => by decide)
  ⟨by decide, (h.1.2.2.2.2.2.1 (by decide)).1, (h.1.2.2.2.2.2.1 (by decide)).2, by decide⟩


/-- The loop over the Report characteristics of `hogpd_disable`, run from
`r` to the last one, clears the notification bit of each of them and reports
those that were set. -/
theorem hogpd_disable_report_loop_eq : ∀ (n r : Nat) (s : hogpd.ReportSt),
    r + n = s.feat.report_nb →
    hogpd.disable_report_loop n r s =
      { feat :=
          { svc_features := s.feat.svc_features,
            report_nb := s.feat.report_nb,
            report_char_cfg := fun j =>
              if r ≤ j ∧ j < s.feat.report_nb
              then clr8 (s.feat.report_char_cfg j) hogpd.HOGPD_REPORT_NTF_CFG_MASK
              else s.feat.report_char_cfg j },
        cfg :=
          { boot_kb_in_report_ntf_en := s.cfg.boot_kb_in_report_ntf_en,
            boot_mouse_in_report_ntf_en := s.cfg.boot_mouse_in_report_ntf_en,
            report_ntf_en := fun j =>
              if (r ≤ j ∧ j < s.feat.report_nb) ∧
                s.feat.report_char_cfg j &&& hogpd.HOGPD_REPORT_NTF_CFG_MASK
                  = hogpd.HOGPD_REPORT_NTF_CFG_MASK
              then PRF_CLI_START_NTF else s.cfg.report_ntf_en j } } := by
  intro n
  induction n with
  | zero =>
    intro r s h
    obtain ⟨⟨svc, nb, cc⟩, ⟨kb, ms, en⟩⟩ := s
    simp only [Nat.add_zero] at h
    subst h
    unfold hogpd.disable_report_loop
    simp only [hogpd.ReportSt.mk.injEq, hogpd.hogpd_features.mk.injEq,
      hogpd.ntf_cfg_acc.mk.injEq, true_and]
    constructor <;> funext j <;> rw [if_neg (by omega)]
  | succ n ih =>
    intro r s h
    obtain ⟨⟨svc, nb, cc⟩, ⟨kb, ms, en⟩⟩ := s
    simp only at h
    have hlt : r < nb := by omega
    unfold hogpd.disable_report_loop
    simp only [if_pos hlt]
    rw [ih (r + 1) _ (by simpa [hogpd.disable_report_body] using (by omega : r + 1 + n = nb))]
    simp only [hogpd.disable_report_body, hogpd.ReportSt.mk.injEq, hogpd.hogpd_features.mk.injEq,
      hogpd.ntf_cfg_acc.mk.injEq, true_and]
    constructor
    · funext j
      by_cases hj : j = r
      · subst hj
        simp [hlt]
      · simp only [Function.update_apply, if_neg hj]
        by_cases h1 : r + 1 ≤ j ∧ j < nb
        · rw [if_pos h1, if_pos (by omega)]
        · rw [if_neg h1, if_neg (by omega)]
    · funext j
      by_cases hj : j = r
      · subst hj
        by_cases hm : cc j &&& hogpd.HOGPD_REPORT_NTF_CFG_MASK = hogpd.HOGPD_REPORT_NTF_CFG_MASK
        · simp [hlt, hm]
        · simp [hlt, hm]
      · by_cases hm : cc r &&& hogpd.HOGPD_REPORT_NTF_CFG_MASK = hogpd.HOGPD_REPORT_NTF_CFG_MASK
        · simp only [Function.update_apply, if_neg hj, if_pos hm]
          by_cases h1 : r + 1 ≤ j ∧ j < nb
          · have h2 : r ≤ j ∧ j < nb := by omega
            simp only [h1, h2, true_and]
          · have h2 : ¬ (r ≤ j ∧ j < nb) := by omega
            simp only [h1, h2, false_and, if_false]
        · simp only [Function.update_apply, if_neg hj, if_neg hm]
          by_cases h1 : r + 1 ≤ j ∧ j < nb
          · have h2 : r ≤ j ∧ j < nb := by omega
            simp only [h1, h2, true_and]
          · have h2 : ¬ (r ≤ j ∧ j < nb) := by omega
            simp only [h1, h2, false_and, if_false]

/-- One iteration of the loop over the HIDS instances of `hogpd_disable`
disables the service, clears the notification bits of the instance and fills
in its element of the message. -/
theorem hogpd_disable_body_eq (i : Nat) (s : hogpd.DisableSt) :
    hogpd.disable_body i s =
      { env := { s.env with
          features := Function.update s.env.features i
            (hogpd_disabled_features (s.env.features i)) },
        ntf_cfg := Function.update s.ntf_cfg i
          (hogpd_disabled_ntf_cfg (s.env.att_tbl i) (s.env.features i) (s.ntf_cfg i)),
        calls := s.calls ++
          [Call.attsdb_svc_set_permission (s.env.shdl i) hogpd.PERM_RIGHT_DISABLE] } := by
  unfold hogpd.disable_body
  simp only []
  rw [hogpd_disable_report_loop_eq _ 0 _ (by simp)]
  simp only [hogpd.DisableSt.mk.injEq, and_true, Nat.zero_le, true_and]
  refine ⟨rfl, ?_⟩
  unfold hogpd_disabled_ntf_cfg
  by_cases a1 : s.env.att_tbl i hogpd.HOGPD_BOOT_KB_IN_REPORT_CHAR = 0 <;>
  by_cases a2 : (s.env.features i).svc_features &&& hogpd.HOGPD_BOOT_KB_IN_NTF_CFG_MASK
      = hogpd.HOGPD_BOOT_KB_IN_NTF_CFG_MASK <;>
  by_cases a3 : s.env.att_tbl i hogpd.HOGPD_BOOT_MOUSE_IN_REPORT_CHAR = 0 <;>
  by_cases a4 : (s.env.features i).svc_features &&& hogpd.HOGPD_BOOT_MOUSE_IN_NTF_CFG_MASK
      = hogpd.HOGPD_BOOT_MOUSE_IN_NTF_CFG_MASK <;>
  simp [a1, a2, a3, a4]

/-- The loop over the HIDS instances of `hogpd_disable`, run from instance `i`
to the last one: the instances from `i` on are disabled, their notification
bits cleared and their elements of the message filled in; nothing else
changes. -/
theorem hogpd_disable_loop_spec : ∀ (n i : Nat) (s : hogpd.DisableSt),
    i + n = s.env.hids_nb →
    (hogpd.disable_loop n i s).env.con_info = s.env.con_info ∧
    (hogpd.disable_loop n i s).env.shdl = s.env.shdl ∧
    (hogpd.disable_loop n i s).env.att_tbl = s.env.att_tbl ∧
    (hogpd.disable_loop n i s).env.hids_nb = s.env.hids_nb ∧
    (∀ m, (hogpd.disable_loop n i s).env.features m =
      if i ≤ m ∧ m < s.env.hids_nb then hogpd_disabled_features (s.env.features m)
      else s.env.features m) ∧
    (∀ m, (hogpd.disable_loop n i s).ntf_cfg m =
      if i ≤ m ∧ m < s.env.hids_nb
      then hogpd_disabled_ntf_cfg (s.env.att_tbl m) (s.env.features m) (s.ntf_cfg m)
      else s.ntf_cfg m) ∧
    (hogpd.disable_loop n i s).calls = s.calls ++ (List.range' i n).map
      (fun m => Call.attsdb_svc_set_permission (s.env.shdl m) hogpd.PERM_RIGHT_DISABLE) := by
  intro n
  induction n with
  | zero =>
    intro i s h
    unfold hogpd.disable_loop
    refine ⟨rfl, rfl, rfl, rfl, ?_, ?_, by simp⟩
    · intro m
      rw [if_neg (by omega)]
    · intro m
      rw [if_neg (by omega)]
  | succ n ih =>
    intro i s h
    have hlt : i < s.env.hids_nb := by omega
    unfold hogpd.disable_loop
    rw [if_pos hlt, hogpd_disable_body_eq]
    obtain ⟨h1, h2, h3, h4, h5, h6, h7⟩ := ih (i + 1) _
      (by simp only []; omega : i + 1 + n = (hogpd.DisableSt.mk { s.env with
          features := Function.update s.env.features i
            (hogpd_disabled_features (s.env.features i)) }
        (Function.update s.ntf_cfg i
          (hogpd_disabled_ntf_cfg (s.env.att_tbl i) (s.env.features i) (s.ntf_cfg i)))
        (s.calls ++
          [Call.attsdb_svc_set_permission (s.env.shdl i) hogpd.PERM_RIGHT_DISABLE])).env.hids_nb)
    simp only [] at h1 h2 h3 h4 h5 h6 h7
    refine ⟨h1, h2, h3, h4, ?_, ?_, ?_⟩
    · intro m
      rw [h5 m]
      by_cases hm : m = i
      · subst hm
        rw [if_neg (by omega), if_pos ⟨Nat.le_refl _, hlt⟩, Function.update_same]
      · rw [Function.update_noteq hm]
        by_cases hr : i + 1 ≤ m ∧ m < s.env.hids_nb
        · rw [if_pos hr, if_pos (by omega)]
        · rw [if_neg hr, if_neg (by omega)]
    · intro m
      rw [h6 m]
      by_cases hm : m = i
      · subst hm
        rw [if_neg (by omega), if_pos ⟨Nat.le_refl _, hlt⟩, Function.update_same]
      · rw [Function.update_noteq hm, Function.update_noteq hm]
        by_cases hr : i + 1 ≤ m ∧ m < s.env.hids_nb
        · rw [if_pos hr, if_pos (by omega)]
        · rw [if_neg hr, if_neg (by omega)]
    · rw [h7, List.range'_succ, List.map_cons, List.append_assoc, List.singleton_append]

/-- Clearing the bits of two masks together clears the bits of each. -/
theorem clr8_or_and_mask (x a b : Nat) :
    clr8 x (a ||| b) &&& a = 0 ∧ clr8 x (a ||| b) &&& b = 0 := by
  constructor <;>
  · apply Nat.eq_of_testBit_eq
    intro k
    rw [Nat.testBit_and, testBit_clr8, Nat.testBit_or]
    cases x.testBit k <;> cases a.testBit k <;> cases b.testBit k <;> simp

/-- The array sent by `hogpd_disable` is the array of the notification
configurations that were set in the environment. -/
theorem hogpd_disable_ntf_cfg_array (env : hogpd.hogpd_env_tag) :
    hogpd.ntf_cfg_array (hogpd.disable_loop env.hids_nb 0
      { env := env, ntf_cfg := hogpd.ke_msg_alloc_ntf_cfg, calls := [] }).ntf_cfg
      = hogpd_reported_ntf_cfg env := by
  obtain ⟨-, -, -, -, -, h6, -⟩ := hogpd_disable_loop_spec env.hids_nb 0
    { env := env, ntf_cfg := hogpd.ke_msg_alloc_ntf_cfg, calls := [] } (by simp)
  simp only [] at h6
  unfold hogpd.ntf_cfg_array hogpd_reported_ntf_cfg
  apply List.map_congr_left
  intro n _
  unfold hogpd_boot_kb_ntf hogpd_boot_mouse_ntf hogpd_report_ntf
  by_cases hn : n < env.hids_nb
  · rw [h6 n, if_pos ⟨Nat.zero_le _, hn⟩]
    simp only [hn, true_and, hogpd_disabled_ntf_cfg, hogpd.ke_msg_alloc_ntf_cfg,
      PRF_CLI_STOP_NTFIND]
  · rw [h6 n, if_neg (fun h => hn h.2)]
    simp only [hn, false_and, if_false, hogpd.ke_msg_alloc_ntf_cfg, PRF_CLI_STOP_NTFIND]

/-- C11: `hogpd_disable`, for every environment within the bounds of its arrays
(at most `HOGPD_NB_HIDS_INST_MAX` instances, at most `HOGPD_NB_REPORT_INST_MAX`
Report characteristics in each, `svc_features` a `uint8_t`).  Afterwards, for
every HIDS instance `n < hids_nb`, the boot keyboard and boot mouse notification
bits of `features[n].svc_features` are clear and all its other bits unchanged,
and for every `r < features[n].report_nb` the notification bit of
`features[n].report_char_cfg[r]` is clear.  The calls are one
`attsdb_svc_set_permission` for each instance followed by one
`HOGPD_DISABLE_IND`, sent to the application for the stored connection handle;
in it a notification field is `PRF_CLI_START_NTF` exactly for the
characteristics whose notification bit was set before the call (the boot ones
only when the characteristic exists in `att_tbl`), and every other field is
`PRF_CLI_STOP_NTFIND`.  The task state becomes `HOGPD_IDLE`. -/
theorem C11_hogpd_disable (env : hogpd.hogpd_env_tag) (state : Nat)
    (hnb : env.hids_nb ≤ hogpd.HOGPD_NB_HIDS_INST_MAX)
    (hrep : ∀ n, n < env.hids_nb →
      (env.features n).report_nb ≤ hogpd.HOGPD_NB_REPORT_INST_MAX)
    (hsvc : ∀ n, n < env.hids_nb → (env.features n).svc_features < 256) :
    (∀ n, n < env.hids_nb →
      ((hogpd.hogpd_disable env state).env.features n).svc_features
        &&& hogpd.HOGPD_BOOT_KB_IN_NTF_CFG_MASK = 0 ∧
      ((hogpd.hogpd_disable env state).env.features n).svc_features
        &&& hogpd.HOGPD_BOOT_MOUSE_IN_NTF_CFG_MASK = 0 ∧
      MaskCleared (env.features n).svc_features
        ((hogpd.hogpd_disable env state).env.features n).svc_features
        (hogpd.HOGPD_BOOT_KB_IN_NTF_CFG_MASK ||| hogpd.HOGPD_BOOT_MOUSE_IN_NTF_CFG_MASK) ∧
      ((hogpd.hogpd_disable env state).env.features n).report_nb = (env.features n).report_nb ∧
      ∀ r, r < (env.features n).report_nb →
        ((hogpd.hogpd_disable env state).env.features n).report_char_cfg r
          &&& hogpd.HOGPD_REPORT_NTF_CFG_MASK = 0) ∧
    (hogpd.hogpd_disable env state).calls =
      (List.range env.hids_nb).map
        (fun n => Call.attsdb_svc_set_permission (env.shdl n) hogpd.PERM_RIGHT_DISABLE) ++
      [Call.ke_msg_send ⟨.HOGPD_DISABLE_IND, env.con_info.appid, TASK_HOGPD,
        .hogpd_disable_ind env.con_info.conhdl (hogpd_reported_ntf_cfg env)⟩] ∧
    (hogpd.hogpd_disable env state).calls.filter (Call.isMsg .HOGPD_DISABLE_IND) =
      [Call.ke_msg_send ⟨.HOGPD_DISABLE_IND, env.con_info.appid, TASK_HOGPD,
        .hogpd_disable_ind env.con_info.conhdl (hogpd_reported_ntf_cfg env)⟩] ∧
    (∀ n, n < env.hids_nb →
      (((hogpd_reported_ntf_cfg env).getD n ⟨0, 0, []⟩).boot_kb_in_report_ntf_en
          = PRF_CLI_START_NTF ↔
        env.att_tbl n hogpd.HOGPD_BOOT_KB_IN_REPORT_CHAR ≠ 0 ∧
        (env.features n).svc_features &&& hogpd.HOGPD_BOOT_KB_IN_NTF_CFG_MASK
          = hogpd.HOGPD_BOOT_KB_IN_NTF_CFG_MASK) ∧
      (((hogpd_reported_ntf_cfg env).getD n ⟨0, 0, []⟩).boot_mouse_in_report_ntf_en
          = PRF_CLI_START_NTF ↔
        env.att_tbl n hogpd.HOGPD_BOOT_MOUSE_IN_REPORT_CHAR ≠ 0 ∧
        (env.features n).svc_features &&& hogpd.HOGPD_BOOT_MOUSE_IN_NTF_CFG_MASK
          = hogpd.HOGPD_BOOT_MOUSE_IN_NTF_CFG_MASK) ∧
      ∀ r, r < (env.features n).report_nb →
        ((((hogpd_reported_ntf_cfg env).getD n ⟨0, 0, []⟩).report_ntf_en).getD r 0
            = PRF_CLI_START_NTF ↔
          (env.features n).report_char_cfg r &&& hogpd.HOGPD_REPORT_NTF_CFG_MASK
            = hogpd.HOGPD_REPORT_NTF_CFG_MASK)) ∧
    (hogpd.hogpd_disable env state).state = hogpd.HOGPD_IDLE := by
  obtain ⟨-, -, -, -, h5, -, h7⟩ := hogpd_disable_loop_spec env.hids_nb 0
    { env := env, ntf_cfg := hogpd.ke_msg_alloc_ntf_cfg, calls := [] } (by simp)
  have hcalls : (hogpd.hogpd_disable env state).calls =
      (List.range env.hids_nb).map
        (fun n => Call.attsdb_svc_set_permission (env.shdl n) hogpd.PERM_RIGHT_DISABLE) ++
      [Call.ke_msg_send ⟨.HOGPD_DISABLE_IND, env.con_info.appid, TASK_HOGPD,
        .hogpd_disable_ind env.con_info.conhdl (hogpd_reported_ntf_cfg env)⟩] := by
    unfold hogpd.hogpd_disable
    simp only []
    rw [hogpd_disable_ntf_cfg_array, h7, List.nil_append, List.range_eq_range']
  refine ⟨?_, hcalls, ?_, ?_, rfl⟩
  · intro n hn
    have hf : ((hogpd.hogpd_disable env state).env.features n)
        = hogpd_disabled_features (env.features n) := by
      unfold hogpd.hogpd_disable
      simp only []
      rw [h5 n, if_pos ⟨Nat.zero_le _, hn⟩]
    rw [hf]
    unfold hogpd_disabled_features
    simp only []
    refine ⟨(clr8_or_and_mask _ _ _).1, (clr8_or_and_mask _ _ _).2,
      maskCleared_clr8 _ _ (hsvc n hn), trivial, ?_⟩
    intro r hr
    rw [if_pos hr]
    exact clr8_and_mask _ _
  · rw [hcalls, List.filter_append, List.filter_map]
    simp [Call.isMsg, Function.comp_def]
  · intro n hn
    have hn2 : n < hogpd.HOGPD_NB_HIDS_INST_MAX := by omega
    have hg : (hogpd_reported_ntf_cfg env).getD n ⟨0, 0, []⟩ =
        ⟨if hogpd_boot_kb_ntf env n then PRF_CLI_START_NTF else PRF_CLI_STOP_NTFIND,
         if hogpd_boot_mouse_ntf env n then PRF_CLI_START_NTF else PRF_CLI_STOP_NTFIND,
         (List.range hogpd.HOGPD_NB_REPORT_INST_MAX).map fun r =>
           if hogpd_report_ntf env n r then PRF_CLI_START_NTF else PRF_CLI_STOP_NTFIND⟩ := by
      unfold hogpd_reported_ntf_cfg
      simp [List.getD_eq_getElem?_getD, hn2]
    rw [hg]
    simp only []
    refine ⟨?_, ?_, ?_⟩
    · unfold hogpd_boot_kb_ntf
      simp [hn, PRF_CLI_START_NTF, PRF_CLI_STOP_NTFIND]
    · unfold hogpd_boot_mouse_ntf
      simp [hn, PRF_CLI_START_NTF, PRF_CLI_STOP_NTFIND]
    · intro r hr
      have hr2 : r < hogpd.HOGPD_NB_REPORT_INST_MAX := Nat.lt_of_lt_of_le hr (hrep n hn)
      unfold hogpd_report_ntf
      simp [List.getD_eq_getElem?_getD, hr2, hn, hr, PRF_CLI_START_NTF, PRF_CLI_STOP_NTFIND]

/-- C11 at an environment with two HIDS instances: the boot keyboard
notification of instance `0` and the notification of its second Report
characteristic are reported; the boot mouse bit of instance `1`, whose
characteristic does not exist, is cleared without being reported. -/
theorem C11_hogpd_disable_witness :
    (hogpd.hogpd_disable exHogpdEnv2 hogpd.HOGPD_CONNECTED).calls =
      [Call.attsdb_svc_set_permission 80 0, Call.attsdb_svc_set_permission 112 0,
       Call.ke_msg_send ⟨.HOGPD_DISABLE_IND, 5, TASK_HOGPD,
        .hogpd_disable_ind 1 [⟨1, 0, [0, 1, 0, 0, 0]⟩, ⟨0, 0, [0, 0, 0, 0, 0]⟩]⟩] ∧
    ((hogpd.hogpd_disable exHogpdEnv2 hogpd.HOGPD_CONNECTED).env.features 0).svc_features
      &&& hogpd.HOGPD_BOOT_KB_IN_NTF_CFG_MASK = 0 ∧
    ((hogpd.hogpd_disable exHogpdEnv2 hogpd.HOGPD_CONNECTED).env.features 0).report_char_cfg 1
      &&& hogpd.HOGPD_REPORT_NTF_CFG_MASK = 0 ∧
    ((hogpd.hogpd_disable exHogpdEnv2 hogpd.HOGPD_CONNECTED).env.features 1).svc_features
      &&& hogpd.HOGPD_BOOT_MOUSE_IN_NTF_CFG_MASK = 0 ∧
    (hogpd.hogpd_disable exHogpdEnv2 hogpd.HOGPD_CONNECTED).state = hogpd.HOGPD_IDLE :=
  have h := C11_hogpd_disable exHogpdEnv2 hogpd.HOGPD_CONNECTED (by decide) (by decide)
    (by decide)
  ⟨h.2.1.trans (by decide), (h.1 0 (by decide)).1, (h.1 0 (by decide)).2.2.2.2 1 (by decide),
    (h.1 1 (by decide)).2.1, h.2.2.2.2⟩


/-- The little-endian 16-bit word made of two bytes is the first byte plus 256
times the second. -/
theorem co_read16p_eq_add {a b : Nat} (ha : a < 256) (hb : b < 256) :
    co_read16p a b = a + 256 * b := by
  unfold co_read16p
  rw [u8_of_lt ha, u8_of_lt hb, Nat.lor_comm, shiftLeft_or_eq_add (by omega : a < 2 ^ 8)]
  omega

/-- C21: sequence-number filters of a record access request are decoded
little-endian in fixed order.  For every buffer whose operation code (byte 0) is
supported and is not the abort code and whose filter type (byte 2) is
`GLP_FILTER_SEQ_NUMBER`, every length and every prior content of the result
structure: with the operator `GLP_OP_WITHIN_RANGE_OF` and a length of at least 7
the function returns `PRF_ERR_OK`, the minimum is the word of bytes 3-4 and the
maximum the word of bytes 5-6; with `GLP_OP_GT_OR_EQ` and a length of at least 5
the minimum is the word of bytes 3-4 and the maximum is 0; with
`GLP_OP_LT_OR_EQ` and a length of at least 5 the maximum is the word of bytes
3-4 and the minimum is 0; every other field of the filter is zero; a shorter
buffer gives `PRF_APP_ERROR`.  A word is its first byte plus 256 times its
second byte. -/
theorem C21_unpack_racp_req_seq_num (packed_val : Nat → Nat) (length : Nat)
    (racp_req : glps.glp_racp_req)
    (hop1 : glps.GLP_REQ_REP_STRD_RECS ≤ packed_val 0)
    (hop2 : packed_val 0 ≤ glps.GLP_REQ_REP_NUM_OF_STRD_RECS)
    (hab : packed_val 0 ≠ glps.GLP_REQ_ABORT_OP)
    (hft : packed_val 2 = glps.GLP_FILTER_SEQ_NUMBER) :
    (packed_val 1 = glps.GLP_OP_WITHIN_RANGE_OF → 7 ≤ length →
      glps.glps_unpack_racp_req packed_val length racp_req =
        (PRF_ERR_OK, ⟨packed_val 0, { glps.glp_filter_zero with
          operator := glps.GLP_OP_WITHIN_RANGE_OF,
          filter_type := glps.GLP_FILTER_SEQ_NUMBER,
          seq_num_min := co_read16p (packed_val 3) (packed_val 4),
          seq_num_max := co_read16p (packed_val 5) (packed_val 6) }⟩)) ∧
    (packed_val 1 = glps.GLP_OP_GT_OR_EQ → 5 ≤ length →
      glps.glps_unpack_racp_req packed_val length racp_req =
        (PRF_ERR_OK, ⟨packed_val 0, { glps.glp_filter_zero with
          operator := glps.GLP_OP_GT_OR_EQ,
          filter_type := glps.GLP_FILTER_SEQ_NUMBER,
          seq_num_min := co_read16p (packed_val 3) (packed_val 4),
          seq_num_max := 0 }⟩)) ∧
    (packed_val 1 = glps.GLP_OP_LT_OR_EQ → 5 ≤ length →
      glps.glps_unpack_racp_req packed_val length racp_req =
        (PRF_ERR_OK, ⟨packed_val 0, { glps.glp_filter_zero with
          operator := glps.GLP_OP_LT_OR_EQ,
          filter_type := glps.GLP_FILTER_SEQ_NUMBER,
          seq_num_min := 0,
          seq_num_max := co_read16p (packed_val 3) (packed_val 4) }⟩)) ∧
    (packed_val 1 = glps.GLP_OP_WITHIN_RANGE_OF → length < 7 →
      (glps.glps_unpack_racp_req packed_val length racp_req).1 = PRF_APP_ERROR) ∧
    (packed_val 1 = glps.GLP_OP_GT_OR_EQ → length < 5 →
      (glps.glps_unpack_racp_req packed_val length racp_req).1 = PRF_APP_ERROR) ∧
    (packed_val 1 = glps.GLP_OP_LT_OR_EQ → length < 5 →
      (glps.glps_unpack_racp_req packed_val length racp_req).1 = PRF_APP_ERROR) ∧
    (∀ a b : Nat, a < 256 → b < 256 → co_read16p a b = a + 256 * b) := by
  have hcode : ¬ (packed_val 0 < glps.GLP_REQ_REP_STRD_RECS ∨
      packed_val 0 > glps.GLP_REQ_REP_NUM_OF_STRD_RECS) := by omega
  have key : ∀ op, packed_val 1 = op → 2 ≤ op → op ≤ 4 → 2 ≤ length →
      glps.glps_unpack_racp_req packed_val length racp_req =
        glps.unpack_seq_num packed_val length
          ⟨packed_val 0, { glps.glp_filter_zero with
            operator := op, filter_type := glps.GLP_FILTER_SEQ_NUMBER }⟩ 3 := by
    intro op hop h2 h4 hl
    unfold glps.glps_unpack_racp_req
    simp only [hop, hft]
    rw [if_neg (by omega), if_neg hcode, if_neg hab,
      if_neg (by simp only [glps.GLP_OP_ALL_RECS, glps.GLP_OP_LAST_REC]; omega),
      if_pos (by simp only [glps.GLP_OP_LT_OR_EQ, glps.GLP_OP_WITHIN_RANGE_OF]; omega),
      if_neg (by omega), if_pos trivial]
  have short : length < 2 →
      (glps.glps_unpack_racp_req packed_val length racp_req).1 = PRF_APP_ERROR := by
    intro hl
    unfold glps.glps_unpack_racp_req
    rw [if_pos hl]
  refine ⟨?_, ?_, ?_, ?_, ?_, ?_, fun a b ha hb => co_read16p_eq_add ha hb⟩
  · intro hop hl
    rw [key _ hop (by decide) (by decide) (by omega)]
    unfold glps.unpack_seq_num glps.unpack_seq_num_max
    simp only [glps.GLP_OP_WITHIN_RANGE_OF, glps.GLP_OP_GT_OR_EQ, glps.GLP_OP_LT_OR_EQ]
    rw [if_pos (by decide), if_neg (by omega), if_pos (by decide), if_neg (by omega)]
  · intro hop hl
    rw [key _ hop (by decide) (by decide) (by omega)]
    unfold glps.unpack_seq_num glps.unpack_seq_num_max
    simp only [glps.GLP_OP_WITHIN_RANGE_OF, glps.GLP_OP_GT_OR_EQ, glps.GLP_OP_LT_OR_EQ]
    rw [if_pos (by decide), if_neg (by omega), if_neg (by decide)]
    rfl
  · intro hop hl
    rw [key _ hop (by decide) (by decide) (by omega)]
    unfold glps.unpack_seq_num glps.unpack_seq_num_max
    simp only [glps.GLP_OP_WITHIN_RANGE_OF, glps.GLP_OP_GT_OR_EQ, glps.GLP_OP_LT_OR_EQ]
    rw [if_neg (by decide), if_pos (by decide), if_neg (by omega)]
    rfl
  · intro hop hl
    by_cases h2 : length < 2
    · exact short h2
    · rw [key _ hop (by decide) (by decide) (by omega)]
      unfold glps.unpack_seq_num glps.unpack_seq_num_max
      simp only [glps.GLP_OP_WITHIN_RANGE_OF, glps.GLP_OP_GT_OR_EQ, glps.GLP_OP_LT_OR_EQ]
      rw [if_pos (by decide)]
      by_cases h5 : (length : Int) - ((3 : Nat) : Int) < 2
      · rw [if_pos h5]
      · rw [if_neg h5, if_pos (by decide), if_pos (by omega)]
  · intro hop hl
    by_cases h2 : length < 2
    · exact short h2
    · rw [key _ hop (by decide) (by decide) (by omega)]
      unfold glps.unpack_seq_num glps.unpack_seq_num_max
      simp only [glps.GLP_OP_WITHIN_RANGE_OF, glps.GLP_OP_GT_OR_EQ, glps.GLP_OP_LT_OR_EQ]
      rw [if_pos (by decide), if_pos (by omega)]
  · intro hop hl
    by_cases h2 : length < 2
    · exact short h2
    · rw [key _ hop (by decide) (by decide) (by omega)]
      unfold glps.unpack_seq_num glps.unpack_seq_num_max
      simp only [glps.GLP_OP_WITHIN_RANGE_OF, glps.GLP_OP_GT_OR_EQ, glps.GLP_OP_LT_OR_EQ]
      rw [if_neg (by decide), if_pos (by decide), if_pos (by omega)]

/-- C21 at the request "report stored records within the range 0x1234 to
0x5678" of 7 bytes, and at the same request cut to 6 bytes. -/
theorem C21_unpack_racp_req_seq_num_witness :
    glps.glps_unpack_racp_req (exBuf [1, 4, 1, 0x34, 0x12, 0x78, 0x56]) 7 exRacpReq =
      (PRF_ERR_OK, ⟨1, { glps.glp_filter_zero with
        operator := glps.GLP_OP_WITHIN_RANGE_OF,
        filter_type := glps.GLP_FILTER_SEQ_NUMBER,
        seq_num_min := 0x1234,
        seq_num_max := 0x5678 }⟩) ∧
    (glps.glps_unpack_racp_req (exBuf [1, 4, 1, 0x34, 0x12, 0x78, 0x56]) 6 exRacpReq).1
      = PRF_APP_ERROR :=
  ⟨(C21_unpack_racp_req_seq_num (exBuf [1, 4, 1, 0x34, 0x12, 0x78, 0x56]) 7 exRacpReq
      (by decide) (by decide) (by decide) (by decide)).1 (by decide) (by decide),
   (C21_unpack_racp_req_seq_num (exBuf [1, 4, 1, 0x34, 0x12, 0x78, 0x56]) 6 exRacpReq
      (by decide) (by decide) (by decide) (by decide)).2.2.2.1 (by decide) (by decide)⟩


/-- The `switch` of `cscps_sc_ctnl_pt_cfm_handler` keeps the operation recorded
in the environment. -/
theorem cscps_cfm_switch_operation (env : cscps_task.cscps_env_tag)
    (param : cscps_task.cscps_sc_ctnl_pt_cfm) (rsp : Nat → Nat) :
    (cscps_task.cfm_switch env param rsp).env.operation = env.operation := by
  unfold cscps_task.cfm_switch
  split_ifs <;> rfl

/-- The operation selected by a write to the SC Control Point is a control point
operation when the request can be handled. -/
theorem cscps_ctnl_pt_switch_operation (env : cscps_task.cscps_env_tag) (value : Nat → Nat)
    (h : (cscps_task.ctnl_pt_switch env value).1 = PRF_ERR_OK) :
    (cscps_task.ctnl_pt_switch env value).2.1 ≠ cscps_task.CSCPS_RESERVED_OP_CODE := by
  unfold cscps_task.ctnl_pt_switch at h ⊢
  split_ifs at h ⊢ <;>
    first
    | exact absurd h (show ¬ (cscps_task.CSCP_CTNL_PT_RESP_NOT_SUPP = PRF_ERR_OK) by decide)
    | exact absurd h (show ¬ (cscps_task.CSCP_CTNL_PT_RESP_INV_PARAM = PRF_ERR_OK) by decide)
    | exact (show cscps_task.CSCPS_CTNL_PT_CUMUL_VAL_OP_CODE ≠ cscps_task.CSCPS_RESERVED_OP_CODE
        by decide)
    | exact (show cscps_task.CSCPS_CTNL_PT_UPD_LOC_OP_CODE ≠ cscps_task.CSCPS_RESERVED_OP_CODE
        by decide)
    | exact (show cscps_task.CSCPS_CTNL_PT_SUPP_LOC_OP_CODE ≠ cscps_task.CSCPS_RESERVED_OP_CODE
        by decide)

/-- The completion event of CSCPS re-establishes the busy discipline: afterwards
the task is not in `CSCPS_BUSY` and no operation is recorded. -/
theorem cscps_send_cmp_evt_busy_inv (env : cscps_task.cscps_env_tag)
    (state src_id dest_id conhdl operation status : Nat) :
    cscps_busy_inv
      (cscps_task.cscps_send_cmp_evt env state src_id dest_id conhdl operation status).env
      (cscps_task.cscps_send_cmp_evt env state src_id dest_id conhdl operation status).state := by
  have hcb : cscps_task.CSCPS_CONNECTED ≠ cscps_task.CSCPS_BUSY := by decide
  unfold cscps_busy_inv cscps_task.cscps_send_cmp_evt
  simp only []
  split_ifs with h
  · exact ⟨fun h2 => absurd h2 hcb, fun h2 => absurd rfl h2⟩
  · exact ⟨fun h2 => absurd h2 h, fun h2 => absurd rfl h2⟩

/-- C22: the busy discipline of CSCPS is an invariant of the handlers.  If the
task state is `CSCPS_BUSY` exactly when `cscps_env.operation` is not
`CSCPS_RESERVED_OP_CODE`, the same holds after each of
`cscps_create_db_req_handler`, `cscps_enable_req_handler`,
`cscps_ntf_csc_meas_cmd_handler`, `cscps_sc_ctnl_pt_cfm_handler` and
`gatt_write_cmd_ind_handler`, for every request; and in a state that is
connected and not busy the operation is `CSCPS_RESERVED_OP_CODE`, which is the
assertion made before a measurement is sent. -/
theorem C22_busy_discipline_invariant (S : Stack) (env : cscps_task.cscps_env_tag)
    (state : Nat) (hinv : cscps_busy_inv env state)
    (create : cscps_task.cscps_create_db_req) (enable : cscps_task.cscps_enable_req)
    (meas : cscps_task.cscps_ntf_csc_meas_cmd) (cfm : cscps_task.cscps_sc_ctnl_pt_cfm)
    (rsp : Nat → Nat) (write : gatt_write_cmd_ind) (dest_id src_id : Nat) :
    cscps_busy_inv (cscps_task.cscps_create_db_req_handler S env state create dest_id src_id).env
      (cscps_task.cscps_create_db_req_handler S env state create dest_id src_id).state ∧
    cscps_busy_inv (cscps_task.cscps_enable_req_handler S env state enable dest_id src_id).env
      (cscps_task.cscps_enable_req_handler S env state enable dest_id src_id).state ∧
    cscps_busy_inv (cscps_task.cscps_ntf_csc_meas_cmd_handler env state meas dest_id src_id).env
      (cscps_task.cscps_ntf_csc_meas_cmd_handler env state meas dest_id src_id).state ∧
    cscps_busy_inv
      (cscps_task.cscps_sc_ctnl_pt_cfm_handler env state cfm rsp dest_id src_id).env
      (cscps_task.cscps_sc_ctnl_pt_cfm_handler env state cfm rsp dest_id src_id).state ∧
    cscps_busy_inv (cscps_task.gatt_write_cmd_ind_handler env state write dest_id src_id).env
      (cscps_task.gatt_write_cmd_ind_handler env state write dest_id src_id).state ∧
    (state ≥ cscps_task.CSCPS_CONNECTED → state ≠ cscps_task.CSCPS_BUSY →
      env.operation = cscps_task.CSCPS_RESERVED_OP_CODE) := by
  unfold cscps_busy_inv at hinv ⊢
  have hsend : cscps_task.CSCPS_SEND_CSC_MEAS_OP_CODE ≠ cscps_task.CSCPS_RESERVED_OP_CODE := by
    decide
  have herr : cscps_task.CSCPS_CTNL_ERR_IND_OP_CODE ≠ cscps_task.CSCPS_RESERVED_OP_CODE := by
    decide
  refine ⟨?_, ?_, ?_, ?_, ?_, ?_⟩
  · unfold cscps_task.cscps_create_db_req_handler
    simp only []
    split_ifs <;> simp only [] <;> exact cscps_send_cmp_evt_busy_inv _ _ _ _ _ _ _
  · unfold cscps_task.cscps_enable_req_handler
    simp only []
    split_ifs <;> simp only [] <;> exact cscps_send_cmp_evt_busy_inv _ _ _ _ _ _ _
  · unfold cscps_task.cscps_ntf_csc_meas_cmd_handler
    simp only []
    split_ifs <;> simp only [] <;>
      first
      | exact hinv
      | exact cscps_send_cmp_evt_busy_inv _ _ _ _ _ _ _
      | exact ⟨fun _ => hsend, fun _ => trivial⟩
  · unfold cscps_task.cscps_sc_ctnl_pt_cfm_handler
    simp only []
    split_ifs <;> simp only [cscps_cfm_switch_operation] <;> exact hinv
  · unfold cscps_task.gatt_write_cmd_ind_handler cscps_task.write_ccc
      cscps_task.CSCPS_ENABLE_NTFIND cscps_task.CSCPS_DISABLE_NTFIND
    simp only []
    split_ifs with h1 h2 h3 h4 h5 h6 h7 h8 h9 h10 h11 h12 <;>
      first
      | exact hinv
      | exact ⟨fun _ => herr, fun _ => rfl⟩
      | exact ⟨fun _ => cscps_ctnl_pt_switch_operation env write.value (by assumption),
          fun _ => rfl⟩
  · intro _ h2
    by_contra h
    exact h2 (hinv.mpr h)

/-- C22 in the connected state with no operation recorded: the invariant holds
before, and after a measurement command the task is busy with the operation
"send measurement" recorded; after a write to the SC Control Point the task is
busy with a control point operation recorded. -/
theorem C22_busy_discipline_invariant_witness :
    cscps_busy_inv (exCscpsEnv 0x30 cscps_task.CSCPS_RESERVED_OP_CODE)
      cscps_task.CSCPS_CONNECTED ∧
    cscps_busy_inv
      (cscps_task.cscps_ntf_csc_meas_cmd_handler
        (exCscpsEnv 0x30 cscps_task.CSCPS_RESERVED_OP_CODE) cscps_task.CSCPS_CONNECTED
        exMeasCmd TASK_CSCPS 5).env
      (cscps_task.cscps_ntf_csc_meas_cmd_handler
        (exCscpsEnv 0x30 cscps_task.CSCPS_RESERVED_OP_CODE) cscps_task.CSCPS_CONNECTED
        exMeasCmd TASK_CSCPS 5).state ∧
    (cscps_task.cscps_ntf_csc_meas_cmd_handler
        (exCscpsEnv 0x30 cscps_task.CSCPS_RESERVED_OP_CODE) cscps_task.CSCPS_CONNECTED
        exMeasCmd TASK_CSCPS 5).state = cscps_task.CSCPS_BUSY ∧
    (cscps_task.cscps_ntf_csc_meas_cmd_handler
        (exCscpsEnv 0x30 cscps_task.CSCPS_RESERVED_OP_CODE) cscps_task.CSCPS_CONNECTED
        exMeasCmd TASK_CSCPS 5).env.operation = cscps_task.CSCPS_SEND_CSC_MEAS_OP_CODE ∧
    cscps_busy_inv
      (cscps_task.gatt_write_cmd_ind_handler
        (exCscpsEnv 0x30 cscps_task.CSCPS_RESERVED_OP_CODE) cscps_task.CSCPS_CONNECTED
        (exWrite 73 cscps_task.CSCP_CTNL_PT_OP_SET_CUMUL_VAL 0) TASK_CSCPS 5).env
      (cscps_task.gatt_write_cmd_ind_handler
        (exCscpsEnv 0x30 cscps_task.CSCPS_RESERVED_OP_CODE) cscps_task.CSCPS_CONNECTED
        (exWrite 73 cscps_task.CSCP_CTNL_PT_OP_SET_CUMUL_VAL 0) TASK_CSCPS 5).state ∧
    (cscps_task.gatt_write_cmd_ind_handler
        (exCscpsEnv 0x30 cscps_task.CSCPS_RESERVED_OP_CODE) cscps_task.CSCPS_CONNECTED
        (exWrite 73 cscps_task.CSCP_CTNL_PT_OP_SET_CUMUL_VAL 0) TASK_CSCPS 5).state
      = cscps_task.CSCPS_BUSY :=
  have hinv : cscps_busy_inv (exCscpsEnv 0x30 cscps_task.CSCPS_RESERVED_OP_CODE)
      cscps_task.CSCPS_CONNECTED := by
    unfold cscps_busy_inv
    decide
  have h := C22_busy_discipline_invariant exStack
    (exCscpsEnv 0x30 cscps_task.CSCPS_RESERVED_OP_CODE) cscps_task.CSCPS_CONNECTED hinv
    ⟨7, 1, 0⟩ (exCscpsEnable 1 2) exMeasCmd (exCtnlPtCfm 0 0) (fun _ => 0)
    (exWrite 73 cscps_task.CSCP_CTNL_PT_OP_SET_CUMUL_VAL 0) TASK_CSCPS 5
  ⟨hinv, h.2.2.1, by decide, by decide, h.2.2.2.2.1, by decide⟩


/-- C23 (evaluation at the failing input, and the case the handler does
refuse): the task owns connection `1`, the Scan Refresh characteristic is
supported and its notifications are enabled.  A request for connection `2` with
the Scan Refresh value `1` is not refused: the handler writes the value to the
attribute database, sends a `GATT_NOTIFY_REQ` on connection `1` and sends no
confirmation.  For every environment, a request whose connection handle differs
is refused with `PRF_ERR_INVALID_PARAM`, as the only call, exactly when its Scan
Refresh value is `SCPP_SERVER_REQUIRES_REFRESH`. -/
theorem C23_scan_refresh_wrong_conhdl_accepted :
    (⟨2, 1⟩ : scpps_task.scpps_scan_refresh_send_req).conhdl ≠ exScppsEnvNtf.con_info.conhdl ∧
    (scpps_task.scpps_scan_refresh_send_req_handler exScppsEnvNtf scpps_task.SCPPS_CONNECTED
        ⟨2, 1⟩ TASK_SCPPS 5).calls =
      [Call.attsdb_att_set_value 52 1 [1],
       Call.ke_msg_send ⟨.GATT_NOTIFY_REQ, TASK_GATT, TASK_SCPPS, .gatt_notify_req 1 52⟩] ∧
    (∀ (env : scpps_task.scpps_env_tag) (state : Nat)
        (param : scpps_task.scpps_scan_refresh_send_req) (dest_id src_id : Nat),
      param.conhdl ≠ env.con_info.conhdl →
      ((scpps_task.scpps_scan_refresh_send_req_handler env state param dest_id src_id).calls
          = [Call.scpps_scan_refresh_cfm_send PRF_ERR_INVALID_PARAM] ↔
        param.scan_refresh = scpps_task.SCPP_SERVER_REQUIRES_REFRESH)) := by
  refine ⟨by decide, by decide, ?_⟩
  intro env state param dest_id src_id hc
  unfold scpps_task.scpps_scan_refresh_send_req_handler
  simp only []
  by_cases hs : param.scan_refresh = scpps_task.SCPP_SERVER_REQUIRES_REFRESH
  · simp only [hs, iff_true]
    rw [if_neg (by simp [hc])]
    simp [PRF_ERR_INVALID_PARAM, PRF_ERR_OK]
  · simp only [hs, iff_false]
    rw [if_pos (Or.inr hs)]
    split_ifs <;> simp_all [PRF_ERR_INVALID_PARAM, PRF_ERR_OK, PRF_ERR_NTF_DISABLED,
      scpps_task.PRF_ERR_FEATURE_NOT_SUPPORTED]


/-- The flag "wheel revolution data present" stays in the flags of a measurement
when the sensor supports wheel revolution data. -/
theorem cscps_meas_flags_wheel (env : cscps_task.cscps_env_tag) (flags : Nat)
    (hsup : env.prf_cfg &&& cscps_task.CSCP_FEAT_WHEEL_REV_DATA_SUPP
      = cscps_task.CSCP_FEAT_WHEEL_REV_DATA_SUPP)
    (hpres : flags &&& cscps_task.CSCP_MEAS_WHEEL_REV_DATA_PRESENT
      = cscps_task.CSCP_MEAS_WHEEL_REV_DATA_PRESENT) :
    cscps_task.CSCPS_IS_PRESENT (cscps_task.meas_flags env flags)
      cscps_task.CSCP_MEAS_WHEEL_REV_DATA_PRESENT = true := by
  have h1 : flags % 2 = 1 := by
    have := Nat.and_one_is_mod flags
    simp only [cscps_task.CSCP_MEAS_WHEEL_REV_DATA_PRESENT] at hpres
    omega
  have h4 : flags &&& cscps_task.CSCP_MEAS_ALL_PRESENT = flags % 4 :=
    Nat.and_pow_two_sub_one_eq_mod flags 2
  have hs : cscps_task.CSCPS_IS_FEATURE_SUPPORTED env.prf_cfg
      cscps_task.CSCP_FEAT_WHEEL_REV_DATA_SUPP = true := by
    unfold cscps_task.CSCPS_IS_FEATURE_SUPPORTED
    exact decide_eq_true hsup
  unfold cscps_task.meas_flags
  simp only [h4, hs]
  have h13 : flags % 4 = 1 ∨ flags % 4 = 3 := by omega
  rcases h13 with h | h <;> rw [h] <;>
    cases cscps_task.CSCPS_IS_FEATURE_SUPPORTED env.prf_cfg
      cscps_task.CSCP_FEAT_CRANK_REV_DATA_SUPP <;> decide

/-- C24: the update of the cumulative wheel revolutions by
`cscps_ntf_csc_meas_cmd_handler`.  In a connected state that is not busy, for a
command on the owned connection with notifications enabled, wheel revolution
data present in the flags and supported by the sensor, an old total `t` below
`2 ^ 32` and every increment `d`: the new total is `(t + d) mod 2 ^ 32` when
`d` is not negative, `t - |d|` when `d` is negative and `|d|` is at most `t`,
and `0` when `d` is negative and `|d|` is above `t`; the value written to the
attribute database is the flags byte followed by the four bytes of the new
total, little-endian, and the rest of the measurement, with its length. -/
theorem C24_wheel_revol_update (env : cscps_task.cscps_env_tag) (state : Nat)
    (param : cscps_task.cscps_ntf_csc_meas_cmd) (dest_id src_id : Nat)
    (hst : state ≥ cscps_task.CSCPS_CONNECTED) (hnb : state ≠ cscps_task.CSCPS_BUSY)
    (hc : param.conhdl = env.con_info.conhdl)
    (hntf : env.prf_cfg &&& cscps_task.CSCP_PRF_CFG_FLAG_CSC_MEAS_NTF
      = cscps_task.CSCP_PRF_CFG_FLAG_CSC_MEAS_NTF)
    (hsup : env.prf_cfg &&& cscps_task.CSCP_FEAT_WHEEL_REV_DATA_SUPP
      = cscps_task.CSCP_FEAT_WHEEL_REV_DATA_SUPP)
    (hpres : param.flags &&& cscps_task.CSCP_MEAS_WHEEL_REV_DATA_PRESENT
      = cscps_task.CSCP_MEAS_WHEEL_REV_DATA_PRESENT)
    (ht : env.wheel_revol < 2 ^ 32) :
    (0 ≤ param.wheel_rev →
      (cscps_task.cscps_ntf_csc_meas_cmd_handler env state param dest_id src_id).env.wheel_revol
        = (env.wheel_revol + param.wheel_rev.toNat) % 2 ^ 32) ∧
    (param.wheel_rev < 0 → param.wheel_rev.natAbs ≤ env.wheel_revol →
      (cscps_task.cscps_ntf_csc_meas_cmd_handler env state param dest_id src_id).env.wheel_revol
        = env.wheel_revol - param.wheel_rev.natAbs) ∧
    (param.wheel_rev < 0 → env.wheel_revol < param.wheel_rev.natAbs →
      (cscps_task.cscps_ntf_csc_meas_cmd_handler env state param dest_id src_id).env.wheel_revol
        = 0) ∧
    (∃ rest,
      (cscps_task.cscps_ntf_csc_meas_cmd_handler env state param dest_id src_id).calls.head? =
        some (Call.attsdb_att_set_value (u16 (env.shdl + cscps_task.CSCS_IDX_CSC_MEAS_VAL))
          (5 + rest.length)
          (cscps_task.meas_flags env param.flags ::
            u8 (cscps_task.cscps_ntf_csc_meas_cmd_handler env state param dest_id
              src_id).env.wheel_revol ::
            u8 ((cscps_task.cscps_ntf_csc_meas_cmd_handler env state param dest_id
              src_id).env.wheel_revol / 256) ::
            u8 ((cscps_task.cscps_ntf_csc_meas_cmd_handler env state param dest_id
              src_id).env.wheel_revol / 65536) ::
            u8 ((cscps_task.cscps_ntf_csc_meas_cmd_handler env state param dest_id
              src_id).env.wheel_revol / 16777216) :: rest))) := by
  have hw := cscps_meas_flags_wheel env param.flags hsup hpres
  have hn : cscps_task.CSCPS_IS_NTFIND_ENABLED env cscps_task.CSCP_PRF_CFG_FLAG_CSC_MEAS_NTF
      = true := by
    unfold cscps_task.CSCPS_IS_NTFIND_ENABLED
    exact decide_eq_true hntf
  have hr : cscps_task.cscps_ntf_csc_meas_cmd_handler env state param dest_id src_id =
      { env := { env with
          wheel_revol := cscps_task.wheel_update env.wheel_revol param.wheel_rev,
          operation := cscps_task.CSCPS_SEND_CSC_MEAS_OP_CODE },
        state := cscps_task.CSCPS_BUSY,
        calls := (cscps_task.cscps_ntf_csc_meas_cmd_handler env state param dest_id
          src_id).calls,
        ret := .KE_MSG_CONSUMED } := by
    unfold cscps_task.cscps_ntf_csc_meas_cmd_handler
    simp only []
    rw [if_pos hst, if_neg (by simp [hc]), if_neg (by simp [hn]), if_neg hnb]
    simp only [hw, if_true]
  have henv : (cscps_task.cscps_ntf_csc_meas_cmd_handler env state param dest_id
      src_id).env.wheel_revol = cscps_task.wheel_update env.wheel_revol param.wheel_rev := by
    rw [hr]
  rw [henv]
  have h32 : (2 : Nat) ^ 32 = 4294967296 := by norm_num
  rw [h32] at ht ⊢
  refine ⟨?_, ?_, ?_, ?_⟩
  · intro hd
    unfold cscps_task.wheel_update u32i
    rw [if_neg (by omega)]
    omega
  · intro hd hle
    unfold cscps_task.wheel_update u32i
    rw [if_pos hd, if_neg (by omega)]
    omega
  · intro hd hlt
    unfold cscps_task.wheel_update
    rw [if_pos hd, if_pos (by omega)]
  · unfold cscps_task.cscps_ntf_csc_meas_cmd_handler
    simp only []
    rw [if_pos hst, if_neg (by simp [hc]), if_neg (by simp [hn]), if_neg hnb]
    simp only [hw, if_true, bytes32, List.singleton_append, List.cons_append, List.head?_cons]
    split_ifs
    · refine ⟨bytes16 param.last_wheel_evt_time ++ (bytes16 param.cumul_crank_rev ++
        bytes16 param.last_crank_evt_time), ?_⟩
      simp [bytes16]
    · refine ⟨bytes16 param.last_wheel_evt_time, ?_⟩
      simp [bytes16]

/-- C24 at the totals 5 and `2 ^ 32 - 1`: the increment `-3` gives 2, the
increment `-7` gives 0, and the increment `2` wraps to 1. -/
theorem C24_wheel_revol_update_witness :
    (cscps_task.cscps_ntf_csc_meas_cmd_handler (exCscpsEnvWheel 5) cscps_task.CSCPS_CONNECTED
        (exMeasCmdWheel (-3)) TASK_CSCPS 5).env.wheel_revol = 2 ∧
    (cscps_task.cscps_ntf_csc_meas_cmd_handler (exCscpsEnvWheel 5) cscps_task.CSCPS_CONNECTED
        (exMeasCmdWheel (-7)) TASK_CSCPS 5).env.wheel_revol = 0 ∧
    (cscps_task.cscps_ntf_csc_meas_cmd_handler (exCscpsEnvWheel 4294967295)
        cscps_task.CSCPS_CONNECTED (exMeasCmdWheel 2) TASK_CSCPS 5).env.wheel_revol = 1 ∧
    (cscps_task.cscps_ntf_csc_meas_cmd_handler (exCscpsEnvWheel 5) cscps_task.CSCPS_CONNECTED
        (exMeasCmdWheel (-3)) TASK_CSCPS 5).calls.head? =
      some (Call.attsdb_att_set_value 66 7 [1, 2, 0, 0, 0, 9, 0]) :=
  ⟨(C24_wheel_revol_update (exCscpsEnvWheel 5) cscps_task.CSCPS_CONNECTED (exMeasCmdWheel (-3))
      TASK_CSCPS 5 (by decide) (by decide) rfl (by decide) (by decide) (by decide)
      (by decide)).2.1 (by decide) (by decide),
   (C24_wheel_revol_update (exCscpsEnvWheel 5) cscps_task.CSCPS_CONNECTED (exMeasCmdWheel (-7))
      TASK_CSCPS 5 (by decide) (by decide) rfl (by decide) (by decide) (by decide)
      (by decide)).2.2.1 (by decide) (by decide),
   (C24_wheel_revol_update (exCscpsEnvWheel 4294967295) cscps_task.CSCPS_CONNECTED
      (exMeasCmdWheel 2) TASK_CSCPS 5 (by decide) (by decide) rfl (by decide) (by decide)
      (by decide) (by decide)).1 (by decide),
   by decide⟩


/-- A byte shifted right by 8 or more is zero. -/
theorem shiftRight_of_lt_256 {m k : Nat} (hm : m < 256) (hk : 8 ≤ k) : m >>> k = 0 := by
  rw [Nat.shiftRight_eq_div_pow]
  apply Nat.div_eq_of_lt
  calc m < 256 := hm
    _ = 2 ^ 8 := by norm_num
    _ ≤ 2 ^ k := Nat.pow_le_pow_right (by norm_num) hk

/-- C25 (evaluation at the failing input, and the behaviour from category 8
on): with `cat_id_mask_0 = 0` and `cat_id_mask_1 = 0x01` category 8 is
supported, yet the search from `last_req = 0` returns false with
`last_req = CAT_ID_NB`.  For every pair of byte masks and every start from
`CAT_ID_HIGH_PRTY_ALERT` to `CAT_ID_NB` the function returns false with
`last_req = CAT_ID_NB`: the second loop tests bit `last_req` of
`cat_id_mask_1`, which no byte has. -/
theorem C25_found_next_alert_cat_second_mask_unread :
    anp_cat_supported ⟨0, 1⟩ 8 = true ∧
    anpc.anpc_found_next_alert_cat 11 0 0 ⟨0, 1⟩ = some (false, anpc.CAT_ID_NB) ∧
    (∀ (cat_id : anpc.anp_cat_id_bit_mask) (s alert_type fuel : Nat),
      cat_id.cat_id_mask_1 < 256 → anpc.CAT_ID_HIGH_PRTY_ALERT ≤ s → s ≤ anpc.CAT_ID_NB →
      3 ≤ fuel →
      anpc.anpc_found_next_alert_cat fuel s alert_type cat_id = some (false, anpc.CAT_ID_NB)) := by
  refine ⟨by decide, by decide, ?_⟩
  intro cat_id s alert_type fuel hm h8 h10 hf
  simp only [anpc.CAT_ID_HIGH_PRTY_ALERT, anpc.CAT_ID_NB] at h8 h10
  obtain ⟨n, rfl⟩ : ∃ n, fuel = n + 3 := ⟨fuel - 3, by omega⟩
  unfold anpc.anpc_found_next_alert_cat
  simp only [anpc.CAT_ID_HIGH_PRTY_ALERT, anpc.CAT_ID_NB]
  rw [if_neg (by omega)]
  simp only []
  rw [if_pos (by omega)]
  have hs : s = 8 ∨ s = 9 ∨ s = 10 := by omega
  rcases hs with h | h | h <;> subst h
  · simp [anpc.found_loop, shiftRight_of_lt_256 hm (Nat.le_refl 8),
      shiftRight_of_lt_256 hm (by omega : 8 ≤ 9), u8]
  · simp [anpc.found_loop, shiftRight_of_lt_256 hm (by omega : 8 ≤ 9), u8]
  · simp [anpc.found_loop]


/-- C26 (evaluation at the failing input, and the value written in general):
`anpc_write_alert_ntf_ctnl_pt` makes exactly one GATT characteristic write, to
the Alert Notification Control Point value handle of the connection, and for
every `cmd_id` and `cat_id` the two bytes written are `(cmd_id, cmd_id)`: the
category identifier is not used.  With `cmd_id = 0` and `cat_id = 3` the bytes
`[0, 0]` are written to handle `40`, not `[0, 3]`. -/
theorem C26_write_alert_ntf_ctnl_pt_ignores_cat_id :
    (∀ (idx_env : anpc.anpc_ans_env) (cmd_id cat_id : Nat),
      anpc.anpc_write_alert_ntf_ctnl_pt idx_env cmd_id cat_id =
        [Call.prf_gatt_write idx_env.con_info
          (idx_env.val_hdl anpc.ANPC_CHAR_ALERT_NTF_CTNL_PT) [cmd_id, cmd_id] 2
          anpc.GATT_WRITE_CHAR]) ∧
    anpc.anpc_write_alert_ntf_ctnl_pt exAnpcEnv 0 3 =
      [Call.prf_gatt_write ⟨1, 5, 36⟩ 40 [0, 0] 2 anpc.GATT_WRITE_CHAR] ∧
    anpc.anpc_write_alert_ntf_ctnl_pt exAnpcEnv 0 3 ≠
      [Call.prf_gatt_write ⟨1, 5, 36⟩ 40 [0, 3] 2 anpc.GATT_WRITE_CHAR] :=
  ⟨fun _ _ _ => rfl, by decide, by decide⟩


/-- C27 (evaluation at the failing input, and the behaviour in general):
`hogpd_init_ntf_cfg` called for a normal connection with
`ntf_cfg = PRF_CLI_START_NTF`, the flag byte `0` and the mask
`HOGPD_BOOT_KB_IN_NTF_CFG_MASK` leaves the flag byte
`HOGPD_REPORT_NTF_CFG_MASK`, not the mask of the call.  For every flag byte,
mask, handle, `ntf_cfg` and connection type the new flag is the old flag with
`HOGPD_REPORT_NTF_CFG_MASK` set when the connection is normal and `ntf_cfg` is
`PRF_CLI_START_NTF`, and the old flag otherwise, whatever the mask; the value
written at the handle is `ntf_cfg` for a normal connection and `0x0000` for any
other. -/
theorem C27_init_ntf_cfg_ignores_mask :
    (hogpd.hogpd_init_ntf_cfg PRF_CLI_START_NTF 85 PRF_CON_NORMAL 0
        hogpd.HOGPD_BOOT_KB_IN_NTF_CFG_MASK).1 = hogpd.HOGPD_REPORT_NTF_CFG_MASK ∧
    (hogpd.hogpd_init_ntf_cfg PRF_CLI_START_NTF 85 PRF_CON_NORMAL 0
        hogpd.HOGPD_BOOT_KB_IN_NTF_CFG_MASK).1 ≠ 0 ||| hogpd.HOGPD_BOOT_KB_IN_NTF_CFG_MASK ∧
    (∀ ntf_cfg handle con_type flag mask : Nat,
      (hogpd.hogpd_init_ntf_cfg ntf_cfg handle con_type flag mask).1 =
        (if con_type = PRF_CON_NORMAL ∧ u16 ntf_cfg = PRF_CLI_START_NTF
         then u8 (flag ||| hogpd.HOGPD_REPORT_NTF_CFG_MASK) else flag) ∧
      (hogpd.hogpd_init_ntf_cfg ntf_cfg handle con_type flag mask).2 =
        [Call.attsdb_att_set_value handle 2
          (bytes16 (if con_type = PRF_CON_NORMAL then u16 ntf_cfg else PRF_CLI_STOP_NTFIND))]) := by
  refine ⟨by decide, by decide, ?_⟩
  intro ntf_cfg handle con_type flag mask
  unfold hogpd.hogpd_init_ntf_cfg
  simp only []
  split_ifs <;> simp_all


/-- One iteration of the search of `hogpd_get_att` that starts without a
result: either it changes nothing and the offset is no attribute of the
characteristic, or it finds an attribute of the characteristic and writes the
outputs that identify it. -/
theorem hogpd_get_att_body_spec (env : hogpd.hogpd_env_tag) (svc offset att : Nat)
    (s : hogpd.GetAtt) (hs : s.found = PRF_APP_ERROR) :
    (hogpd.get_att_body env svc offset att s = s ∧
      ∀ k, ¬ (offset = env.att_tbl svc att + k ∧
        (k = 1 ∨
         (k = 2 ∧ (att = hogpd.HOGPD_BOOT_KB_IN_REPORT_CHAR ∨
           att = hogpd.HOGPD_BOOT_MOUSE_IN_REPORT_CHAR)) ∨
         (k = 3 ∧ att ≥ hogpd.HOGPD_REPORT_CHAR)))) ∨
    ((hogpd.get_att_body env svc offset att s).found = PRF_ERR_OK ∧
      (hogpd.get_att_body env svc offset att s).hids_nb = s.hids_nb ∧
      ∃ k, (offset = env.att_tbl svc att + k ∧
        (k = 1 ∨
         (k = 2 ∧ (att = hogpd.HOGPD_BOOT_KB_IN_REPORT_CHAR ∨
           att = hogpd.HOGPD_BOOT_MOUSE_IN_REPORT_CHAR)) ∨
         (k = 3 ∧ att ≥ hogpd.HOGPD_REPORT_CHAR))) ∧
        (hogpd.get_att_body env svc offset att s).char_code
          = (hogpd_att_decode att k s.report_nb).1 ∧
        (hogpd.get_att_body env svc offset att s).report_nb
          = (hogpd_att_decode att k s.report_nb).2) := by
  have hne : PRF_ERR_OK ≠ PRF_APP_ERROR := by decide
  obtain ⟨found, cc, hn, rn⟩ := s
  simp only at hs
  subst hs
  by_cases h1 : offset = env.att_tbl svc att + 1
  · right
    by_cases h7 : att ≥ hogpd.HOGPD_REPORT_CHAR
    · refine ⟨?_, ?_, 1, ⟨h1, Or.inl rfl⟩, ?_, ?_⟩ <;>
        simp [hogpd.get_att_body, h1, h7, hogpd_att_decode, hne]
    · refine ⟨?_, ?_, 1, ⟨h1, Or.inl rfl⟩, ?_, ?_⟩ <;>
        simp [hogpd.get_att_body, h1, h7, hogpd_att_decode, hne]
  · by_cases h2 : (att = hogpd.HOGPD_BOOT_KB_IN_REPORT_CHAR ∨
        att = hogpd.HOGPD_BOOT_MOUSE_IN_REPORT_CHAR) ∧ offset = env.att_tbl svc att + 2
    · right
      have h7 : ¬ att ≥ hogpd.HOGPD_REPORT_CHAR := by
        simp only [hogpd.HOGPD_BOOT_KB_IN_REPORT_CHAR, hogpd.HOGPD_BOOT_MOUSE_IN_REPORT_CHAR,
          hogpd.HOGPD_REPORT_CHAR] at h2 ⊢
        omega
      refine ⟨?_, ?_, 2, ⟨h2.2, Or.inr (Or.inl ⟨rfl, h2.1⟩)⟩, ?_, ?_⟩ <;>
        simp [hogpd.get_att_body, h1, h2.1, h2.2, hogpd_att_decode, hne]
    · by_cases h3 : att ≥ hogpd.HOGPD_REPORT_CHAR ∧ offset = env.att_tbl svc att + 3
      · right
        have hkm : ¬ (att = hogpd.HOGPD_BOOT_KB_IN_REPORT_CHAR ∨
            att = hogpd.HOGPD_BOOT_MOUSE_IN_REPORT_CHAR) := by
          simp only [hogpd.HOGPD_BOOT_KB_IN_REPORT_CHAR, hogpd.HOGPD_BOOT_MOUSE_IN_REPORT_CHAR,
            hogpd.HOGPD_REPORT_CHAR] at h3 ⊢
          omega
        have h23 : u8 (hogpd.HOGPD_REPORT_CHAR ||| hogpd.HOGPD_DESC_MASK)
            = hogpd.HOGPD_REPORT_CHAR ||| hogpd.HOGPD_DESC_MASK := by decide
        refine ⟨?_, ?_, 3, ⟨h3.2, Or.inr (Or.inr ⟨rfl, h3.1⟩)⟩, ?_, ?_⟩ <;>
          simp [hogpd.get_att_body, h1, hkm, h3.1, h3.2, hogpd_att_decode, hne, h23]
      · left
        constructor
        · unfold hogpd.get_att_body
          simp only [if_neg h1]
          split_ifs <;> first | rfl | (exfalso; tauto)
        · rintro k ⟨hk, hv⟩
          rcases hv with rfl | ⟨rfl, hv⟩ | ⟨rfl, hv⟩
          · exact h1 hk
          · exact h2 ⟨hv, hk⟩
          · exact h3 ⟨hv, hk⟩

/-- The loop over the characteristics of `hogpd_get_att` does nothing once a
result is found. -/
theorem hogpd_get_att_att_loop_found (env : hogpd.hogpd_env_tag) (svc offset n att : Nat)
    (s : hogpd.GetAtt) (hs : s.found ≠ PRF_APP_ERROR) :
    hogpd.get_att_att_loop env svc offset n att s = s := by
  cases n with
  | zero => rfl
  | succ n =>
    unfold hogpd.get_att_att_loop
    rw [if_neg (fun h => hs h.2)]

/-- The loop over the characteristics of `hogpd_get_att`, run from
characteristic `att` to the last one without a result at the start: either it
changes nothing and the offset is no attribute of these characteristics, or it
finds an attribute of one of them and writes the outputs that identify it. -/
theorem hogpd_get_att_att_loop_spec (env : hogpd.hogpd_env_tag) (svc offset : Nat) :
    ∀ (n att : Nat) (s : hogpd.GetAtt), s.found = PRF_APP_ERROR →
      att + n = hogpd.HOGPD_CHAR_MAX →
      (hogpd.get_att_att_loop env svc offset n att s = s ∧
        ∀ a, att ≤ a → a < hogpd.HOGPD_CHAR_MAX → ∀ k,
          ¬ (offset = env.att_tbl svc a + k ∧
            (k = 1 ∨
             (k = 2 ∧ (a = hogpd.HOGPD_BOOT_KB_IN_REPORT_CHAR ∨
               a = hogpd.HOGPD_BOOT_MOUSE_IN_REPORT_CHAR)) ∨
             (k = 3 ∧ a ≥ hogpd.HOGPD_REPORT_CHAR)))) ∨
      ((hogpd.get_att_att_loop env svc offset n att s).found = PRF_ERR_OK ∧
        (hogpd.get_att_att_loop env svc offset n att s).hids_nb = s.hids_nb ∧
        ∃ a k, a < hogpd.HOGPD_CHAR_MAX ∧
          (offset = env.att_tbl svc a + k ∧
            (k = 1 ∨
             (k = 2 ∧ (a = hogpd.HOGPD_BOOT_KB_IN_REPORT_CHAR ∨
               a = hogpd.HOGPD_BOOT_MOUSE_IN_REPORT_CHAR)) ∨
             (k = 3 ∧ a ≥ hogpd.HOGPD_REPORT_CHAR))) ∧
          (hogpd.get_att_att_loop env svc offset n att s).char_code
            = (hogpd_att_decode a k s.report_nb).1 ∧
          (hogpd.get_att_att_loop env svc offset n att s).report_nb
            = (hogpd_att_decode a k s.report_nb).2) := by
  intro n
  induction n with
  | zero =>
    intro att s _ hn
    left
    refine ⟨rfl, ?_⟩
    intro a h1 h2
    omega
  | succ n ih =>
    intro att s hs hn
    have hlt : att < hogpd.HOGPD_CHAR_MAX := by omega
    unfold hogpd.get_att_att_loop
    rw [if_pos ⟨hlt, hs⟩]
    rcases hogpd_get_att_body_spec env svc offset att s hs with ⟨hb, hno⟩ | ⟨hf, hh, k, hm, hc, hr⟩
    · rw [hb]
      rcases ih (att + 1) s hs (by omega) with ⟨hl, hno2⟩ | hfound
      · left
        refine ⟨hl, ?_⟩
        intro a h1 h2 k
        by_cases ha : a = att
        · subst ha
          exact hno k
        · exact hno2 a (by omega) h2 k
      · right
        exact hfound
    · right
      have hne : (hogpd.get_att_body env svc offset att s).found ≠ PRF_APP_ERROR := by
        rw [hf]
        decide
      rw [hogpd_get_att_att_loop_found env svc offset n (att + 1) _ hne]
      exact ⟨hf, hh, att, k, hlt, hm, hc, hr⟩

/-- The loop over the HIDS instances of `hogpd_get_att` does nothing once a
result is found. -/
theorem hogpd_get_att_svc_loop_found (env : hogpd.hogpd_env_tag) (handle n svc : Nat)
    (s : hogpd.GetAtt) (hs : s.found ≠ PRF_APP_ERROR) :
    hogpd.get_att_svc_loop env handle n svc s = s := by
  cases n with
  | zero => rfl
  | succ n =>
    unfold hogpd.get_att_svc_loop
    rw [if_neg (fun h => hs h.2)]

/-- The loop over the HIDS instances of `hogpd_get_att`, run from instance `svc`
to the last one without a result at the start: either nothing is found, the
outputs `char_code` and `report_nb` are unchanged and the handle matches no
attribute of these instances, or an attribute of one of them is found and the
outputs identify it. -/
theorem hogpd_get_att_svc_loop_spec (env : hogpd.hogpd_env_tag) (handle : Nat) :
    ∀ (n svc : Nat) (s : hogpd.GetAtt), s.found = PRF_APP_ERROR →
      svc + n = env.hids_nb →
      ((hogpd.get_att_svc_loop env handle n svc s).found = PRF_APP_ERROR ∧
        (hogpd.get_att_svc_loop env handle n svc s).char_code = s.char_code ∧
        (hogpd.get_att_svc_loop env handle n svc s).report_nb = s.report_nb ∧
        ∀ v, svc ≤ v → v < env.hids_nb → ∀ a, a < hogpd.HOGPD_CHAR_MAX → ∀ k,
          ¬ hogpd_att_match env handle v a k) ∨
      ((hogpd.get_att_svc_loop env handle n svc s).found = PRF_ERR_OK ∧
        (hogpd.get_att_svc_loop env handle n svc s).hids_nb < env.hids_nb ∧
        ∃ a k, a < hogpd.HOGPD_CHAR_MAX ∧
          hogpd_att_match env handle (hogpd.get_att_svc_loop env handle n svc s).hids_nb a k ∧
          (hogpd.get_att_svc_loop env handle n svc s).char_code
            = (hogpd_att_decode a k s.report_nb).1 ∧
          (hogpd.get_att_svc_loop env handle n svc s).report_nb
            = (hogpd_att_decode a k s.report_nb).2) := by
  intro n
  induction n with
  | zero =>
    intro svc s hs hn
    left
    refine ⟨hs, rfl, rfl, ?_⟩
    intro v h1 h2
    omega
  | succ n ih =>
    intro svc s hs hn
    have hlt : svc < env.hids_nb := by omega
    unfold hogpd.get_att_svc_loop
    rw [if_pos ⟨hlt, hs⟩]
    simp only []
    rcases hogpd_get_att_att_loop_spec env svc (u8i ((handle : Int) - (env.shdl svc : Int)))
        hogpd.HOGPD_CHAR_MAX hogpd.HOGPD_HID_INFO_CHAR { s with hids_nb := svc } hs
        (by decide) with ⟨hb, hno⟩ | ⟨hf, hh, a, k, ha, hm, hc, hr⟩
    · rw [hb]
      rcases ih (svc + 1) { s with hids_nb := svc } hs (by omega) with
        ⟨h1, h2, h3, hno2⟩ | hfound
      · left
        refine ⟨h1, h2, h3, ?_⟩
        intro v hv1 hv2 a ha k
        by_cases hv : v = svc
        · subst hv
          exact hno a (Nat.zero_le _) ha k
        · exact hno2 v (by omega) hv2 a ha k
      · right
        exact hfound
    · right
      have hne : (hogpd.get_att_att_loop env svc (u8i ((handle : Int) - (env.shdl svc : Int)))
          hogpd.HOGPD_CHAR_MAX hogpd.HOGPD_HID_INFO_CHAR { s with hids_nb := svc }).found
          ≠ PRF_APP_ERROR := by
        rw [hf]
        decide
      rw [hogpd_get_att_svc_loop_found env handle n (svc + 1) _ hne]
      simp only [] at hh
      refine ⟨hf, by rw [hh]; exact hlt, a, k, ha, ?_, hc, hr⟩
      rw [hh]
      exact hm

/-- C28, counterexample: in an environment with one HIDS instance at start
handle `80` whose Protocol Mode characteristic (code `3`) is absent
(`att_tbl[0][3] = 0`), the handle `81` is found as the value of that
characteristic; and the handle `338 = 80 + 256 + 2` is found as the value of
characteristic `0`, although it is `shdl[0] + att_tbl[0][att] + k` for no
characteristic and no `k` up to 3. -/
theorem C28_get_att_absent_characteristic :
    (hogpd.hogpd_get_att exHogpdEnv3 81 0 0 0).found = PRF_ERR_OK ∧
    (hogpd.hogpd_get_att exHogpdEnv3 81 0 0 0).char_code = 3 ∧
    (hogpd.hogpd_get_att exHogpdEnv3 81 0 0 0).hids_nb = 0 ∧
    exHogpdEnv3.att_tbl 0 3 = 0 ∧
    (hogpd.hogpd_get_att exHogpdEnv3 338 0 0 0).found = PRF_ERR_OK ∧
    (hogpd.hogpd_get_att exHogpdEnv3 338 0 0 0).char_code = 0 ∧
    (hogpd.hogpd_get_att exHogpdEnv3 338 0 0 0).hids_nb = 0 ∧
    (∀ att, att < hogpd.HOGPD_CHAR_MAX → ∀ k, k ≤ 3 →
      338 ≠ exHogpdEnv3.shdl 0 + exHogpdEnv3.att_tbl 0 att + k) := by
  refine ⟨by decide, by decide, by decide, by decide, by decide, by decide, by decide, ?_⟩
  intro att ha k hk
  simp only [exHogpdEnv3, hogpd.HOGPD_CHAR_MAX, hogpd.HOGPD_REPORT_CHAR,
    hogpd.HOGPD_NB_REPORT_INST_MAX] at ha ⊢
  split_ifs <;> omega

/-- C28, amended: `hogpd_get_att` is a sound and complete lookup of the 8-bit
offset of a handle, for every handle, every environment and every content of
the outputs at entry.  It returns `PRF_ERR_OK` or `PRF_APP_ERROR`.  If it
returns `PRF_ERR_OK` then the output `hids_nb` is below `hogpd_env.hids_nb` and
there are a characteristic `att` and a `k` that the outputs `char_code` and
`report_nb` identify, such that `(handle - shdl[hids_nb]) mod 256` is
`att_tbl[hids_nb][att] + k`, with `k = 1` for a characteristic value, `k = 2`
for the boot keyboard or boot mouse input client configuration descriptor and
`k = 3` for a Report client configuration descriptor.  If it returns
`PRF_APP_ERROR` no instance, characteristic and `k` with that equality exist.
When the handle is in the 256 handles from `shdl[svc]` the equality is
`handle = shdl[svc] + att_tbl[svc][att] + k`. -/
theorem C28_hogpd_get_att (env : hogpd.hogpd_env_tag)
    (handle char_code hids_nb report_nb : Nat) :
    ((hogpd.hogpd_get_att env handle char_code hids_nb report_nb).found = PRF_ERR_OK ∨
      (hogpd.hogpd_get_att env handle char_code hids_nb report_nb).found = PRF_APP_ERROR) ∧
    ((hogpd.hogpd_get_att env handle char_code hids_nb report_nb).found = PRF_ERR_OK →
      (hogpd.hogpd_get_att env handle char_code hids_nb report_nb).hids_nb < env.hids_nb ∧
      ∃ att k, att < hogpd.HOGPD_CHAR_MAX ∧
        hogpd_att_match env handle
          (hogpd.hogpd_get_att env handle char_code hids_nb report_nb).hids_nb att k ∧
        (hogpd.hogpd_get_att env handle char_code hids_nb report_nb).char_code
          = (hogpd_att_decode att k report_nb).1 ∧
        (hogpd.hogpd_get_att env handle char_code hids_nb report_nb).report_nb
          = (hogpd_att_decode att k report_nb).2) ∧
    ((hogpd.hogpd_get_att env handle char_code hids_nb report_nb).found = PRF_APP_ERROR →
      ∀ svc, svc < env.hids_nb → ∀ att, att < hogpd.HOGPD_CHAR_MAX → ∀ k,
        ¬ hogpd_att_match env handle svc att k) ∧
    (∀ svc att k, hogpd_att_match env handle svc att k →
      env.shdl svc ≤ handle → handle < env.shdl svc + 256 →
      handle = env.shdl svc + env.att_tbl svc att + k) := by
  have hne : PRF_ERR_OK ≠ PRF_APP_ERROR := by decide
  have hspec := hogpd_get_att_svc_loop_spec env handle env.hids_nb 0
    ⟨PRF_APP_ERROR, char_code, hids_nb, report_nb⟩ rfl (by omega)
  unfold hogpd.hogpd_get_att
  refine ⟨?_, ?_, ?_, ?_⟩
  · rcases hspec with ⟨h, -⟩ | ⟨h, -⟩
    · exact Or.inr h
    · exact Or.inl h
  · intro hok
    rcases hspec with ⟨h, -⟩ | ⟨-, h2, h3⟩
    · rw [h] at hok
      exact absurd hok.symm hne
    · exact ⟨h2, h3⟩
  · intro herr
    rcases hspec with ⟨-, -, -, h⟩ | ⟨h, -⟩
    · intro svc hsvc att hatt k
      exact h svc (Nat.zero_le _) hsvc att hatt k
    · rw [h] at herr
      exact absurd herr hne
  · intro svc att k hm h1 h2
    unfold hogpd_att_match u8i at hm
    omega

/-- C28 amended, at the handles of the example environment: `82` is the value
of characteristic `0`, `91` the client configuration descriptor of the boot
keyboard input report, `98` that of the first Report; `97` is no attribute that
the function looks for. -/
theorem C28_hogpd_get_att_witness :
    hogpd.hogpd_get_att exHogpdEnv3 82 0xEE 0xEE 0xEE = ⟨PRF_ERR_OK, 0, 0, 0xEE⟩ ∧
    hogpd.hogpd_get_att exHogpdEnv3 91 0xEE 0xEE 0xEE = ⟨PRF_ERR_OK, 0x14, 0, 0⟩ ∧
    hogpd.hogpd_get_att exHogpdEnv3 98 0xEE 0xEE 0xEE = ⟨PRF_ERR_OK, 0x17, 0, 0⟩ ∧
    (hogpd.hogpd_get_att exHogpdEnv3 97 0xEE 0xEE 0xEE).found = PRF_APP_ERROR ∧
    (∀ svc, svc < exHogpdEnv3.hids_nb → ∀ att, att < hogpd.HOGPD_CHAR_MAX → ∀ k,
      ¬ hogpd_att_match exHogpdEnv3 97 svc att k) :=
  ⟨by decide, by decide, by decide, by decide,
    (C28_hogpd_get_att exHogpdEnv3 97 0xEE 0xEE 0xEE).2.2.1 (by decide)⟩


/-- The test of bit `c` made by the loop of `cscps_sc_ctnl_pt_cfm_handler`. -/
theorem shiftRight_and_one_eq (x c : Nat) : ((x >>> c) &&& 1 = 1) ↔ x.testBit c = true := by
  rw [Nat.testBit_to_div_mod, Nat.and_one_is_mod, Nat.shiftRight_eq_div_pow]
  simp

/-- The loop over the sensor locations of `cscps_sc_ctnl_pt_cfm_handler`, run
from `counter` to the last location: the response is extended by the locations
from `counter` on whose bit is set, in increasing order, and the buffer is not
written from the new length on. -/
theorem cscps_supp_loc_loop_spec (supp : Nat) :
    ∀ (n counter : Nat) (rsp : Nat → Nat) (len : Nat),
      counter + n = cscps_task.CSCP_LOC_MAX → len + n ≤ 255 →
      (cscps_task.supp_loc_loop supp n counter (rsp, len)).2 =
        len + ((List.range' counter n).filter (fun c => supp.testBit c)).length ∧
      (List.range (cscps_task.supp_loc_loop supp n counter (rsp, len)).2).map
          (cscps_task.supp_loc_loop supp n counter (rsp, len)).1 =
        (List.range len).map rsp ++ (List.range' counter n).filter (fun c => supp.testBit c) ∧
      (∀ k, (cscps_task.supp_loc_loop supp n counter (rsp, len)).2 ≤ k →
        (cscps_task.supp_loc_loop supp n counter (rsp, len)).1 k = rsp k) := by
  intro n
  induction n with
  | zero =>
    intro counter rsp len _ _
    simp [cscps_task.supp_loc_loop]
  | succ n ih =>
    intro counter rsp len hc hl
    have hlt : counter < cscps_task.CSCP_LOC_MAX := by omega
    unfold cscps_task.supp_loc_loop
    rw [if_pos hlt]
    simp only []
    rw [List.range'_succ, List.filter_cons]
    by_cases hb : supp.testBit counter = true
    · have hb2 : (supp >>> counter) &&& 1 = 1 := (shiftRight_and_one_eq supp counter).mpr hb
      have hu : u8 (len + 1) = len + 1 := u8_of_lt (by omega)
      rw [if_pos hb2, if_pos hb, hu]
      obtain ⟨h1, h2, h3⟩ := ih (counter + 1) (Function.update rsp len counter) (len + 1)
        (by omega) (by omega)
      refine ⟨?_, ?_, ?_⟩
      · rw [h1, List.length_cons]
        omega
      · rw [h2, List.range_succ, List.map_append, List.map_singleton, Function.update_same,
          List.append_assoc, List.singleton_append]
        congr 1
        apply List.map_congr_left
        intro k hk
        have : k ≠ len := by
          have := List.mem_range.mp hk
          omega
        rw [Function.update_noteq this]
      · intro k hk
        rw [h1] at hk
        rw [h3 k (by rw [h1]; exact hk), Function.update_noteq (by omega)]
    · have hb2 : ¬ ((supp >>> counter) &&& 1 = 1) :=
        fun h => hb ((shiftRight_and_one_eq supp counter).mp h)
      rw [if_neg hb2, if_neg hb]
      exact ih (counter + 1) rsp len (by omega) (by omega)

/-- The `switch` of `cscps_sc_ctnl_pt_cfm_handler` for the operation "request
supported sensor locations" confirmed with success: the response is the three
bytes at the start of the buffer, with the request code, followed by the
supported locations; the buffer is not written from its size on. -/
theorem cscps_cfm_switch_supp_loc (env : cscps_task.cscps_env_tag)
    (param : cscps_task.cscps_sc_ctnl_pt_cfm) (rsp : Nat → Nat)
    (hop : env.operation = cscps_task.CSCPS_CTNL_PT_SUPP_LOC_OP_CODE)
    (hst : param.status = PRF_ERR_OK) :
    (cscps_task.cfm_switch env param rsp).env = env ∧
    (cscps_task.cfm_switch env param rsp).calls = [] ∧
    (cscps_task.cfm_switch env param rsp).rsp_len
      = 3 + (cscp_supp_locs param.supp_sensor_loc).length ∧
    (List.range (cscps_task.cfm_switch env param rsp).rsp_len).map
        (cscps_task.cfm_switch env param rsp).rsp
      = [rsp 0, cscps_task.CSCP_CTNL_PT_OP_REQ_SUPP_LOC, rsp 2]
          ++ cscp_supp_locs param.supp_sensor_loc ∧
    (∀ k, cscps_task.CSCP_SC_CNTL_PT_RSP_MAX_LEN ≤ k →
      (cscps_task.cfm_switch env param rsp).rsp k = rsp k) := by
  obtain ⟨h1, h2, h3⟩ := cscps_supp_loc_loop_spec param.supp_sensor_loc
    cscps_task.CSCP_LOC_MAX 0 (Function.update rsp 1 cscps_task.CSCP_CTNL_PT_OP_REQ_SUPP_LOC)
    cscps_task.CSCP_SC_CNTL_PT_RSP_MIN_LEN (by omega) (by decide)
  rw [← List.range_eq_range'] at h1 h2
  have hmin : cscps_task.CSCP_SC_CNTL_PT_RSP_MIN_LEN = 3 := rfl
  have hmax : cscps_task.CSCP_SC_CNTL_PT_RSP_MAX_LEN = 18 := rfl
  have hlen : ((List.range cscps_task.CSCP_LOC_MAX).filter
      (fun c => param.supp_sensor_loc.testBit c)).length ≤ 15 := by
    have := List.length_filter_le (fun c => param.supp_sensor_loc.testBit c)
      (List.range cscps_task.CSCP_LOC_MAX)
    rwa [List.length_range] at this
  have hsw : cscps_task.cfm_switch env param rsp =
      { env := env,
        rsp := (cscps_task.supp_loc_loop param.supp_sensor_loc cscps_task.CSCP_LOC_MAX 0
          (Function.update rsp 1 cscps_task.CSCP_CTNL_PT_OP_REQ_SUPP_LOC,
            cscps_task.CSCP_SC_CNTL_PT_RSP_MIN_LEN)).1,
        rsp_len := (cscps_task.supp_loc_loop param.supp_sensor_loc cscps_task.CSCP_LOC_MAX 0
          (Function.update rsp 1 cscps_task.CSCP_CTNL_PT_OP_REQ_SUPP_LOC,
            cscps_task.CSCP_SC_CNTL_PT_RSP_MIN_LEN)).2,
        calls := [] } := by
    unfold cscps_task.cfm_switch
    rw [hop, if_neg (by decide), if_neg (by decide), if_pos rfl]
    simp only []
    rw [if_pos hst]
  rw [hsw]
  unfold cscp_supp_locs
  refine ⟨rfl, rfl, ?_, ?_, ?_⟩
  · show (cscps_task.supp_loc_loop param.supp_sensor_loc cscps_task.CSCP_LOC_MAX 0
      (Function.update rsp 1 cscps_task.CSCP_CTNL_PT_OP_REQ_SUPP_LOC,
        cscps_task.CSCP_SC_CNTL_PT_RSP_MIN_LEN)).2 = _
    rw [h1, hmin]
  · show List.map (cscps_task.supp_loc_loop param.supp_sensor_loc cscps_task.CSCP_LOC_MAX 0
        (Function.update rsp 1 cscps_task.CSCP_CTNL_PT_OP_REQ_SUPP_LOC,
          cscps_task.CSCP_SC_CNTL_PT_RSP_MIN_LEN)).1
      (List.range (cscps_task.supp_loc_loop param.supp_sensor_loc cscps_task.CSCP_LOC_MAX 0
        (Function.update rsp 1 cscps_task.CSCP_CTNL_PT_OP_REQ_SUPP_LOC,
          cscps_task.CSCP_SC_CNTL_PT_RSP_MIN_LEN)).2) = _
    rw [h2]
    rfl
  · intro k hk
    show (cscps_task.supp_loc_loop param.supp_sensor_loc cscps_task.CSCP_LOC_MAX 0
      (Function.update rsp 1 cscps_task.CSCP_CTNL_PT_OP_REQ_SUPP_LOC,
        cscps_task.CSCP_SC_CNTL_PT_RSP_MIN_LEN)).1 k = _
    rw [h3 k (by rw [h1]; omega), Function.update_noteq (by omega)]

/-- C29: the response to "request supported sensor locations" written by
`cscps_sc_ctnl_pt_cfm_handler`.  For a pending operation
`CSCPS_CTNL_PT_SUPP_LOC_OP_CODE` confirmed with `PRF_ERR_OK`, every
`supp_sensor_loc` and every content of the response buffer at entry: the
handler writes to the SC Control Point value the bytes response code, request
code `CSCP_CTNL_PT_OP_REQ_SUPP_LOC`, success, followed by the indices below
`CSCP_LOC_MAX` whose bit is set in `supp_sensor_loc`, in strictly increasing
order (hence each once), with the length 3 plus their number, and sends the
indication; the length is at most `CSCP_SC_CNTL_PT_RSP_MIN_LEN + CSCP_LOC_MAX`,
and the `switch` writes no byte of the buffer from index
`CSCP_SC_CNTL_PT_RSP_MAX_LEN` on. -/
theorem C29_supp_loc_response (env : cscps_task.cscps_env_tag) (state : Nat)
    (param : cscps_task.cscps_sc_ctnl_pt_cfm) (rsp : Nat → Nat) (dest_id src_id : Nat)
    (hop : env.operation = cscps_task.CSCPS_CTNL_PT_SUPP_LOC_OP_CODE)
    (hst : param.status = PRF_ERR_OK) :
    (cscps_task.cscps_sc_ctnl_pt_cfm_handler env state param rsp dest_id src_id).calls =
      [Call.attsdb_att_set_value
        (u16 (env.shdl + env.hdl_offset cscps_task.CSCP_CSCS_SC_CTNL_PT_CHAR + 1))
        (3 + (cscp_supp_locs param.supp_sensor_loc).length)
        ([cscps_task.CSCP_CTNL_PT_RSP_CODE, cscps_task.CSCP_CTNL_PT_OP_REQ_SUPP_LOC,
          cscps_task.CSCP_CTNL_PT_RESP_SUCCESS] ++ cscp_supp_locs param.supp_sensor_loc),
       Call.ke_msg_send ⟨.GATT_INDICATE_REQ, TASK_GATT, env.con_info.prf_id,
         .gatt_indicate_req env.con_info.conhdl
           (u16 (env.shdl + env.hdl_offset cscps_task.CSCP_CSCS_SC_CTNL_PT_CHAR + 1))⟩] ∧
    (∀ c, c ∈ cscp_supp_locs param.supp_sensor_loc ↔
      c < cscps_task.CSCP_LOC_MAX ∧ param.supp_sensor_loc.testBit c = true) ∧
    List.Pairwise (fun a b => a < b) (cscp_supp_locs param.supp_sensor_loc) ∧
    3 + (cscp_supp_locs param.supp_sensor_loc).length
      ≤ cscps_task.CSCP_SC_CNTL_PT_RSP_MIN_LEN + cscps_task.CSCP_LOC_MAX ∧
    (∀ (buf : Nat → Nat) (k : Nat), cscps_task.CSCP_SC_CNTL_PT_RSP_MAX_LEN ≤ k →
      (cscps_task.cfm_switch env param buf).rsp k = buf k) := by
  refine ⟨?_, ?_, ?_, ?_, ?_⟩
  · obtain ⟨h1, h2, h3, h4, -⟩ := cscps_cfm_switch_supp_loc env param
      (Function.update (Function.update rsp 0 cscps_task.CSCP_CTNL_PT_RSP_CODE) 2
        cscps_task.CSCP_CTNL_PT_RESP_SUCCESS) hop hst
    unfold cscps_task.cscps_sc_ctnl_pt_cfm_handler
    rw [if_neg (by rw [hop]; decide), if_pos hst]
    simp only []
    rw [h1, h2, h4, h3]
    rfl
  · intro c
    unfold cscp_supp_locs
    simp [List.mem_filter]
  · unfold cscp_supp_locs
    exact List.Pairwise.filter _ (List.pairwise_lt_range _)
  · have := List.length_filter_le (fun c => param.supp_sensor_loc.testBit c)
      (List.range cscps_task.CSCP_LOC_MAX)
    rw [List.length_range] at this
    unfold cscp_supp_locs
    simp only [cscps_task.CSCP_SC_CNTL_PT_RSP_MIN_LEN]
    omega
  · intro buf k hk
    exact (cscps_cfm_switch_supp_loc env param buf hop hst).2.2.2.2 k hk

/-- C29 for the bit mask `0x4012`: the locations 1, 4 and 14 are listed. -/
theorem C29_supp_loc_response_witness :
    (cscps_task.cscps_sc_ctnl_pt_cfm_handler
        (exCscpsEnv 0x30 cscps_task.CSCPS_CTNL_PT_SUPP_LOC_OP_CODE) cscps_task.CSCPS_BUSY
        (exCtnlPtCfm PRF_ERR_OK 0x4012) (fun _ => 0xEE) TASK_CSCPS 5).calls =
      [Call.attsdb_att_set_value 73 6 [16, 4, 1, 1, 4, 14],
       Call.ke_msg_send ⟨.GATT_INDICATE_REQ, TASK_GATT, TASK_CSCPS,
         .gatt_indicate_req 1 73⟩] :=
  (C29_supp_loc_response (exCscpsEnv 0x30 cscps_task.CSCPS_CTNL_PT_SUPP_LOC_OP_CODE)
    cscps_task.CSCPS_BUSY (exCtnlPtCfm PRF_ERR_OK 0x4012) (fun _ => 0xEE) TASK_CSCPS 5
    rfl rfl).1.trans (by decide)


/-- The least-significant bit of a sample is 1 for an odd sample and 0 for an
even one. -/
theorem rng_lsb_eq (s : Int) : rng.lsb s = if s % 2 = 1 then 1 else 0 := by
  unfold rng.lsb
  split_ifs with h
  · rw [h]
    rfl
  · have : s % 2 = 0 := by omega
    rw [this]
    rfl

/-- XOR of a bit with a parity. -/
theorem xor_bit_parity (b c : Nat) (hb : b = 0 ∨ b = 1) : b ^^^ (c % 2) = (b + c) % 2 := by
  have hc : c % 2 = 0 ∨ c % 2 = 1 := by omega
  rcases hb with rfl | rfl <;> rcases hc with h | h <;> rw [h] <;> simp <;> omega

/-- The inner loop of `rng_get`, run from sample `j` to the last one, XORs into
`rand` the parity of the least-significant bits of these samples. -/
theorem rng_inner_spec (buf : Nat → Int) :
    ∀ (n j rand : Nat), j + n = 16 →
      rng.rng_inner buf n j rand =
        rand ^^^ (((List.range' j n).filter (fun j => decide (buf j % 2 = 1))).length % 2) := by
  intro n
  induction n with
  | zero =>
    intro j rand _
    simp [rng.rng_inner]
  | succ n ih =>
    intro j rand hj
    unfold rng.rng_inner
    rw [if_pos (by omega), ih (j + 1) _ (by omega), Nat.xor_assoc, List.range'_succ,
      List.filter_cons, rng_lsb_eq]
    congr 1
    by_cases h : buf j % 2 = 1
    · simp only [h, if_true, decide_True, List.length_cons]
      rw [xor_bit_parity 1 _ (Or.inr rfl)]
      omega
    · simp only [h, if_false, decide_False]
      rw [xor_bit_parity 0 _ (Or.inl rfl)]
      simp

/-- Bits of a parity. -/
theorem testBit_parity (c q : Nat) :
    (c % 2).testBit q = (decide (q = 0) && decide (c % 2 = 1)) := by
  by_cases hq : q = 0
  · subst hq
    rw [Nat.testBit_zero]
    simp
  · have h2 : c % 2 < 2 ^ q := by
      have : 2 ^ 1 ≤ 2 ^ q := Nat.pow_le_pow_right (by norm_num) (by omega)
      omega
    rw [Nat.testBit_lt_two_pow h2]
    simp [hq]

/-- Bits of `rand` after one iteration of the outer loop of `rng_get`, when bit
0 of `rand` is clear at its start: bit 1 is the parity of the batch, the bits
above are those of `rand` one place lower, bit 0 is clear and so are the bits
from 32 on. -/
theorem rng_step_testBit (rand c m : Nat) (h0 : rand.testBit 0 = false) :
    (u32 ((rand ^^^ (c % 2)) <<< 1)).testBit m =
      (decide (m < 32) && (decide (1 ≤ m) &&
        (if m = 1 then decide (c % 2 = 1) else rand.testBit (m - 1)))) := by
  have h32 : (4294967296 : Nat) = 2 ^ 32 := by norm_num
  unfold u32
  rw [h32, Nat.testBit_mod_two_pow, Nat.testBit_shiftLeft, Nat.testBit_xor, testBit_parity]
  by_cases hm : m = 1
  · subst hm
    simp [h0]
  · by_cases hm0 : m = 0
    · subst hm0
      simp
    · have h1 : ¬ (m - 1 = 0) := by omega
      simp [hm, h1]

/-- The outer loop of `rng_get`, run from batch `i` to the last one with a
32-bit `rand` whose bit 0 is clear: bit `k` of the result is the parity of
batch `32 - k` for the batches read, and the bit of `rand` that the shifts
bring there for the higher bits below 32. -/
theorem rng_outer_spec (adc_read : Nat → Nat → Int) :
    ∀ (n i rand : Nat), i + n = 32 → rand < 2 ^ 32 → rand.testBit 0 = false →
      ∀ k, (rng.rng_outer adc_read n i rand).testBit k =
        (decide (k < 32) &&
          (if 1 ≤ k ∧ k ≤ n then rng_batch_parity (adc_read (32 - k))
           else (decide (n < k) && rand.testBit (k - n)))) := by
  intro n
  induction n with
  | zero =>
    intro i rand _ hr h0 k
    unfold rng.rng_outer
    rw [if_neg (by omega)]
    by_cases hk : k < 32
    · by_cases hk0 : k = 0
      · subst hk0
        simp [h0]
      · simp [hk, Nat.pos_of_ne_zero hk0]
    · have : rand < 2 ^ k :=
        Nat.lt_of_lt_of_le hr (Nat.pow_le_pow_right (by norm_num) (by omega))
      rw [Nat.testBit_lt_two_pow this]
      simp [hk]
  | succ n ih =>
    intro i rand hi hr h0 k
    have h32 : (4294967296 : Nat) = 2 ^ 32 := by norm_num
    unfold rng.rng_outer
    rw [if_pos (by omega), rng_inner_spec (adc_read i) 16 0 rand (by omega),
      ← List.range_eq_range']
    have hlt : u32 ((rand ^^^
        (((List.range 16).filter (fun j => decide (adc_read i j % 2 = 1))).length % 2)) <<< 1)
        < 2 ^ 32 := by
      unfold u32
      rw [h32]
      exact Nat.mod_lt _ (by norm_num)
    rw [ih (i + 1) _ (by omega) hlt (by rw [rng_step_testBit _ _ _ h0]; simp)]
    rw [rng_step_testBit _ _ _ h0]
    by_cases hk : k < 32
    · by_cases hkn : 1 ≤ k ∧ k ≤ n
      · have hkn2 : 1 ≤ k ∧ k ≤ n + 1 := ⟨hkn.1, by omega⟩
        simp only [if_pos hkn, if_pos hkn2]
      · by_cases hk1 : k = n + 1
        · subst hk1
          have hi2 : 32 - (n + 1) = i := by omega
          have e1 : n + 1 - n = 1 := by omega
          have e2 : 1 ≤ n + 1 ∧ n + 1 ≤ n + 1 := ⟨by omega, Nat.le_refl _⟩
          have e3 : ¬ (1 ≤ n + 1 ∧ n + 1 ≤ n) := by omega
          simp only [if_neg e3, if_pos e2, e1, hi2]
          simp [rng_batch_parity]
        · have hc : ¬ (1 ≤ k ∧ k ≤ n + 1) := by omega
          simp only [if_neg hkn, if_neg hc]
          by_cases hk2 : n + 1 < k
          · have e1 : ¬ (k - n = 1) := by omega
            have e2 : k - n - 1 = k - (n + 1) := by omega
            have e3 : k - n < 32 := by omega
            have e4 : 1 ≤ k - n := by omega
            have e5 : n < k := by omega
            simp [hk2, e1, e2, e3, e4, e5]
          · have e5 : ¬ (n < k) := by omega
            simp [hk2, e5]
    · simp [hk]

/-- Bits of the value returned by `rng_get`. -/
theorem rng_get_testBit (adc_read : Nat → Nat → Int) (k : Nat) :
    (rng.rng_get adc_read).testBit k =
      (decide (1 ≤ k ∧ k ≤ 31) && rng_batch_parity (adc_read (32 - k))) := by
  unfold rng.rng_get
  rw [rng_outer_spec adc_read 32 0 0 (by omega) (by norm_num) (by simp)]
  by_cases hk : k < 32
  · by_cases h1 : 1 ≤ k
    · have e1 : 1 ≤ k ∧ k ≤ 32 := ⟨h1, by omega⟩
      have e2 : 1 ≤ k ∧ k ≤ 31 := ⟨h1, by omega⟩
      simp [hk, e1, e2]
    · have e1 : ¬ (1 ≤ k ∧ k ≤ 32) := fun h => h1 h.1
      have e2 : ¬ (1 ≤ k ∧ k ≤ 31) := fun h => h1 h.1
      simp only [if_neg e1, decide_eq_false e2]
      simp
  · have e2 : ¬ (1 ≤ k ∧ k ≤ 31) := by omega
    simp only [decide_eq_false hk, decide_eq_false e2]
    simp

/-- C30: `rng_get` is a function of the 32 batches of 16 samples it reads.  For
every content of the batches: for `1 ≤ k ≤ 31`, bit `k` of the result is the
parity of the least-significant bits of the 16 samples of batch `32 - k`; bit 0
is clear, so the result is even; the result is below `2 ^ 32`; and two runs
whose batches 1 to 31 hold the same samples return the same value, whatever
their batches 0. -/
theorem C30_rng_get_bits (adc_read : Nat → Nat → Int) :
    (∀ k, 1 ≤ k → k ≤ 31 →
      (rng.rng_get adc_read).testBit k = rng_batch_parity (adc_read (32 - k))) ∧
    (rng.rng_get adc_read).testBit 0 = false ∧
    rng.rng_get adc_read % 2 = 0 ∧
    rng.rng_get adc_read < 2 ^ 32 ∧
    (∀ adc_read2 : Nat → Nat → Int,
      (∀ i j, 1 ≤ i → i < 32 → j < 16 → adc_read2 i j = adc_read i j) →
      rng.rng_get adc_read2 = rng.rng_get adc_read) := by
  have h0 : (rng.rng_get adc_read).testBit 0 = false := by
    rw [rng_get_testBit]
    simp
  refine ⟨?_, h0, ?_, ?_, ?_⟩
  · intro k h1 h2
    rw [rng_get_testBit]
    simp [h1, h2]
  · rw [Nat.testBit_zero] at h0
    have := Nat.mod_two_eq_zero_or_one (rng.rng_get adc_read)
    rcases this with h | h
    · exact h
    · simp [h] at h0
  · apply Nat.lt_pow_two_of_testBit
    intro k hk
    rw [rng_get_testBit]
    have e2 : ¬ (1 ≤ k ∧ k ≤ 31) := by omega
    simp [e2]
  · intro adc_read2 hsame
    apply Nat.eq_of_testBit_eq
    intro k
    rw [rng_get_testBit, rng_get_testBit]
    by_cases hk : 1 ≤ k ∧ k ≤ 31
    · have hp : rng_batch_parity (adc_read2 (32 - k)) = rng_batch_parity (adc_read (32 - k)) := by
        unfold rng_batch_parity
        have hf : (List.range 16).filter (fun j => decide (adc_read2 (32 - k) j % 2 = 1))
            = (List.range 16).filter (fun j => decide (adc_read (32 - k) j % 2 = 1)) := by
          apply List.filter_congr
          intro j hj
          rw [hsame (32 - k) j (by omega) (by omega) (List.mem_range.mp hj)]
        rw [hf]
      rw [hp]
    · simp [hk]

/-- C30 at the example samples: bit 1 of the result is set (batch 31 has one
odd sample), bit 4 is clear (batch 28 has none), and the result does not depend
on batch 0. -/
theorem C30_rng_get_bits_witness :
    (rng.rng_get exAdc).testBit 1 = true ∧
    (rng.rng_get exAdc).testBit 4 = false ∧
    rng.rng_get (fun i j => if i = 0 then 1 else exAdc i j) = rng.rng_get exAdc :=
  ⟨((C30_rng_get_bits exAdc).1 1 (by decide) (by decide)).trans (by decide),
   ((C30_rng_get_bits exAdc).1 4 (by decide) (by decide)).trans (by decide),
   (C30_rng_get_bits exAdc).2.2.2.2 (fun i j => if i = 0 then 1 else exAdc i j)
    (fun i j h1 _ _ => by simp only [if_neg (by omega : ¬ i = 0)])⟩
